import Mathlib

/-!
# Location HAL daemon: `LocationApiService`

A shallow embedding of `location_hal_daemon/LocationApiService.cpp`: the
message dispatcher `processClientMsg` and the registry operations it routes
to, over an explicit service state.

* The client collection `mClients` (a map from client name to handler) is an
  association list; `getClient` finds the entry of a name and `setClient`
  writes through the pointer `getClient` returned.
* Everything the service calls on a collaborator (a client handler, the
  location control API, the GNSS interface) is appended to the ghost trace
  `calls`; every registry operation appends itself to the ghost trace
  `entered` when it is entered.  Both traces only record; no operation reads
  them.
* Outcomes decided outside the service (engine results, `malloc`, the dynamic
  loader) are fields of `Env`.
* Declarations of headers that are not part of the sources (message layouts,
  sizes, bit constants) are fields of `Decls`.
* Dereferencing a null client pointer, and reading a descriptor beyond the
  message's descriptor array, end the operation with a `Fault`.
* A loop over `mClients` works on the handler each entry points to, entry by
  entry in iteration order (`forEachClient`; `resumeClients` for the loop of
  `onResume`, which can be left early).
* `onListenerReady` does not touch the service state; it is a function from
  the directory listing and the outcomes of `lstat` and of the sends to the
  list of indications sent and files removed.
* `construct` is the constructor up to the start of the receivers, `destructor`
  the destructor; `handleRegistrations` runs a sequence of register and
  deregister messages in between.
-/

namespace LocationHalDaemon

/-! ## Declarations taken from headers -/

/-- Message-type tag `ELocMsgID` as read from the header.  The enumerators the
dispatcher has a `case` for are listed by name; every other value of the tag
field is `E_LOCAPI_OTHER_MSG_ID raw`. -/
inductive ELocMsgID
  | E_LOCAPI_CLIENT_REGISTER_MSG_ID
  | E_LOCAPI_CLIENT_DEREGISTER_MSG_ID
  | E_LOCAPI_START_TRACKING_MSG_ID
  | E_LOCAPI_STOP_TRACKING_MSG_ID
  | E_LOCAPI_UPDATE_CALLBACKS_MSG_ID
  | E_LOCAPI_UPDATE_TRACKING_OPTIONS_MSG_ID
  | E_LOCAPI_START_BATCHING_MSG_ID
  | E_LOCAPI_STOP_BATCHING_MSG_ID
  | E_LOCAPI_UPDATE_BATCHING_OPTIONS_MSG_ID
  | E_LOCAPI_ADD_GEOFENCES_MSG_ID
  | E_LOCAPI_REMOVE_GEOFENCES_MSG_ID
  | E_LOCAPI_MODIFY_GEOFENCES_MSG_ID
  | E_LOCAPI_PAUSE_GEOFENCES_MSG_ID
  | E_LOCAPI_RESUME_GEOFENCES_MSG_ID
  | E_LOCAPI_CONTROL_UPDATE_CONFIG_MSG_ID
  | E_LOCAPI_CONTROL_DELETE_AIDING_DATA_MSG_ID
  | E_LOCAPI_CONTROL_UPDATE_NETWORK_AVAILABILITY_MSG_ID
  | E_LOCAPI_GET_GNSS_ENGERY_CONSUMED_MSG_ID
  | E_LOCAPI_PINGTEST_MSG_ID
  | E_LOCAPI_OTHER_MSG_ID (raw : Nat)
  deriving DecidableEq, Repr

open ELocMsgID

/-- Modelled from the spec: the batching mode enum, of which the source names
only `BATCHING_MODE_NO_AUTO_REPORT`; every other mode is `BATCHING_MODE_OTHER`. -/
inductive BatchingMode
  | BATCHING_MODE_NO_AUTO_REPORT
  | BATCHING_MODE_OTHER (raw : Nat)
  deriving DecidableEq, Repr

/-- The received buffer `data`: its bytes. -/
abbrev Bytes := List Nat

/-- The fixed header every message starts with. -/
structure LocAPIMsgHeader where
  mSocketName : String
  msgId : ELocMsgID
  deriving DecidableEq, Repr

/-- Payload of start-tracking and of update-tracking-options. -/
structure LocAPIStartTrackingReqMsg where
  mSocketName : String
  distanceInMeters : Nat
  intervalInMs : Nat
  deriving DecidableEq, Repr

/-- Payload of update-callbacks. -/
structure LocAPIUpdateCallbacksReqMsg where
  mSocketName : String
  locationCallbacks : Nat
  deriving DecidableEq, Repr

/-- Payload of start-batching and of update-batching-options. -/
structure LocAPIStartBatchingReqMsg where
  mSocketName : String
  intervalInMs : Nat
  distanceInMeters : Nat
  batchingMode : BatchingMode
  deriving DecidableEq, Repr

/-- One geofence descriptor of `geofences.gfPayload`. -/
structure GeofencePayload where
  gfClientId : Nat
  gfOption : Nat
  gfInfo : Nat
  deriving DecidableEq, Repr

/-- Payload of add-geofences and of modify-geofences: `geofences.count` and the
descriptor array `geofences.gfPayload` (as long as its declared capacity). -/
structure LocAPIAddGeofencesReqMsg where
  mSocketName : String
  count : Nat
  gfPayload : List GeofencePayload
  deriving DecidableEq, Repr

/-- Payload of remove-, pause- and resume-geofences: `gfClientIds.count` and
the id array `gfClientIds.gfIds`. -/
structure LocAPIRemoveGeofencesReqMsg where
  mSocketName : String
  count : Nat
  gfIds : List Nat
  deriving DecidableEq, Repr

/-- The indication `LocAPIGnssEnergyConsumedIndMsg(name, total)`. -/
structure LocAPIGnssEnergyConsumedIndMsg where
  mSocketName : String
  totalGnssEnergyConsumedSinceFirstBoot : Nat
  deriving DecidableEq, Repr

/-- The indication `LocAPIHalReadyIndMsg(name)`. -/
structure LocAPIHalReadyIndMsg where
  mSocketName : String
  deriving DecidableEq, Repr

/-- Declarations of `LocationApiMsg.h` and of the client-handler header, which
are not among the sources: the size of the request struct of each tag, the
typed views `reinterpret_cast` gives of a buffer, and the constants used. -/
structure Decls where
  sizeofReq : ELocMsgID → Nat
  header : Bytes → LocAPIMsgHeader
  startTrackingReq : Bytes → LocAPIStartTrackingReqMsg
  updateCallbacksReq : Bytes → LocAPIUpdateCallbacksReqMsg
  updateTrackingOptionsReq : Bytes → LocAPIStartTrackingReqMsg
  startBatchingReq : Bytes → LocAPIStartBatchingReqMsg
  updateBatchingOptionsReq : Bytes → LocAPIStartBatchingReqMsg
  addGeofencesReq : Bytes → LocAPIAddGeofencesReqMsg
  removeGeofencesReq : Bytes → LocAPIRemoveGeofencesReqMsg
  modifyGeofencesReq : Bytes → LocAPIAddGeofencesReqMsg
  pauseGeofencesReq : Bytes → LocAPIRemoveGeofencesReqMsg
  resumeGeofencesReq : Bytes → LocAPIRemoveGeofencesReqMsg
  gnssConfig : Bytes → Nat
  gnssAidingData : Bytes → Nat
  mAvailability : Bytes → Bool
  sizeofGeofenceOption : Nat
  sizeofGeofenceInfo : Nat
  sizeofUint32 : Nat
  E_ENGINE_INFO_CB_GNSS_ENERGY_CONSUMED_BIT : Nat
  LOCATION_SESSON_ALL_INFO_MASK : Nat
  SERVICE_NAME : String
  SOCKET_DIR_TO_CLIENT : String
  SOCKET_TO_LOCATION_CLIENT_BASE : String
  SOCKET_TO_EXTERANL_AP_LOCATION_CLIENT_BASE : String
  E_LOC_CB_GNSS_LOCATION_INFO_BIT : Nat
  E_LOC_CB_GNSS_SV_BIT : Nat
  /-- whether the build defines `POWERMANAGER_ENABLED` -/
  POWERMANAGER_ENABLED : Bool

/-- Outcomes decided outside the service during one operation. -/
structure Env where
  /-- whether `LocationControlAPI::createInstance` returns a handle -/
  createInstance : Bool
  /-- the id `enable` returns -/
  enable : Nat
  /-- whether `dlopen` returns a handle -/
  dlopen : Bool
  /-- whether `dlerror` reports an error after `dlopen` -/
  dlerrorAfterDlopen : Bool
  /-- what `dlsym` returns: no symbol, or a getter and the interface it yields -/
  dlsym : Option (Option Nat)
  /-- whether `dlerror` reports an error after `dlsym` -/
  dlerrorAfterDlsym : Bool
  /-- whether the `k`-th `malloc` of the operation, of the given size, succeeds -/
  malloc : Nat → Nat → Bool
  /-- whether the engine starts the tracking session of a client -/
  startTracking : String → Nat → Nat → Bool
  /-- whether the engine starts the batching session of a client -/
  startBatching : String → Nat → Nat → BatchingMode → Bool
  /-- the session ids the engine returns for a batch of geofences, if any -/
  addGeofences : String → Nat → List Nat → List Nat → Option (List Nat)
  /-- whether `PowerEvtHandler::getPwrEvtHandler` returns a handler -/
  getPwrEvtHandler : Bool

/-! ## The client handler -/

/-- Modelled from the spec: the Client Session of section 3
(`LocHalDaemonClientHandler`, whose header and implementation are not among
the sources).  `mTracking`, `mBatching`, `mBatchingMode`, `mPendingMessages`
and `mGfPendingMessages` are the members the service accesses directly. -/
structure LocHalDaemonClientHandler where
  mName : String
  mSubscriptionMask : Nat
  mTracking : Bool
  mTrackingOptions : Nat × Nat
  mBatching : Bool
  mBatchingMode : BatchingMode
  mBatchingOptions : Nat × Nat
  mPendingMessages : List ELocMsgID
  mGfPendingMessages : List ELocMsgID
  mGfIds : List (Nat × Nat)
  mEngineInfoRequestMask : Nat
  /-- the energy indications delivered to the client, oldest first -/
  mEnergyIndications : List LocAPIGnssEnergyConsumedIndMsg
  deriving DecidableEq, Repr

namespace LocHalDaemonClientHandler

/-- Modelled from the spec: the constructor `LocHalDaemonClientHandler(service,
name)`; a fresh session has nothing subscribed, active or pending. -/
def create (clientname : String) : LocHalDaemonClientHandler :=
  { mName := clientname
    mSubscriptionMask := 0
    mTracking := false
    mTrackingOptions := (0, 0)
    mBatching := false
    mBatchingMode := BatchingMode.BATCHING_MODE_NO_AUTO_REPORT
    mBatchingOptions := (0, 0)
    mPendingMessages := []
    mGfPendingMessages := []
    mGfIds := []
    mEngineInfoRequestMask := 0
    mEnergyIndications := [] }

/-- Modelled from the spec: `startTracking(minDistance, minInterval)` asks the
engine to start a tracking session with the given options; on success the
options are stored for resume, on failure the session is left as it was. -/
def startTracking (env : Env) (h : LocHalDaemonClientHandler)
    (minDistance minInterval : Nat) : LocHalDaemonClientHandler × Bool :=
  if env.startTracking h.mName minDistance minInterval then
    ({ h with mTrackingOptions := (minDistance, minInterval) }, true)
  else (h, false)

/-- Modelled from the spec: `stopTracking()` stops the engine session; the
stored options are retained. -/
def stopTracking (h : LocHalDaemonClientHandler) : LocHalDaemonClientHandler := h

/-- Modelled from the spec: `updateSubscription(mask)` replaces the
subscription mask. -/
def updateSubscription (h : LocHalDaemonClientHandler) (mask : Nat) :
    LocHalDaemonClientHandler :=
  { h with mSubscriptionMask := mask }

/-- Modelled from the spec: `unsubscribeLocationSessionCb()` clears the
location-session bits (`mask & ~LOCATION_SESSON_ALL_INFO_MASK` on 32 bits). -/
def unsubscribeLocationSessionCb (D : Decls) (h : LocHalDaemonClientHandler) :
    LocHalDaemonClientHandler :=
  let keep := (2 ^ 32 - 1) ^^^ (D.LOCATION_SESSON_ALL_INFO_MASK % 2 ^ 32)
  { h with mSubscriptionMask := h.mSubscriptionMask &&& keep }

/-- Modelled from the spec: `updateTrackingOptions` mutates the stored
options. -/
def updateTrackingOptions (h : LocHalDaemonClientHandler)
    (minDistance minInterval : Nat) : LocHalDaemonClientHandler :=
  { h with mTrackingOptions := (minDistance, minInterval) }

/-- Modelled from the spec: `startBatching(minInterval, minDistance, mode)`,
mirroring `startTracking`. -/
def startBatching (env : Env) (h : LocHalDaemonClientHandler)
    (minInterval minDistance : Nat) (mode : BatchingMode) :
    LocHalDaemonClientHandler × Bool :=
  if env.startBatching h.mName minInterval minDistance mode then
    ({ h with mBatchingOptions := (minInterval, minDistance) }, true)
  else (h, false)

/-- Modelled from the spec: `stopBatching()` stops the engine session. -/
def stopBatching (h : LocHalDaemonClientHandler) : LocHalDaemonClientHandler := h

/-- Modelled from the spec: `updateBatchingOptions` mutates the stored
options. -/
def updateBatchingOptions (h : LocHalDaemonClientHandler)
    (minInterval minDistance : Nat) (_mode : BatchingMode) : LocHalDaemonClientHandler :=
  { h with mBatchingOptions := (minInterval, minDistance) }

/-- Modelled from the spec: `addGeofences(count, options, infos)` asks the
engine to create the whole batch and returns its session ids, or nothing. -/
def addGeofences (env : Env) (h : LocHalDaemonClientHandler) (count : Nat)
    (gfOptions gfInfos : List Nat) : Option (List Nat) :=
  env.addGeofences h.mName count gfOptions gfInfos

/-- Record one pair, overwriting a mapping the client id already has. -/
def setGeofenceId (ids : List (Nat × Nat)) (clientId session : Nat) : List (Nat × Nat) :=
  match ids with
  | [] => [(clientId, session)]
  | e :: rest =>
    if e.1 = clientId then (clientId, session) :: rest
    else e :: setGeofenceId rest clientId session

/-- Modelled from the spec: `setGeofenceIds(count, clientIds, sessions)` records
each pair (clientId, engineSessionId) of the batch, in input order. -/
def setGeofenceIds (h : LocHalDaemonClientHandler) (count : Nat)
    (clientIds sessions : List Nat) : LocHalDaemonClientHandler :=
  let pairs := (clientIds.zip sessions).take count
  { h with mGfIds := pairs.foldl (fun ids p => setGeofenceId ids p.1 p.2) h.mGfIds }

/-- The engine session id mapped to one client geofence id. -/
def getSessionId (h : LocHalDaemonClientHandler) (clientId : Nat) : Option Nat :=
  (h.mGfIds.find? (fun e => e.1 = clientId)).map Prod.snd

/-- Translate `clientIds[i], i < n` from index `i` on. -/
def translateIds (h : LocHalDaemonClientHandler) (clientIds : List Nat) (i : Nat) :
    Nat → Option (List Nat)
  | 0 => some []
  | n + 1 =>
    match clientIds[i]? with
    | none => none
    | some c =>
      match h.getSessionId c with
      | none => none
      | some sid => (translateIds h clientIds (i + 1) n).map (fun rest => sid :: rest)

/-- Modelled from the spec: `getSessionIds(count, clientIds)` translates the
client ids through the geofence map; any id without a mapping fails the
lookup for the whole batch (a null result). -/
def getSessionIds (h : LocHalDaemonClientHandler) (count : Nat) (clientIds : List Nat) :
    Option (List Nat) :=
  translateIds h clientIds 0 count

/-- Modelled from the spec: `removeGeofences(count, sessions)` forwards the
batch to the engine and deletes the corresponding entries of the map. -/
def removeGeofences (h : LocHalDaemonClientHandler) (count : Nat) (sessions : List Nat) :
    LocHalDaemonClientHandler :=
  { h with mGfIds := h.mGfIds.filter (fun e => !((sessions.take count).contains e.2)) }

/-- Modelled from the spec: `modifyGeofences` forwards the batch to the engine. -/
def modifyGeofences (h : LocHalDaemonClientHandler) (_count : Nat)
    (_sessions _gfOptions : List Nat) : LocHalDaemonClientHandler := h

/-- Modelled from the spec: `pauseGeofences` forwards the batch to the engine. -/
def pauseGeofences (h : LocHalDaemonClientHandler) (_count : Nat) (_sessions : List Nat) :
    LocHalDaemonClientHandler := h

/-- Modelled from the spec: `resumeGeofences` forwards the batch to the engine. -/
def resumeGeofences (h : LocHalDaemonClientHandler) (_count : Nat) (_sessions : List Nat) :
    LocHalDaemonClientHandler := h

/-- Modelled from the spec: `pingTest()` answers the client; the session state
is not part of it. -/
def pingTest (h : LocHalDaemonClientHandler) : LocHalDaemonClientHandler := h

/-- Modelled from the spec: whether a one-shot engine query is outstanding for
this client (`mask & bit`). -/
def hasPendingEngineInfoRequest (h : LocHalDaemonClientHandler) (bit : Nat) : Bool :=
  (h.mEngineInfoRequestMask &&& bit) != 0

/-- Modelled from the spec: record the client's interest in a one-shot engine
query (`mask |= bit`). -/
def addEngineInfoRequst (h : LocHalDaemonClientHandler) (bit : Nat) :
    LocHalDaemonClientHandler :=
  { h with mEngineInfoRequestMask := h.mEngineInfoRequestMask ||| bit }

/-- Modelled from the spec: the overload `startTracking()` without arguments,
which restarts the engine session with the options stored before. -/
def restartTracking (env : Env) (h : LocHalDaemonClientHandler) :
    LocHalDaemonClientHandler × Bool :=
  h.startTracking env h.mTrackingOptions.1 h.mTrackingOptions.2

/-- Modelled from the spec: `onGnssEnergyConsumedInfoAvailable(msg)` delivers
the indication to the client when its energy-consumed request is pending; the
pending bit is not cleared. -/
def onGnssEnergyConsumedInfoAvailable (D : Decls) (h : LocHalDaemonClientHandler)
    (msg : LocAPIGnssEnergyConsumedIndMsg) : LocHalDaemonClientHandler :=
  if h.hasPendingEngineInfoRequest D.E_ENGINE_INFO_CB_GNSS_ENERGY_CONSUMED_BIT then
    { h with mEnergyIndications := h.mEnergyIndications ++ [msg] }
  else h

end LocHalDaemonClientHandler

/-! ## The service state -/

/-- A call the service makes on a collaborator: on the handler of the named
client, on the location control API, or on the GNSS interface.  The removal
of an entry from the client collection (`erase`) is recorded as well, so that
its order relative to `cleanup` is visible.  `cleanup` is the call
`pClient->cleanup()`, by which a session releases the engine resources it
holds: its tracking, its batching and all its geofences. -/
inductive Call
  | createInstance
  | enable
  | create (client : String)
  | erase (client : String)
  | cleanup (client : String)
  | startTracking (client : String) (minDistance minInterval : Nat)
  | stopTracking (client : String)
  | unsubscribeLocationSessionCb (client : String)
  | updateSubscription (client : String) (mask : Nat)
  | updateTrackingOptions (client : String) (minDistance minInterval : Nat)
  | startBatching (client : String) (minInterval minDistance : Nat) (mode : BatchingMode)
  | stopBatching (client : String)
  | updateBatchingOptions (client : String) (minInterval minDistance : Nat) (mode : BatchingMode)
  | addGeofences (client : String) (count : Nat) (gfOptions gfInfos : List Nat)
  | setGeofenceIds (client : String) (count : Nat) (clientIds sessions : List Nat)
  | removeGeofences (client : String) (count : Nat) (sessions : List Nat)
  | modifyGeofences (client : String) (count : Nat) (sessions gfOptions : List Nat)
  | pauseGeofences (client : String) (count : Nat) (sessions : List Nat)
  | resumeGeofences (client : String) (count : Nat) (sessions : List Nat)
  | pingTest (client : String)
  | addEngineInfoRequst (client : String) (bit : Nat)
  | gnssUpdateConfig (config : Nat)
  | gnssDeleteAidingData (data : Nat)
  | updateConnectionStatus (availability : Bool)
  | getGnssEnergyConsumed
  | onGnssEnergyConsumedInfoAvailable (client : String) (msg : LocAPIGnssEnergyConsumedIndMsg)
  | disable (id : Nat)
  | destroy
  deriving DecidableEq, Repr

/-- A registry operation entered, with its argument. -/
inductive Entered
  | newClient (pMsg : LocAPIMsgHeader)
  | deleteClient (pMsg : LocAPIMsgHeader)
  | startTracking (pMsg : LocAPIStartTrackingReqMsg)
  | stopTracking (pMsg : LocAPIMsgHeader)
  | updateSubscription (pMsg : LocAPIUpdateCallbacksReqMsg)
  | updateTrackingOptions (pMsg : LocAPIStartTrackingReqMsg)
  | startBatching (pMsg : LocAPIStartBatchingReqMsg)
  | stopBatching (pMsg : LocAPIMsgHeader)
  | updateBatchingOptions (pMsg : LocAPIStartBatchingReqMsg)
  | addGeofences (pMsg : LocAPIAddGeofencesReqMsg)
  | removeGeofences (pMsg : LocAPIRemoveGeofencesReqMsg)
  | modifyGeofences (pMsg : LocAPIAddGeofencesReqMsg)
  | pauseGeofences (pMsg : LocAPIRemoveGeofencesReqMsg)
  | resumeGeofences (pMsg : LocAPIRemoveGeofencesReqMsg)
  | gnssUpdateConfig (config : Nat)
  | gnssDeleteAidingData (data : Nat)
  | updateNetworkAvailability (availability : Bool)
  | getGnssEnergyConsumed (clientSocketName : String)
  | pingTest (pMsg : LocAPIMsgHeader)
  deriving DecidableEq, Repr

/-- What ends an operation abnormally. -/
inductive Fault
  | nullClientDereference
  | payloadIndexOutOfRange
  | nullControlApiDereference
  deriving DecidableEq, Repr

/-- State of `LocationApiService`: the client collection, the control handle
and id, the two statics of `getGnssInterface`, and the ghost traces. -/
structure LocationApiService where
  mClients : List (String × LocHalDaemonClientHandler)
  /-- whether `mLocationControlApi` is non-null -/
  mLocationControlApi : Bool
  mLocationControlId : Nat
  getGnssInterfaceFailed : Bool
  gnssInterface : Option Nat
  /-- ghost: registry operations entered, oldest first -/
  entered : List Entered
  /-- ghost: calls made on collaborators, oldest first -/
  calls : List Call
  /-- ghost: number of attempts to load `libgnss.so` -/
  loads : Nat
  deriving DecidableEq, Repr

namespace LocationApiService

/-- The names in the client collection. -/
def names (s : LocationApiService) : List String := s.mClients.map Prod.fst

/-- `mClients.find(clientname)`: the first entry under that name. -/
def find (cs : List (String × LocHalDaemonClientHandler)) (clientname : String) :
    Option LocHalDaemonClientHandler :=
  match cs with
  | [] => none
  | e :: rest => if e.1 = clientname then some e.2 else find rest clientname

/-- Modelled from the spec: `getClient(name)`, the registry lookup; a null
pointer is `none`. -/
def getClient (s : LocationApiService) (clientname : String) :
    Option LocHalDaemonClientHandler :=
  find s.mClients clientname

/-- Write `h` through the pointer found under `clientname`. -/
def store (cs : List (String × LocHalDaemonClientHandler)) (clientname : String)
    (h : LocHalDaemonClientHandler) : List (String × LocHalDaemonClientHandler) :=
  match cs with
  | [] => []
  | e :: rest =>
    if e.1 = clientname then (e.1, h) :: rest else e :: store rest clientname h

/-- The state after the handler `getClient` returned was mutated to `h`. -/
def setClient (s : LocationApiService) (clientname : String)
    (h : LocHalDaemonClientHandler) : LocationApiService :=
  { s with mClients := store s.mClients clientname h }

/-- `mClients.erase(clientname)`. -/
def erase (cs : List (String × LocHalDaemonClientHandler)) (clientname : String) :
    List (String × LocHalDaemonClientHandler) :=
  cs.filter (fun e => e.1 ≠ clientname)

/-- `mClients.emplace(clientname, pClient)`: no effect when the key exists. -/
def emplace (cs : List (String × LocHalDaemonClientHandler)) (clientname : String)
    (pClient : LocHalDaemonClientHandler) : List (String × LocHalDaemonClientHandler) :=
  match find cs clientname with
  | some _ => cs
  | none => cs ++ [(clientname, pClient)]

/-- Ghost: record a call on a collaborator. -/
def call (s : LocationApiService) (c : Call) : LocationApiService :=
  { s with calls := s.calls ++ [c] }

/-- Ghost: record that a registry operation was entered. -/
def enter (s : LocationApiService) (e : Entered) : LocationApiService :=
  { s with entered := s.entered ++ [e] }

/-- `mPendingMessages.push(id)`. -/
def pushPending (h : LocHalDaemonClientHandler) (id : ELocMsgID) : LocHalDaemonClientHandler :=
  { h with mPendingMessages := h.mPendingMessages ++ [id] }

/-- `mGfPendingMessages.push(id)`. -/
def pushGfPending (h : LocHalDaemonClientHandler) (id : ELocMsgID) :
    LocHalDaemonClientHandler :=
  { h with mGfPendingMessages := h.mGfPendingMessages ++ [id] }

/-- `checkEnableGnss`: create the control API and enable GNSS unless a handle
exists already. -/
def checkEnableGnss (env : Env) (s : LocationApiService) : LocationApiService :=
  if s.mLocationControlApi = false then
    let s := s.call Call.createInstance
    if env.createInstance = false then s
    else
      let s := { s with mLocationControlApi := true }
      let s := s.call Call.enable
      { s with mLocationControlId := env.enable }
  else s

/-- `getGnssInterface`: resolve the GNSS interface once; a failed load is
remembered in `getGnssInterfaceFailed`. -/
def getGnssInterface (env : Env) (s : LocationApiService) :
    LocationApiService × Option Nat :=
  if s.gnssInterface = none ∧ s.getGnssInterfaceFailed = false then
    let s := { s with loads := s.loads + 1 }
    let getter : Option (Option Nat) :=
      if env.dlopen = false then none
      else if env.dlerrorAfterDlopen then none
      else if env.dlerrorAfterDlsym then none
      else env.dlsym
    match getter with
    | none => ({ s with getGnssInterfaceFailed := true }, s.gnssInterface)
    | some produced => ({ s with gnssInterface := produced }, produced)
  else (s, s.gnssInterface)

/-! ## Registration -/

/-- `newClient`. -/
def newClient (env : Env) (s : LocationApiService) (pMsg : LocAPIMsgHeader) :
    LocationApiService :=
  let s := s.enter (Entered.newClient pMsg)
  let clientname := pMsg.mSocketName
  let s := checkEnableGnss env s
  if (find s.mClients clientname).isSome then s
  else
    let s := s.call (Call.create clientname)
    let pClient := LocHalDaemonClientHandler.create clientname
    { s with mClients := emplace s.mClients clientname pClient }

/-- `deleteClientbyName`. -/
def deleteClientbyName (s : LocationApiService) (clientname : String) : LocationApiService :=
  match s.getClient clientname with
  | none => s
  | some _ =>
    let s := s.call (Call.erase clientname)
    let s := { s with mClients := erase s.mClients clientname }
    s.call (Call.cleanup clientname)

/-- `deleteClient`. -/
def deleteClient (s : LocationApiService) (pMsg : LocAPIMsgHeader) : LocationApiService :=
  let s := s.enter (Entered.deleteClient pMsg)
  deleteClientbyName s pMsg.mSocketName

/-! ## Tracking -/

/-- `startTracking(LocAPIStartTrackingReqMsg*)`. -/
def startTracking (env : Env) (s : LocationApiService) (pMsg : LocAPIStartTrackingReqMsg) :
    LocationApiService :=
  let s := s.enter (Entered.startTracking pMsg)
  match s.getClient pMsg.mSocketName with
  | none => s
  | some pClient =>
    let s := s.call
      (Call.startTracking pMsg.mSocketName pMsg.distanceInMeters pMsg.intervalInMs)
    let r := pClient.startTracking env pMsg.distanceInMeters pMsg.intervalInMs
    if r.2 = false then s.setClient pMsg.mSocketName r.1
    else
      let pClient := { r.1 with mTracking := true }
      let pClient := pushPending pClient E_LOCAPI_START_TRACKING_MSG_ID
      s.setClient pMsg.mSocketName pClient

/-- `stopTracking(LocAPIStopTrackingReqMsg*)`. -/
def stopTracking (D : Decls) (s : LocationApiService) (pMsg : LocAPIMsgHeader) :
    LocationApiService :=
  let s := s.enter (Entered.stopTracking pMsg)
  match s.getClient pMsg.mSocketName with
  | none => s
  | some pClient =>
    let pClient := { pClient with mTracking := false }
    let s := s.call (Call.unsubscribeLocationSessionCb pMsg.mSocketName)
    let pClient := pClient.unsubscribeLocationSessionCb D
    let s := s.call (Call.stopTracking pMsg.mSocketName)
    let pClient := pClient.stopTracking
    let pClient := pushPending pClient E_LOCAPI_STOP_TRACKING_MSG_ID
    s.setClient pMsg.mSocketName pClient

/-- `updateSubscription(LocAPIUpdateCallbacksReqMsg*)`. -/
def updateSubscription (s : LocationApiService) (pMsg : LocAPIUpdateCallbacksReqMsg) :
    LocationApiService :=
  let s := s.enter (Entered.updateSubscription pMsg)
  match s.getClient pMsg.mSocketName with
  | none => s
  | some pClient =>
    let s := s.call (Call.updateSubscription pMsg.mSocketName pMsg.locationCallbacks)
    s.setClient pMsg.mSocketName (pClient.updateSubscription pMsg.locationCallbacks)

/-- `updateTrackingOptions(LocAPIUpdateTrackingOptionsReqMsg*)`. -/
def updateTrackingOptions (s : LocationApiService) (pMsg : LocAPIStartTrackingReqMsg) :
    LocationApiService :=
  let s := s.enter (Entered.updateTrackingOptions pMsg)
  match s.getClient pMsg.mSocketName with
  | some pClient =>
    let s := s.call
      (Call.updateTrackingOptions pMsg.mSocketName pMsg.distanceInMeters pMsg.intervalInMs)
    let pClient := pClient.updateTrackingOptions pMsg.distanceInMeters pMsg.intervalInMs
    let pClient := pushPending pClient E_LOCAPI_UPDATE_TRACKING_OPTIONS_MSG_ID
    s.setClient pMsg.mSocketName pClient
  | none => s

/-- `updateNetworkAvailability(bool)`. -/
def updateNetworkAvailability (env : Env) (s : LocationApiService) (availability : Bool) :
    LocationApiService :=
  let s := s.enter (Entered.updateNetworkAvailability availability)
  let r := getGnssInterface env s
  match r.2 with
  | some _ => r.1.call (Call.updateConnectionStatus availability)
  | none => r.1

/-- `getGnssEnergyConsumed(const char*)`. -/
def getGnssEnergyConsumed (D : Decls) (env : Env) (s : LocationApiService)
    (clientSocketName : String) : LocationApiService :=
  let s := s.enter (Entered.getGnssEnergyConsumed clientSocketName)
  let r := getGnssInterface env s
  match r.2 with
  | none => r.1
  | some _ =>
    let s := r.1
    let requestAlreadyPending := s.mClients.any (fun each =>
      each.2.hasPendingEngineInfoRequest D.E_ENGINE_INFO_CB_GNSS_ENERGY_CONSUMED_BIT)
    match s.getClient clientSocketName with
    | none => s
    | some pClient =>
      let s := s.call
        (Call.addEngineInfoRequst clientSocketName D.E_ENGINE_INFO_CB_GNSS_ENERGY_CONSUMED_BIT)
      let s := s.setClient clientSocketName
        (pClient.addEngineInfoRequst D.E_ENGINE_INFO_CB_GNSS_ENERGY_CONSUMED_BIT)
      if requestAlreadyPending = false then s.call Call.getGnssEnergyConsumed else s

/-! ## Batching -/

/-- `startBatching(LocAPIStartBatchingReqMsg*)`. -/
def startBatching (env : Env) (s : LocationApiService) (pMsg : LocAPIStartBatchingReqMsg) :
    LocationApiService :=
  let s := s.enter (Entered.startBatching pMsg)
  match s.getClient pMsg.mSocketName with
  | none => s
  | some pClient =>
    let s := s.call (Call.startBatching pMsg.mSocketName pMsg.intervalInMs
      pMsg.distanceInMeters pMsg.batchingMode)
    let r := pClient.startBatching env pMsg.intervalInMs pMsg.distanceInMeters
      pMsg.batchingMode
    if r.2 = false then s.setClient pMsg.mSocketName r.1
    else
      let pClient := { r.1 with mBatching := true }
      let pClient := { pClient with mBatchingMode := pMsg.batchingMode }
      let pClient := pushPending pClient E_LOCAPI_START_BATCHING_MSG_ID
      s.setClient pMsg.mSocketName pClient

/-- `stopBatching(LocAPIStopBatchingReqMsg*)`. -/
def stopBatching (s : LocationApiService) (pMsg : LocAPIMsgHeader) : LocationApiService :=
  let s := s.enter (Entered.stopBatching pMsg)
  match s.getClient pMsg.mSocketName with
  | none => s
  | some pClient =>
    let pClient := { pClient with mBatching := false }
    let pClient :=
      { pClient with mBatchingMode := BatchingMode.BATCHING_MODE_NO_AUTO_REPORT }
    let s := s.call (Call.updateSubscription pMsg.mSocketName 0)
    let pClient := pClient.updateSubscription 0
    let s := s.call (Call.stopBatching pMsg.mSocketName)
    let pClient := pClient.stopBatching
    let pClient := pushPending pClient E_LOCAPI_STOP_BATCHING_MSG_ID
    s.setClient pMsg.mSocketName pClient

/-- `updateBatchingOptions(LocAPIUpdateBatchingOptionsReqMsg*)`. -/
def updateBatchingOptions (s : LocationApiService) (pMsg : LocAPIStartBatchingReqMsg) :
    LocationApiService :=
  let s := s.enter (Entered.updateBatchingOptions pMsg)
  match s.getClient pMsg.mSocketName with
  | some pClient =>
    let s := s.call (Call.updateBatchingOptions pMsg.mSocketName pMsg.intervalInMs
      pMsg.distanceInMeters pMsg.batchingMode)
    let pClient := pClient.updateBatchingOptions pMsg.intervalInMs pMsg.distanceInMeters
      pMsg.batchingMode
    let pClient := pushPending pClient E_LOCAPI_UPDATE_BATCHING_OPTIONS_MSG_ID
    s.setClient pMsg.mSocketName pClient
  | none => s

/-! ## Geofences -/

/-- The copy loop `for (i = 0; i < count; ++i) ... gfPayload + i ...`: the
descriptors `i, i + 1, ...` (`n` of them), or nothing when an index lies
beyond the descriptor array. -/
def readPayload (gfPayload : List GeofencePayload) (i : Nat) :
    Nat → Option (List GeofencePayload)
  | 0 => some []
  | n + 1 =>
    match gfPayload[i]? with
    | none => none
    | some e => (readPayload gfPayload (i + 1) n).map (fun rest => e :: rest)

/-- `addGeofences(LocAPIAddGeofencesReqMsg*)`. -/
def addGeofences (D : Decls) (env : Env) (s : LocationApiService)
    (pMsg : LocAPIAddGeofencesReqMsg) : Except Fault LocationApiService :=
  let s := s.enter (Entered.addGeofences pMsg)
  match s.getClient pMsg.mSocketName with
  | none => Except.ok s
  | some pClient =>
    let gfOptions := env.malloc 0 (pMsg.count * D.sizeofGeofenceOption)
    let gfInfos := env.malloc 1 (pMsg.count * D.sizeofGeofenceInfo)
    let clientIds := env.malloc 2 (pMsg.count * D.sizeofUint32)
    if gfOptions = false ∨ gfInfos = false ∨ clientIds = false then Except.ok s
    else
      match readPayload pMsg.gfPayload 0 pMsg.count with
      | none => Except.error Fault.payloadIndexOutOfRange
      | some copied =>
        let gfOptions := copied.map GeofencePayload.gfOption
        let gfInfos := copied.map GeofencePayload.gfInfo
        let clientIds := copied.map GeofencePayload.gfClientId
        let s := s.call (Call.addGeofences pMsg.mSocketName pMsg.count gfOptions gfInfos)
        match pClient.addGeofences env pMsg.count gfOptions gfInfos with
        | none => Except.ok s
        | some sessions =>
          let s := s.call (Call.setGeofenceIds pMsg.mSocketName pMsg.count clientIds sessions)
          let pClient := pClient.setGeofenceIds pMsg.count clientIds sessions
          let pClient := pushGfPending pClient E_LOCAPI_ADD_GEOFENCES_MSG_ID
          Except.ok (s.setClient pMsg.mSocketName pClient)

/-- `removeGeofences(LocAPIRemoveGeofencesReqMsg*)`. -/
def removeGeofences (s : LocationApiService) (pMsg : LocAPIRemoveGeofencesReqMsg) :
    LocationApiService :=
  let s := s.enter (Entered.removeGeofences pMsg)
  match s.getClient pMsg.mSocketName with
  | none => s
  | some pClient =>
    match pClient.getSessionIds pMsg.count pMsg.gfIds with
    | some sessions =>
      let s := s.call (Call.removeGeofences pMsg.mSocketName pMsg.count sessions)
      let pClient := pClient.removeGeofences pMsg.count sessions
      let pClient := pushGfPending pClient E_LOCAPI_REMOVE_GEOFENCES_MSG_ID
      s.setClient pMsg.mSocketName pClient
    | none => s

/-- `modifyGeofences(LocAPIModifyGeofencesReqMsg*)`.  The client pointer is not
tested before `pClient->getSessionIds(...)`. -/
def modifyGeofences (D : Decls) (env : Env) (s : LocationApiService)
    (pMsg : LocAPIAddGeofencesReqMsg) : Except Fault LocationApiService :=
  let s := s.enter (Entered.modifyGeofences pMsg)
  let pClient := s.getClient pMsg.mSocketName
  let gfOptions := env.malloc 0 (D.sizeofGeofenceOption * pMsg.count)
  let clientIds := env.malloc 1 (D.sizeofUint32 * pMsg.count)
  if gfOptions = false ∨ clientIds = false then Except.ok s
  else
    match readPayload pMsg.gfPayload 0 pMsg.count with
    | none => Except.error Fault.payloadIndexOutOfRange
    | some copied =>
      let gfOptions := copied.map GeofencePayload.gfOption
      let clientIds := copied.map GeofencePayload.gfClientId
      match pClient with
      | none => Except.error Fault.nullClientDereference
      | some pClient =>
        match pClient.getSessionIds pMsg.count clientIds with
        | some sessions =>
          let s := s.call
            (Call.modifyGeofences pMsg.mSocketName pMsg.count sessions gfOptions)
          let pClient := pClient.modifyGeofences pMsg.count sessions gfOptions
          let pClient := pushGfPending pClient E_LOCAPI_MODIFY_GEOFENCES_MSG_ID
          Except.ok (s.setClient pMsg.mSocketName pClient)
        | none => Except.ok s

/-- `pauseGeofences(LocAPIPauseGeofencesReqMsg*)`. -/
def pauseGeofences (s : LocationApiService) (pMsg : LocAPIRemoveGeofencesReqMsg) :
    LocationApiService :=
  let s := s.enter (Entered.pauseGeofences pMsg)
  match s.getClient pMsg.mSocketName with
  | none => s
  | some pClient =>
    match pClient.getSessionIds pMsg.count pMsg.gfIds with
    | some sessions =>
      let s := s.call (Call.pauseGeofences pMsg.mSocketName pMsg.count sessions)
      let pClient := pClient.pauseGeofences pMsg.count sessions
      let pClient := pushGfPending pClient E_LOCAPI_PAUSE_GEOFENCES_MSG_ID
      s.setClient pMsg.mSocketName pClient
    | none => s

/-- `resumeGeofences(LocAPIResumeGeofencesReqMsg*)`. -/
def resumeGeofences (s : LocationApiService) (pMsg : LocAPIRemoveGeofencesReqMsg) :
    LocationApiService :=
  let s := s.enter (Entered.resumeGeofences pMsg)
  match s.getClient pMsg.mSocketName with
  | none => s
  | some pClient =>
    match pClient.getSessionIds pMsg.count pMsg.gfIds with
    | some sessions =>
      let s := s.call (Call.resumeGeofences pMsg.mSocketName pMsg.count sessions)
      let pClient := pClient.resumeGeofences pMsg.count sessions
      let pClient := pushGfPending pClient E_LOCAPI_RESUME_GEOFENCES_MSG_ID
      s.setClient pMsg.mSocketName pClient
    | none => s

/-! ## Other requests -/

/-- `pingTest(LocAPIPingTestReqMsg*)`. -/
def pingTest (s : LocationApiService) (pMsg : LocAPIMsgHeader) : LocationApiService :=
  let s := s.enter (Entered.pingTest pMsg)
  match s.getClient pMsg.mSocketName with
  | none => s
  | some pClient =>
    let s := s.call (Call.pingTest pMsg.mSocketName)
    s.setClient pMsg.mSocketName pClient.pingTest

/-- Modelled from the spec: `gnssUpdateConfig(config)`, whose body is not among
the sources; the request is forwarded to the engine control channel. -/
def gnssUpdateConfig (s : LocationApiService) (config : Nat) : LocationApiService :=
  let s := s.enter (Entered.gnssUpdateConfig config)
  s.call (Call.gnssUpdateConfig config)

/-- Modelled from the spec: `gnssDeleteAidingData(data)`, whose body is not
among the sources; the request is forwarded to the engine control channel. -/
def gnssDeleteAidingData (s : LocationApiService) (data : Nat) : LocationApiService :=
  let s := s.enter (Entered.gnssDeleteAidingData data)
  s.call (Call.gnssDeleteAidingData data)

/-! ## The dispatcher -/

/-- `processClientMsg(data)`: switch on the tag of the header; each case first
compares the size of its request struct with `data.length()` and leaves on a
mismatch, otherwise calls its operation on the buffer viewed as that struct. -/
def processClientMsg (D : Decls) (env : Env) (s : LocationApiService) (data : Bytes) :
    Except Fault LocationApiService :=
  match (D.header data).msgId with
  | E_LOCAPI_CLIENT_REGISTER_MSG_ID =>
    if D.sizeofReq E_LOCAPI_CLIENT_REGISTER_MSG_ID ≠ data.length then Except.ok s
    else Except.ok (newClient env s (D.header data))
  | E_LOCAPI_CLIENT_DEREGISTER_MSG_ID =>
    if D.sizeofReq E_LOCAPI_CLIENT_DEREGISTER_MSG_ID ≠ data.length then Except.ok s
    else Except.ok (deleteClient s (D.header data))
  | E_LOCAPI_START_TRACKING_MSG_ID =>
    if D.sizeofReq E_LOCAPI_START_TRACKING_MSG_ID ≠ data.length then Except.ok s
    else Except.ok (startTracking env s (D.startTrackingReq data))
  | E_LOCAPI_STOP_TRACKING_MSG_ID =>
    if D.sizeofReq E_LOCAPI_STOP_TRACKING_MSG_ID ≠ data.length then Except.ok s
    else Except.ok (stopTracking D s (D.header data))
  | E_LOCAPI_UPDATE_CALLBACKS_MSG_ID =>
    if D.sizeofReq E_LOCAPI_UPDATE_CALLBACKS_MSG_ID ≠ data.length then Except.ok s
    else Except.ok (updateSubscription s (D.updateCallbacksReq data))
  | E_LOCAPI_UPDATE_TRACKING_OPTIONS_MSG_ID =>
    if D.sizeofReq E_LOCAPI_UPDATE_TRACKING_OPTIONS_MSG_ID ≠ data.length then Except.ok s
    else Except.ok (updateTrackingOptions s (D.updateTrackingOptionsReq data))
  | E_LOCAPI_START_BATCHING_MSG_ID =>
    if D.sizeofReq E_LOCAPI_START_BATCHING_MSG_ID ≠ data.length then Except.ok s
    else Except.ok (startBatching env s (D.startBatchingReq data))
  | E_LOCAPI_STOP_BATCHING_MSG_ID =>
    if D.sizeofReq E_LOCAPI_STOP_BATCHING_MSG_ID ≠ data.length then Except.ok s
    else Except.ok (stopBatching s (D.header data))
  | E_LOCAPI_UPDATE_BATCHING_OPTIONS_MSG_ID =>
    if D.sizeofReq E_LOCAPI_UPDATE_BATCHING_OPTIONS_MSG_ID ≠ data.length then Except.ok s
    else Except.ok (updateBatchingOptions s (D.updateBatchingOptionsReq data))
  | E_LOCAPI_ADD_GEOFENCES_MSG_ID =>
    if D.sizeofReq E_LOCAPI_ADD_GEOFENCES_MSG_ID ≠ data.length then Except.ok s
    else addGeofences D env s (D.addGeofencesReq data)
  | E_LOCAPI_REMOVE_GEOFENCES_MSG_ID =>
    if D.sizeofReq E_LOCAPI_REMOVE_GEOFENCES_MSG_ID ≠ data.length then Except.ok s
    else Except.ok (removeGeofences s (D.removeGeofencesReq data))
  | E_LOCAPI_MODIFY_GEOFENCES_MSG_ID =>
    if D.sizeofReq E_LOCAPI_MODIFY_GEOFENCES_MSG_ID ≠ data.length then Except.ok s
    else modifyGeofences D env s (D.modifyGeofencesReq data)
  | E_LOCAPI_PAUSE_GEOFENCES_MSG_ID =>
    if D.sizeofReq E_LOCAPI_PAUSE_GEOFENCES_MSG_ID ≠ data.length then Except.ok s
    else Except.ok (pauseGeofences s (D.pauseGeofencesReq data))
  | E_LOCAPI_RESUME_GEOFENCES_MSG_ID =>
    if D.sizeofReq E_LOCAPI_RESUME_GEOFENCES_MSG_ID ≠ data.length then Except.ok s
    else Except.ok (resumeGeofences s (D.resumeGeofencesReq data))
  | E_LOCAPI_CONTROL_UPDATE_CONFIG_MSG_ID =>
    if D.sizeofReq E_LOCAPI_CONTROL_UPDATE_CONFIG_MSG_ID ≠ data.length then Except.ok s
    else Except.ok (gnssUpdateConfig s (D.gnssConfig data))
  | E_LOCAPI_CONTROL_DELETE_AIDING_DATA_MSG_ID =>
    if D.sizeofReq E_LOCAPI_CONTROL_DELETE_AIDING_DATA_MSG_ID ≠ data.length then Except.ok s
    else Except.ok (gnssDeleteAidingData s (D.gnssAidingData data))
  | E_LOCAPI_CONTROL_UPDATE_NETWORK_AVAILABILITY_MSG_ID =>
    if D.sizeofReq E_LOCAPI_CONTROL_UPDATE_NETWORK_AVAILABILITY_MSG_ID ≠ data.length then Except.ok s
    else Except.ok (updateNetworkAvailability env s (D.mAvailability data))
  | E_LOCAPI_GET_GNSS_ENGERY_CONSUMED_MSG_ID =>
    if D.sizeofReq E_LOCAPI_GET_GNSS_ENGERY_CONSUMED_MSG_ID ≠ data.length then Except.ok s
    else Except.ok (getGnssEnergyConsumed D env s (D.header data).mSocketName)
  | E_LOCAPI_PINGTEST_MSG_ID =>
    if D.sizeofReq E_LOCAPI_PINGTEST_MSG_ID ≠ data.length then Except.ok s
    else Except.ok (pingTest s (D.header data))
  | E_LOCAPI_OTHER_MSG_ID _ => Except.ok s

/-! ## Callbacks: power events and the energy report -/

/-- A loop `for (auto each : mClients) body` whose body works on the handler the
entry points to: the entries after the loop and the calls the bodies made, in
iteration order. -/
def forEachClient (body : String → LocHalDaemonClientHandler →
      LocHalDaemonClientHandler × List Call) :
    List (String × LocHalDaemonClientHandler) →
      List (String × LocHalDaemonClientHandler) × List Call
  | [] => ([], [])
  | each :: rest =>
    let b := body each.1 each.2
    let r := forEachClient body rest
    ((each.1, b.1) :: r.1, b.2 ++ r.2)

/-- The body of the loop of `onSuspend`: stop the session if it is running. -/
def suspendClient (name : String) (client : LocHalDaemonClientHandler) :
    LocHalDaemonClientHandler × List Call :=
  if client.mTracking then
    let client := client.stopTracking
    let client := pushPending client E_LOCAPI_STOP_TRACKING_MSG_ID
    (client, [Call.stopTracking name])
  else (client, [])

/-- `onSuspend`. -/
def onSuspend (s : LocationApiService) : LocationApiService :=
  let r := forEachClient suspendClient s.mClients
  { s with mClients := r.1, calls := s.calls ++ r.2 }

/-- The loop of `onResume`, which is left by `return` at the first session whose
restart fails: the entries after the loop and the calls made. -/
def resumeClients (env : Env) :
    List (String × LocHalDaemonClientHandler) →
      List (String × LocHalDaemonClientHandler) × List Call
  | [] => ([], [])
  | client :: rest =>
    if client.2.mTracking then
      let asked :=
        Call.startTracking client.1 client.2.mTrackingOptions.1 client.2.mTrackingOptions.2
      let r := client.2.restartTracking env
      if r.2 = false then ((client.1, r.1) :: rest, [asked])
      else
        let pClient := pushPending r.1 E_LOCAPI_START_TRACKING_MSG_ID
        let t := resumeClients env rest
        ((client.1, pClient) :: t.1, asked :: t.2)
    else
      let t := resumeClients env rest
      (client :: t.1, t.2)

/-- `onResume`. -/
def onResume (env : Env) (s : LocationApiService) : LocationApiService :=
  let r := resumeClients env s.mClients
  { s with mClients := r.1, calls := s.calls ++ r.2 }

/-- `onShutdown`. -/
def onShutdown (s : LocationApiService) : LocationApiService :=
  onSuspend s

/-- The body of the loop of `onGnssEnergyConsumedCb`. -/
def deliverEnergy (D : Decls) (msg : LocAPIGnssEnergyConsumedIndMsg) (name : String)
    (each : LocHalDaemonClientHandler) : LocHalDaemonClientHandler × List Call :=
  (each.onGnssEnergyConsumedInfoAvailable D msg,
    [Call.onGnssEnergyConsumedInfoAvailable name msg])

/-- `onGnssEnergyConsumedCb(totalGnssEnergyConsumedSinceFirstBoot)`. -/
def onGnssEnergyConsumedCb (D : Decls) (s : LocationApiService)
    (totalGnssEnergyConsumedSinceFirstBoot : Nat) : LocationApiService :=
  let msg : LocAPIGnssEnergyConsumedIndMsg :=
    ⟨D.SERVICE_NAME, totalGnssEnergyConsumedSinceFirstBoot⟩
  let r := forEachClient (deliverEnergy D msg) s.mClients
  { s with mClients := r.1, calls := s.calls ++ r.2 }

/-- The scan of `getGnssEnergyConsumed` for a session whose energy-consumed
request is pending. -/
def requestAlreadyPending (D : Decls) (s : LocationApiService) : Bool :=
  s.mClients.any (fun each =>
    each.2.hasPendingEngineInfoRequest D.E_ENGINE_INFO_CB_GNSS_ENERGY_CONSUMED_BIT)

/-! ## The readiness broadcast -/

/-- One entry `readdir` returns, with the outcome of `lstat` on its full path. -/
structure Dirent where
  d_name : String
  lstat : Bool
  deriving DecidableEq, Repr

/-- What `onListenerReady` does to the outside: a ready indication sent to a
socket name, or a socket file removed. -/
inductive ReadyAction
  | send (clientName : String) (msg : LocAPIHalReadyIndMsg)
  | remove (fname : String)
  deriving DecidableEq, Repr

/-- `0 == fname.compare(0, base.size(), base)`: `fname` begins with `base`. -/
def startsWith (fname base : String) : Bool :=
  base.data.isPrefixOf fname.data

/-- `fname.c_str() + strlen(base)`: `fname` without its first `strlen(base)`
characters. -/
def skipBase (fname base : String) : String :=
  String.mk (fname.data.drop base.data.length)

/-- Whether `'.' == d_name[0]`. -/
def isHidden (dp : Dirent) : Bool :=
  dp.d_name.data.head? = some '.'

/-- The body of the `readdir` loop of `onListenerReady` for one entry. -/
def readyEntry (D : Decls) (send : String → Bool) (externalApIpc : Bool) (dp : Dirent) :
    List ReadyAction :=
  let fname := D.SOCKET_DIR_TO_CLIENT ++ dp.d_name
  if dp.lstat = false then []
  else if isHidden dp then []
  else
    let clientName : Option String :=
      if externalApIpc = false ∧ startsWith fname D.SOCKET_TO_LOCATION_CLIENT_BASE = true then
        some fname
      else if externalApIpc = true ∧
          startsWith fname D.SOCKET_TO_EXTERANL_AP_LOCATION_CLIENT_BASE = true then
        some (skipBase fname D.SOCKET_TO_EXTERANL_AP_LOCATION_CLIENT_BASE)
      else none
    match clientName with
    | none => []
    | some clientName =>
      let sendSuccessful := send clientName
      if sendSuccessful = false ∧ externalApIpc = true then
        [ReadyAction.send clientName ⟨D.SERVICE_NAME⟩, ReadyAction.remove fname]
      else [ReadyAction.send clientName ⟨D.SERVICE_NAME⟩]

/-- The `readdir` loop. -/
def readyEntries (D : Decls) (send : String → Bool) (externalApIpc : Bool) :
    List Dirent → List ReadyAction
  | [] => []
  | dp :: rest => readyEntry D send externalApIpc dp ++ readyEntries D send externalApIpc rest

/-- `onListenerReady(externalApIpc)`: `dirp` is what `opendir` yields (nothing,
or the entries `readdir` returns in turn) and `send` tells for a socket name
whether the send to it succeeds. -/
def onListenerReady (D : Decls) (dirp : Option (List Dirent)) (send : String → Bool)
    (externalApIpc : Bool) : List ReadyAction :=
  match dirp with
  | none => []
  | some entries => readyEntries D send externalApIpc entries

/-- The socket names a ready indication was sent to, in order. -/
def sentTo : List ReadyAction → List String
  | [] => []
  | ReadyAction.send clientName _ :: rest => clientName :: sentTo rest
  | ReadyAction.remove _ :: rest => sentTo rest

/-- The files removed, in order. -/
def removed : List ReadyAction → List String
  | [] => []
  | ReadyAction.send _ _ :: rest => removed rest
  | ReadyAction.remove fname :: rest => fname :: removed rest

/-! ## Construction and teardown -/

/-- The members and statics before the body of the constructor runs. -/
def initial : LocationApiService :=
  { mClients := []
    mLocationControlApi := false
    mLocationControlId := 0
    getGnssInterfaceFailed := false
    gnssInterface := none
    entered := []
    calls := []
    loads := 0 }

/-- The constructor `LocationApiService(autostart, sessiontbfms)` up to the
start of the receivers.  With `POWERMANAGER_ENABLED` it returns before the
auto-start block when no power event handler is obtained. -/
def construct (D : Decls) (env : Env) (autostart sessiontbfms : Nat) : LocationApiService :=
  let s := initial
  if D.POWERMANAGER_ENABLED = true ∧ env.getPwrEvtHandler = false then s
  else if autostart ≠ 0 then
    let s := checkEnableGnss env s
    let s := s.call (Call.create "default")
    let pClient := LocHalDaemonClientHandler.create "default"
    let s := { s with mClients := emplace s.mClients "default" pClient }
    let mask := D.E_LOC_CB_GNSS_LOCATION_INFO_BIT ||| D.E_LOC_CB_GNSS_SV_BIT
    let s := s.call (Call.updateSubscription "default" mask)
    let pClient := pClient.updateSubscription mask
    let s := s.call (Call.startTracking "default" 0 sessiontbfms)
    let pClient := (pClient.startTracking env 0 sessiontbfms).1
    let pClient := { pClient with mTracking := true }
    let pClient := pushPending pClient E_LOCAPI_START_TRACKING_MSG_ID
    s.setClient "default" pClient
  else s

/-- The body of the loop of the destructor: modelled from the spec, `cleanup()`
releases the engine resources of the session. -/
def cleanupClient (name : String) (each : LocHalDaemonClientHandler) :
    LocHalDaemonClientHandler × List Call :=
  (each, [Call.cleanup name])

/-- The loop of the destructor that frees the resources of every client still
in the collection. -/
def releaseClients (s : LocationApiService) : LocationApiService :=
  let r := forEachClient cleanupClient s.mClients
  { s with mClients := r.1, calls := s.calls ++ r.2 }

/-- The destructor `~LocationApiService()`: after the loop it calls `disable`
and `destroy` through `mLocationControlApi` without testing the pointer. -/
def destructor (s : LocationApiService) : Except Fault LocationApiService :=
  let s := releaseClients s
  if s.mLocationControlApi = false then Except.error Fault.nullControlApiDereference
  else
    let s := s.call (Call.disable s.mLocationControlId)
    Except.ok (s.call Call.destroy)

/-- A register or a deregister message, with the outcomes of the external calls
made while it is handled. -/
inductive RegistrationMsg
  | register (env : Env) (pMsg : LocAPIMsgHeader)
  | deregister (pMsg : LocAPIMsgHeader)

/-- Handle one register or deregister message. -/
def handleRegistration (s : LocationApiService) : RegistrationMsg → LocationApiService
  | RegistrationMsg.register env pMsg => newClient env s pMsg
  | RegistrationMsg.deregister pMsg => deleteClient s pMsg

/-- Handle a sequence of register and deregister messages, first to last. -/
def handleRegistrations (s : LocationApiService) (msgs : List RegistrationMsg) :
    LocationApiService :=
  msgs.foldl handleRegistration s

/-- Successive calls of `getGnssInterface`, one per environment: the state after
the last call and the handles returned, first to last. -/
def getGnssInterfaceRepeatedly (s : LocationApiService) :
    List Env → LocationApiService × List (Option Nat)
  | [] => (s, [])
  | env :: later =>
    let r := getGnssInterface env s
    let t := getGnssInterfaceRepeatedly r.1 later
    (t.1, r.2 :: t.2)

/-! ## Frame conditions on the two pending queues -/

/-- A session changed at most by acknowledgments appended to its geofence
queue `mGfPendingMessages`; its queue `mPendingMessages` is the same. -/
def gfQueueOnly (h0 h1 : LocHalDaemonClientHandler) : Prop :=
  h1.mPendingMessages = h0.mPendingMessages ∧
    h0.mGfPendingMessages <+: h1.mGfPendingMessages

/-- A session changed at most by acknowledgments appended to its queue
`mPendingMessages`; its geofence queue `mGfPendingMessages` is the same. -/
def pendingQueueOnly (h0 h1 : LocHalDaemonClientHandler) : Prop :=
  h1.mGfPendingMessages = h0.mGfPendingMessages ∧
    h0.mPendingMessages <+: h1.mPendingMessages

/-- Every session of `s` is still registered in `s'` and related to its former
self by `P`. -/
def sessionsRelated (P : LocHalDaemonClientHandler → LocHalDaemonClientHandler → Prop)
    (s s' : LocationApiService) : Prop :=
  ∀ name h0, s.getClient name = some h0 →
    ∃ h1, s'.getClient name = some h1 ∧ P h0 h1

/-- The cleanups recorded for a name so far, with the one still owed to its
session in the registry, balance the sessions created under that name; names
are unique. -/
def releaseBalanced (s : LocationApiService) : Prop :=
  s.names.Nodup ∧
    ∀ name, s.calls.count (Call.cleanup name) + (if name ∈ s.names then 1 else 0) =
      s.calls.count (Call.create name)

/-- The engine was enabled at most once, and not at all while there is no
control handle. -/
def enabledAtMostOnce (s : LocationApiService) : Prop :=
  (s.mLocationControlApi = false → s.calls.count Call.enable = 0) ∧
    s.calls.count Call.enable ≤ 1

/-! ## The dispatch table as the specification words it -/

/-- Whether a tag is one of the enumerated request types. -/
def isRequestType : ELocMsgID → Bool
  | E_LOCAPI_OTHER_MSG_ID _ => false
  | _ => true

/-- The dispatch table of the specification: the registry operation that
corresponds to a request tag, applied to the payload of the buffer
(register -> newClient, deregister -> deleteClient, start-tracking ->
startTracking, ..., ping-test -> pingTest). -/
def correspondingOperation (D : Decls) (data : Bytes) : ELocMsgID → Option Entered
  | E_LOCAPI_CLIENT_REGISTER_MSG_ID => some (Entered.newClient (D.header data))
  | E_LOCAPI_CLIENT_DEREGISTER_MSG_ID => some (Entered.deleteClient (D.header data))
  | E_LOCAPI_START_TRACKING_MSG_ID => some (Entered.startTracking (D.startTrackingReq data))
  | E_LOCAPI_STOP_TRACKING_MSG_ID => some (Entered.stopTracking (D.header data))
  | E_LOCAPI_UPDATE_CALLBACKS_MSG_ID =>
    some (Entered.updateSubscription (D.updateCallbacksReq data))
  | E_LOCAPI_UPDATE_TRACKING_OPTIONS_MSG_ID =>
    some (Entered.updateTrackingOptions (D.updateTrackingOptionsReq data))
  | E_LOCAPI_START_BATCHING_MSG_ID => some (Entered.startBatching (D.startBatchingReq data))
  | E_LOCAPI_STOP_BATCHING_MSG_ID => some (Entered.stopBatching (D.header data))
  | E_LOCAPI_UPDATE_BATCHING_OPTIONS_MSG_ID =>
    some (Entered.updateBatchingOptions (D.updateBatchingOptionsReq data))
  | E_LOCAPI_ADD_GEOFENCES_MSG_ID => some (Entered.addGeofences (D.addGeofencesReq data))
  | E_LOCAPI_REMOVE_GEOFENCES_MSG_ID =>
    some (Entered.removeGeofences (D.removeGeofencesReq data))
  | E_LOCAPI_MODIFY_GEOFENCES_MSG_ID =>
    some (Entered.modifyGeofences (D.modifyGeofencesReq data))
  | E_LOCAPI_PAUSE_GEOFENCES_MSG_ID => some (Entered.pauseGeofences (D.pauseGeofencesReq data))
  | E_LOCAPI_RESUME_GEOFENCES_MSG_ID =>
    some (Entered.resumeGeofences (D.resumeGeofencesReq data))
  | E_LOCAPI_CONTROL_UPDATE_CONFIG_MSG_ID => some (Entered.gnssUpdateConfig (D.gnssConfig data))
  | E_LOCAPI_CONTROL_DELETE_AIDING_DATA_MSG_ID =>
    some (Entered.gnssDeleteAidingData (D.gnssAidingData data))
  | E_LOCAPI_CONTROL_UPDATE_NETWORK_AVAILABILITY_MSG_ID =>
    some (Entered.updateNetworkAvailability (D.mAvailability data))
  | E_LOCAPI_GET_GNSS_ENGERY_CONSUMED_MSG_ID =>
    some (Entered.getGnssEnergyConsumed (D.header data).mSocketName)
  | E_LOCAPI_PINGTEST_MSG_ID => some (Entered.pingTest (D.header data))
  | E_LOCAPI_OTHER_MSG_ID _ => none

/-- One invocation of the registry operation a value of `Entered` names. -/
def invoke (D : Decls) (env : Env) (s : LocationApiService) :
    Entered → Except Fault LocationApiService
  | Entered.newClient pMsg => Except.ok (newClient env s pMsg)
  | Entered.deleteClient pMsg => Except.ok (deleteClient s pMsg)
  | Entered.startTracking pMsg => Except.ok (startTracking env s pMsg)
  | Entered.stopTracking pMsg => Except.ok (stopTracking D s pMsg)
  | Entered.updateSubscription pMsg => Except.ok (updateSubscription s pMsg)
  | Entered.updateTrackingOptions pMsg => Except.ok (updateTrackingOptions s pMsg)
  | Entered.startBatching pMsg => Except.ok (startBatching env s pMsg)
  | Entered.stopBatching pMsg => Except.ok (stopBatching s pMsg)
  | Entered.updateBatchingOptions pMsg => Except.ok (updateBatchingOptions s pMsg)
  | Entered.addGeofences pMsg => addGeofences D env s pMsg
  | Entered.removeGeofences pMsg => Except.ok (removeGeofences s pMsg)
  | Entered.modifyGeofences pMsg => modifyGeofences D env s pMsg
  | Entered.pauseGeofences pMsg => Except.ok (pauseGeofences s pMsg)
  | Entered.resumeGeofences pMsg => Except.ok (resumeGeofences s pMsg)
  | Entered.gnssUpdateConfig config => Except.ok (gnssUpdateConfig s config)
  | Entered.gnssDeleteAidingData data => Except.ok (gnssDeleteAidingData s data)
  | Entered.updateNetworkAvailability availability =>
    Except.ok (updateNetworkAvailability env s availability)
  | Entered.getGnssEnergyConsumed clientSocketName =>
    Except.ok (getGnssEnergyConsumed D env s clientSocketName)
  | Entered.pingTest pMsg => Except.ok (pingTest s pMsg)

/-! ## Sample values -/

/-- A sample tag encoding: the enumerators in the order of the dispatcher. -/
def sampleTag : Nat → ELocMsgID
  | 0 => E_LOCAPI_CLIENT_REGISTER_MSG_ID
  | 1 => E_LOCAPI_CLIENT_DEREGISTER_MSG_ID
  | 2 => E_LOCAPI_START_TRACKING_MSG_ID
  | 3 => E_LOCAPI_STOP_TRACKING_MSG_ID
  | 4 => E_LOCAPI_UPDATE_CALLBACKS_MSG_ID
  | 5 => E_LOCAPI_UPDATE_TRACKING_OPTIONS_MSG_ID
  | 6 => E_LOCAPI_START_BATCHING_MSG_ID
  | 7 => E_LOCAPI_STOP_BATCHING_MSG_ID
  | 8 => E_LOCAPI_UPDATE_BATCHING_OPTIONS_MSG_ID
  | 9 => E_LOCAPI_ADD_GEOFENCES_MSG_ID
  | 10 => E_LOCAPI_REMOVE_GEOFENCES_MSG_ID
  | 11 => E_LOCAPI_MODIFY_GEOFENCES_MSG_ID
  | 12 => E_LOCAPI_PAUSE_GEOFENCES_MSG_ID
  | 13 => E_LOCAPI_RESUME_GEOFENCES_MSG_ID
  | 14 => E_LOCAPI_CONTROL_UPDATE_CONFIG_MSG_ID
  | 15 => E_LOCAPI_CONTROL_DELETE_AIDING_DATA_MSG_ID
  | 16 => E_LOCAPI_CONTROL_UPDATE_NETWORK_AVAILABILITY_MSG_ID
  | 17 => E_LOCAPI_GET_GNSS_ENGERY_CONSUMED_MSG_ID
  | 18 => E_LOCAPI_PINGTEST_MSG_ID
  | n => E_LOCAPI_OTHER_MSG_ID n

/-- A sample sender name: byte 1 of the buffer selects it. -/
def sampleName (data : Bytes) : String :=
  if data.getD 1 0 = 0 then "alice" else "bob"

/-- A sample batching mode encoding. -/
def sampleMode : Nat → BatchingMode
  | 0 => BatchingMode.BATCHING_MODE_NO_AUTO_REPORT
  | n => BatchingMode.BATCHING_MODE_OTHER n

/-- A sample message layout: byte 0 is the tag, byte 1 the sender, bytes 2 to
4 the scalar fields; geofence messages carry a count in byte 2 and two
descriptor slots in bytes 3 to 8.  Header-only requests take 2 bytes, the
others 5, geofence requests 9. -/
def sampleDecls : Decls :=
  { sizeofReq := fun t =>
      match t with
      | E_LOCAPI_CLIENT_REGISTER_MSG_ID => 2
      | E_LOCAPI_CLIENT_DEREGISTER_MSG_ID => 2
      | E_LOCAPI_STOP_TRACKING_MSG_ID => 2
      | E_LOCAPI_STOP_BATCHING_MSG_ID => 2
      | E_LOCAPI_GET_GNSS_ENGERY_CONSUMED_MSG_ID => 2
      | E_LOCAPI_PINGTEST_MSG_ID => 2
      | E_LOCAPI_ADD_GEOFENCES_MSG_ID => 9
      | E_LOCAPI_REMOVE_GEOFENCES_MSG_ID => 9
      | E_LOCAPI_MODIFY_GEOFENCES_MSG_ID => 9
      | E_LOCAPI_PAUSE_GEOFENCES_MSG_ID => 9
      | E_LOCAPI_RESUME_GEOFENCES_MSG_ID => 9
      | _ => 5
    header := fun data => ⟨sampleName data, sampleTag (data.getD 0 0)⟩
    startTrackingReq := fun data => ⟨sampleName data, data.getD 2 0, data.getD 3 0⟩
    updateCallbacksReq := fun data => ⟨sampleName data, data.getD 2 0⟩
    updateTrackingOptionsReq := fun data => ⟨sampleName data, data.getD 2 0, data.getD 3 0⟩
    startBatchingReq := fun data =>
      ⟨sampleName data, data.getD 2 0, data.getD 3 0, sampleMode (data.getD 4 0)⟩
    updateBatchingOptionsReq := fun data =>
      ⟨sampleName data, data.getD 2 0, data.getD 3 0, sampleMode (data.getD 4 0)⟩
    addGeofencesReq := fun data =>
      ⟨sampleName data, data.getD 2 0,
        [⟨data.getD 3 0, data.getD 4 0, data.getD 5 0⟩,
         ⟨data.getD 6 0, data.getD 7 0, data.getD 8 0⟩]⟩
    removeGeofencesReq := fun data =>
      ⟨sampleName data, data.getD 2 0, [data.getD 3 0, data.getD 4 0]⟩
    modifyGeofencesReq := fun data =>
      ⟨sampleName data, data.getD 2 0,
        [⟨data.getD 3 0, data.getD 4 0, data.getD 5 0⟩,
         ⟨data.getD 6 0, data.getD 7 0, data.getD 8 0⟩]⟩
    pauseGeofencesReq := fun data =>
      ⟨sampleName data, data.getD 2 0, [data.getD 3 0, data.getD 4 0]⟩
    resumeGeofencesReq := fun data =>
      ⟨sampleName data, data.getD 2 0, [data.getD 3 0, data.getD 4 0]⟩
    gnssConfig := fun data => data.getD 2 0
    gnssAidingData := fun data => data.getD 2 0
    mAvailability := fun data => data.getD 2 0 != 0
    sizeofGeofenceOption := 1
    sizeofGeofenceInfo := 1
    sizeofUint32 := 4
    E_ENGINE_INFO_CB_GNSS_ENERGY_CONSUMED_BIT := 1
    LOCATION_SESSON_ALL_INFO_MASK := 3
    SERVICE_NAME := "locapiservice"
    SOCKET_DIR_TO_CLIENT := "/sock/"
    SOCKET_TO_LOCATION_CLIENT_BASE := "/sock/toclient"
    SOCKET_TO_EXTERANL_AP_LOCATION_CLIENT_BASE := "/sock/extap"
    E_LOC_CB_GNSS_LOCATION_INFO_BIT := 4
    E_LOC_CB_GNSS_SV_BIT := 8
    POWERMANAGER_ENABLED := true }

/-- A sample environment in which every external call succeeds. -/
def sampleEnv : Env :=
  { createInstance := true
    enable := 7
    dlopen := true
    dlerrorAfterDlopen := false
    dlsym := some (some 1)
    dlerrorAfterDlsym := false
    malloc := fun _ _ => true
    startTracking := fun _ _ _ => true
    startBatching := fun _ _ _ _ => true
    addGeofences := fun _ count _ _ => some (List.range count)
    getPwrEvtHandler := true }

/-- A sample environment in which the engine refuses to start sessions. -/
def failingEnv : Env :=
  { sampleEnv with
    startTracking := fun _ _ _ => false
    startBatching := fun _ _ _ _ => false }

/-- The service before any client registered. -/
def emptyService : LocationApiService :=
  { mClients := []
    mLocationControlApi := false
    mLocationControlId := 0
    getGnssInterfaceFailed := false
    gnssInterface := none
    entered := []
    calls := []
    loads := 0 }

/-- A service with the one client "alice", tracking and subscribed. -/
def sampleService : LocationApiService :=
  { emptyService with
    mClients :=
      [("alice", { LocHalDaemonClientHandler.create "alice" with
                    mTracking := true
                    mSubscriptionMask := 7 })]
    mLocationControlApi := true
    mLocationControlId := 7 }

/-- A service with the two clients "alice" and "bob", both tracking with the
stored options distance 0 and interval 1000. -/
def twoClients : LocationApiService :=
  { emptyService with
    mClients :=
      [("alice", { LocHalDaemonClientHandler.create "alice" with
                    mTracking := true
                    mTrackingOptions := (0, 1000) }),
       ("bob", { LocHalDaemonClientHandler.create "bob" with
                    mTracking := true
                    mTrackingOptions := (0, 1000) })]
    mLocationControlApi := true
    mLocationControlId := 7 }

/-- A sample environment in which the engine refuses to start the session of
"alice" only. -/
def aliceFailsEnv : Env :=
  { sampleEnv with startTracking := fun name _ _ => name != "alice" }

/-- A sample environment in which no staging buffer can be allocated. -/
def noMemoryEnv : Env :=
  { sampleEnv with malloc := fun _ _ => false }

/-- A sample socket directory: a co-located client, a remote-processor client,
a hidden entry and an entry `lstat` fails on. -/
def sampleDir : List Dirent :=
  [⟨"toclient17", true⟩, ⟨"extap5", true⟩, ⟨".toclient", true⟩, ⟨"toclient99", false⟩]

/-! ## Theorems -/

/-! ### The ghost traces are only appended to -/

@[simp]
theorem entered_call (s : LocationApiService) (c : Call) :
    (s.call c).entered = s.entered := rfl

@[simp]
theorem entered_setClient (s : LocationApiService) (n : String)
    (h : LocHalDaemonClientHandler) : (s.setClient n h).entered = s.entered := rfl

@[simp]
theorem entered_enter (s : LocationApiService) (e : Entered) :
    (s.enter e).entered = s.entered ++ [e] := rfl

@[simp]
theorem getClient_call (s : LocationApiService) (c : Call) (n : String) :
    (s.call c).getClient n = s.getClient n := rfl

@[simp]
theorem getClient_enter (s : LocationApiService) (e : Entered) (n : String) :
    (s.enter e).getClient n = s.getClient n := rfl

@[simp]
theorem entered_checkEnableGnss (env : Env) (s : LocationApiService) :
    (checkEnableGnss env s).entered = s.entered := by
  unfold checkEnableGnss
  split
  · split <;> rfl
  · rfl

@[simp]
theorem entered_getGnssInterface (env : Env) (s : LocationApiService) :
    (getGnssInterface env s).1.entered = s.entered := by
  unfold getGnssInterface
  split
  · dsimp only
    split <;> rfl
  · rfl

theorem entered_deleteClientbyName (s : LocationApiService) (n : String) :
    (deleteClientbyName s n).entered = s.entered := by
  unfold deleteClientbyName
  split <;> rfl

theorem entered_invoke (D : Decls) (env : Env) (s s' : LocationApiService) (op : Entered)
    (h : invoke D env s op = Except.ok s') : s'.entered = s.entered ++ [op] := by
  cases op <;> simp only [invoke, Except.ok.injEq] at h
  case addGeofences pMsg =>
    unfold addGeofences at h
    dsimp only at h
    repeat' split at h
    all_goals first
      | (injection h with h; subst h; simp)
      | (exact absurd h (by simp))
  case modifyGeofences pMsg =>
    unfold modifyGeofences at h
    dsimp only at h
    repeat' split at h
    all_goals first
      | (injection h with h; subst h; simp)
      | (exact absurd h (by simp))
  all_goals
    subst h
    simp only [newClient, deleteClient, startTracking, stopTracking, updateSubscription,
      updateTrackingOptions, startBatching, stopBatching, updateBatchingOptions,
      removeGeofences, pauseGeofences, resumeGeofences, gnssUpdateConfig,
      gnssDeleteAidingData, updateNetworkAvailability, getGnssEnergyConsumed, pingTest,
      entered_deleteClientbyName]
    repeat' split
    all_goals simp


/-! ### The client collection -/

@[simp]
theorem mClients_call (s : LocationApiService) (c : Call) :
    (s.call c).mClients = s.mClients := rfl

@[simp]
theorem mClients_enter (s : LocationApiService) (e : Entered) :
    (s.enter e).mClients = s.mClients := rfl

@[simp]
theorem calls_enter (s : LocationApiService) (e : Entered) :
    (s.enter e).calls = s.calls := rfl

@[simp]
theorem calls_call (s : LocationApiService) (c : Call) :
    (s.call c).calls = s.calls ++ [c] := rfl

@[simp]
theorem calls_setClient (s : LocationApiService) (n : String)
    (h : LocHalDaemonClientHandler) : (s.setClient n h).calls = s.calls := rfl

@[simp]
theorem mClients_setClient (s : LocationApiService) (n : String)
    (h : LocHalDaemonClientHandler) :
    (s.setClient n h).mClients = store s.mClients n h := rfl

@[simp]
theorem mClients_checkEnableGnss (env : Env) (s : LocationApiService) :
    (checkEnableGnss env s).mClients = s.mClients := by
  unfold checkEnableGnss
  split
  · split <;> rfl
  · rfl

@[simp]
theorem mClients_getGnssInterface (env : Env) (s : LocationApiService) :
    (getGnssInterface env s).1.mClients = s.mClients := by
  unfold getGnssInterface
  split
  · dsimp only
    split <;> rfl
  · rfl

@[simp]
theorem calls_getGnssInterface (env : Env) (s : LocationApiService) :
    (getGnssInterface env s).1.calls = s.calls := by
  unfold getGnssInterface
  split
  · dsimp only
    split <;> rfl
  · rfl

theorem find_eq_none_iff (cs : List (String × LocHalDaemonClientHandler)) (n : String) :
    find cs n = none ↔ n ∉ cs.map Prod.fst := by
  induction cs with
  | nil => simp [find]
  | cons e rest ih =>
    by_cases he : e.1 = n
    · simp [find, he]
    · have hne : ¬ n = e.1 := fun h => he h.symm
      simp [find, he, hne, ih]

theorem getClient_eq_none_iff (s : LocationApiService) (n : String) :
    s.getClient n = none ↔ n ∉ s.names :=
  find_eq_none_iff s.mClients n

theorem find_isSome_iff (cs : List (String × LocHalDaemonClientHandler)) (n : String) :
    (find cs n).isSome = true ↔ n ∈ cs.map Prod.fst := by
  rw [← not_iff_not, ← find_eq_none_iff]
  cases find cs n <;> simp

theorem store_of_find (cs : List (String × LocHalDaemonClientHandler)) (n : String)
    (h : LocHalDaemonClientHandler) (hf : find cs n = some h) : store cs n h = cs := by
  induction cs with
  | nil => rfl
  | cons e rest ih =>
    by_cases he : e.1 = n
    · simp only [find, he, if_true, Option.some.injEq] at hf
      simp only [store, he, if_true]
      rw [← hf, ← he]
    · simp only [find, he, if_false] at hf
      simp only [store, he, if_false, ih hf]

theorem map_fst_store (cs : List (String × LocHalDaemonClientHandler)) (n : String)
    (h : LocHalDaemonClientHandler) : (store cs n h).map Prod.fst = cs.map Prod.fst := by
  induction cs with
  | nil => rfl
  | cons e rest ih =>
    by_cases he : e.1 = n
    · simp [store, he]
    · simp [store, he, ih]

theorem find_store_self (cs : List (String × LocHalDaemonClientHandler)) (n : String)
    (h h0 : LocHalDaemonClientHandler) (hf : find cs n = some h0) :
    find (store cs n h) n = some h := by
  induction cs with
  | nil => simp [find] at hf
  | cons e rest ih =>
    by_cases he : e.1 = n
    · simp [store, find, he]
    · simp only [find, he, if_false] at hf
      simp [store, find, he, ih hf]

theorem find_store_of_ne (cs : List (String × LocHalDaemonClientHandler)) (n m : String)
    (h : LocHalDaemonClientHandler) (hne : m ≠ n) :
    find (store cs n h) m = find cs m := by
  induction cs with
  | nil => rfl
  | cons e rest ih =>
    by_cases he : e.1 = n
    · have hem : ¬ e.1 = m := fun hm => hne (hm.symm.trans he)
      simp [store, find, he, hem, hne.symm]
    · rw [store, if_neg he]
      by_cases hm : e.1 = m
      · rw [find, if_pos hm, find, if_pos hm]
      · rw [find, if_neg hm, find, if_neg hm, ih]

theorem names_setClient (s : LocationApiService) (n : String)
    (h : LocHalDaemonClientHandler) : (s.setClient n h).names = s.names :=
  map_fst_store s.mClients n h

theorem getClient_setClient_self (s : LocationApiService) (n : String)
    (h h0 : LocHalDaemonClientHandler) (hf : s.getClient n = some h0) :
    (s.setClient n h).getClient n = some h :=
  find_store_self s.mClients n h h0 hf

theorem getClient_setClient_of_ne (s : LocationApiService) (n m : String)
    (h : LocHalDaemonClientHandler) (hne : m ≠ n) :
    (s.setClient n h).getClient m = s.getClient m :=
  find_store_of_ne s.mClients n m h hne

theorem erase_of_not_mem (cs : List (String × LocHalDaemonClientHandler)) (n : String)
    (hn : n ∉ cs.map Prod.fst) : erase cs n = cs := by
  unfold erase
  rw [List.filter_eq_self]
  intro e he
  have : e.1 ≠ n := fun h => hn (h ▸ List.mem_map_of_mem Prod.fst he)
  simpa using this

/-- C1 (exact framing): when the header of a buffer carries the tag of a request
type and the length of the buffer differs from the size of that type's request
struct, `processClientMsg` returns the state it was given: no registry
operation is entered, no call is made, and the client collection with every
session is unchanged. -/
theorem processClientMsg_length_mismatch (D : Decls) (env : Env) (s : LocationApiService)
    (data : Bytes) (t : ELocMsgID) (_hreq : isRequestType t = true)
    (htag : (D.header data).msgId = t) (hlen : data.length ≠ D.sizeofReq t) :
    processClientMsg D env s data = Except.ok s := by
  subst htag
  have hne : D.sizeofReq (D.header data).msgId ≠ data.length := fun h => hlen h.symm
  unfold processClientMsg
  split <;> simp_all

/-- Witness of C1: a start-tracking buffer of 3 bytes where 5 are expected. -/
theorem processClientMsg_length_mismatch_witness :
    processClientMsg sampleDecls sampleEnv sampleService [2, 0, 9] =
      Except.ok sampleService :=
  processClientMsg_length_mismatch sampleDecls sampleEnv sampleService [2, 0, 9]
    E_LOCAPI_START_TRACKING_MSG_ID (by decide) (by decide) (by decide)

/-- The dispatcher does what one invocation of the corresponding operation
does. -/
theorem processClientMsg_eq_invoke (D : Decls) (env : Env) (s : LocationApiService)
    (data : Bytes) (hlen : data.length = D.sizeofReq (D.header data).msgId)
    (hreq : isRequestType (D.header data).msgId = true) :
    ∃ op, correspondingOperation D data (D.header data).msgId = some op ∧
      processClientMsg D env s data = invoke D env s op := by
  unfold processClientMsg
  split <;> rename_i htag <;> rw [htag] at hlen hreq ⊢
  all_goals first
    | exact ⟨_, rfl, by simp [hlen, invoke]⟩
    | simp [isRequestType] at hreq

/-- C2 (dispatch): when the header of a buffer carries the tag of a request type
and the length of the buffer equals the size of that type's request struct,
`processClientMsg` does exactly what one invocation of the operation
corresponding to the tag does on the payload of the buffer, and when it
completes exactly that one operation has been entered. -/
theorem processClientMsg_dispatch (D : Decls) (env : Env) (s : LocationApiService)
    (data : Bytes) (t : ELocMsgID) (hreq : isRequestType t = true)
    (htag : (D.header data).msgId = t) (hlen : data.length = D.sizeofReq t) :
    ∃ op, correspondingOperation D data t = some op ∧
      processClientMsg D env s data = invoke D env s op ∧
      ∀ s', processClientMsg D env s data = Except.ok s' →
        s'.entered = s.entered ++ [op] := by
  subst htag
  obtain ⟨op, hop, hrun⟩ := processClientMsg_eq_invoke D env s data hlen hreq
  refine ⟨op, hop, hrun, ?_⟩
  intro s' hs'
  rw [hrun] at hs'
  exact entered_invoke D env s s' op hs'

/-- Witness of C2: a start-tracking buffer of the expected 5 bytes reaches
`startTracking` with distance 10 and interval 1000. -/
theorem processClientMsg_dispatch_witness :
    ∃ op, correspondingOperation sampleDecls [2, 0, 10, 1000, 0]
        E_LOCAPI_START_TRACKING_MSG_ID = some op ∧
      processClientMsg sampleDecls sampleEnv sampleService [2, 0, 10, 1000, 0] =
        invoke sampleDecls sampleEnv sampleService op ∧
      ∀ s', processClientMsg sampleDecls sampleEnv sampleService [2, 0, 10, 1000, 0] =
          Except.ok s' → s'.entered = sampleService.entered ++ [op] :=
  processClientMsg_dispatch sampleDecls sampleEnv sampleService [2, 0, 10, 1000, 0]
    E_LOCAPI_START_TRACKING_MSG_ID (by decide) (by decide) (by decide)

/-- C3 (unknown tag): when the tag of the header is none of the enumerated
request types, `processClientMsg` returns the state it was given, whatever the
length of the buffer: no operation is entered and nothing changes. -/
theorem processClientMsg_unknown_tag (D : Decls) (env : Env) (s : LocationApiService)
    (data : Bytes) (htag : isRequestType (D.header data).msgId = false) :
    processClientMsg D env s data = Except.ok s := by
  unfold processClientMsg
  split <;> rename_i h <;> rw [h] at htag
  all_goals first
    | rfl
    | simp [isRequestType] at htag

/-- Witness of C3: tag 40 is no request type. -/
theorem processClientMsg_unknown_tag_witness :
    processClientMsg sampleDecls sampleEnv sampleService [40, 0, 1, 2, 3] =
      Except.ok sampleService :=
  processClientMsg_unknown_tag sampleDecls sampleEnv sampleService [40, 0, 1, 2, 3]
    (by decide)

/-- Registering a name that is present changes no entry. -/
theorem mClients_newClient_of_mem (env : Env) (s : LocationApiService)
    (pMsg : LocAPIMsgHeader) (hmem : pMsg.mSocketName ∈ s.names) :
    (newClient env s pMsg).mClients = s.mClients := by
  have hsome : (find s.mClients pMsg.mSocketName).isSome = true :=
    (find_isSome_iff s.mClients pMsg.mSocketName).2 hmem
  simp [newClient, hsome]

/-- Registering a name that is absent appends a fresh session under it. -/
theorem mClients_newClient_of_not_mem (env : Env) (s : LocationApiService)
    (pMsg : LocAPIMsgHeader) (hfresh : pMsg.mSocketName ∉ s.names) :
    (newClient env s pMsg).mClients =
      s.mClients ++ [(pMsg.mSocketName, LocHalDaemonClientHandler.create pMsg.mSocketName)] := by
  have hnone : find s.mClients pMsg.mSocketName = none :=
    (find_eq_none_iff s.mClients pMsg.mSocketName).2 hfresh
  simp [newClient, hnone, emplace]

/-- C4 (registration uniqueness): in a registry that holds the name of the
message, `newClient` leaves the client collection exactly as it was (the one
session of that name and every other entry), so the name still has exactly
one session; and registering a fresh name twice leaves exactly one session of
that name, the second call changing nothing. -/
theorem newClient_duplicate_rejected (env env2 : Env) (s s0 : LocationApiService)
    (pMsg : LocAPIMsgHeader)
    (hwf : s.names.Nodup) (hmem : pMsg.mSocketName ∈ s.names)
    (hwf0 : s0.names.Nodup) (hfresh : pMsg.mSocketName ∉ s0.names) :
    ((newClient env s pMsg).mClients = s.mClients ∧
      (newClient env s pMsg).names.count pMsg.mSocketName = 1) ∧
    ((newClient env2 (newClient env s0 pMsg) pMsg).mClients =
        (newClient env s0 pMsg).mClients ∧
      (newClient env2 (newClient env s0 pMsg) pMsg).names.count pMsg.mSocketName = 1) := by
  have h1 := mClients_newClient_of_mem env s pMsg hmem
  have h0 := mClients_newClient_of_not_mem env s0 pMsg hfresh
  have hnames0 : (newClient env s0 pMsg).names = s0.names ++ [pMsg.mSocketName] := by
    simp [names, h0]
  have hmem0 : pMsg.mSocketName ∈ (newClient env s0 pMsg).names := by
    simp [hnames0]
  have h2 := mClients_newClient_of_mem env2 (newClient env s0 pMsg) pMsg hmem0
  have hwf1 : (newClient env s0 pMsg).names.Nodup := by
    rw [hnames0]
    exact List.Nodup.append hwf0 (List.nodup_singleton _) (by simpa using hfresh)
  refine ⟨⟨h1, ?_⟩, h2, ?_⟩
  · have : (newClient env s pMsg).names = s.names := by simp [names, h1]
    rw [this]
    exact List.count_eq_one_of_mem hwf hmem
  · have : (newClient env2 (newClient env s0 pMsg) pMsg).names =
        (newClient env s0 pMsg).names := by simp [names, h2]
    rw [this]
    exact List.count_eq_one_of_mem hwf1 hmem0

/-- Witness of C4: "alice" registers again with the sample service, and twice
with the empty service. -/
theorem newClient_duplicate_rejected_witness :
    ((newClient sampleEnv sampleService ⟨"alice", E_LOCAPI_CLIENT_REGISTER_MSG_ID⟩).mClients =
        sampleService.mClients ∧
      (newClient sampleEnv sampleService
        ⟨"alice", E_LOCAPI_CLIENT_REGISTER_MSG_ID⟩).names.count "alice" = 1) ∧
    ((newClient sampleEnv
        (newClient sampleEnv emptyService ⟨"alice", E_LOCAPI_CLIENT_REGISTER_MSG_ID⟩)
        ⟨"alice", E_LOCAPI_CLIENT_REGISTER_MSG_ID⟩).mClients =
        (newClient sampleEnv emptyService
          ⟨"alice", E_LOCAPI_CLIENT_REGISTER_MSG_ID⟩).mClients ∧
      (newClient sampleEnv
        (newClient sampleEnv emptyService ⟨"alice", E_LOCAPI_CLIENT_REGISTER_MSG_ID⟩)
        ⟨"alice", E_LOCAPI_CLIENT_REGISTER_MSG_ID⟩).names.count "alice" = 1) :=
  newClient_duplicate_rejected sampleEnv sampleEnv sampleService emptyService
    ⟨"alice", E_LOCAPI_CLIENT_REGISTER_MSG_ID⟩ (by decide) (by decide) (by decide) (by decide)

/-- C5 (no partial activation): for a registered client whose engine start
fails, `startTracking` leaves the client collection as it was, so the session
keeps its `mTracking` flag and both pending queues; likewise `startBatching`
with `mBatching` and `mBatchingMode`.  Only the attempted start is recorded. -/
theorem start_failure_leaves_session (env : Env) (s : LocationApiService)
    (pMsg : LocAPIStartTrackingReqMsg) (bMsg : LocAPIStartBatchingReqMsg)
    (h hb : LocHalDaemonClientHandler)
    (hreg : s.getClient pMsg.mSocketName = some h)
    (hfail : env.startTracking h.mName pMsg.distanceInMeters pMsg.intervalInMs = false)
    (hregb : s.getClient bMsg.mSocketName = some hb)
    (hfailb : env.startBatching hb.mName bMsg.intervalInMs bMsg.distanceInMeters
      bMsg.batchingMode = false) :
    ((startTracking env s pMsg).mClients = s.mClients ∧
      (startTracking env s pMsg).getClient pMsg.mSocketName = some h) ∧
    ((startBatching env s bMsg).mClients = s.mClients ∧
      (startBatching env s bMsg).getClient bMsg.mSocketName = some hb) := by
  have ht : (startTracking env s pMsg).mClients = s.mClients := by
    simp [startTracking, hreg, LocHalDaemonClientHandler.startTracking, hfail,
      store_of_find s.mClients pMsg.mSocketName h hreg]
  have hbt : (startBatching env s bMsg).mClients = s.mClients := by
    simp [startBatching, hregb, LocHalDaemonClientHandler.startBatching, hfailb,
      store_of_find s.mClients bMsg.mSocketName hb hregb]
  refine ⟨⟨ht, ?_⟩, hbt, ?_⟩
  · unfold getClient
    rw [ht]
    exact hreg
  · unfold getClient
    rw [hbt]
    exact hregb

/-- Witness of C5: the engine refuses both starts for "alice". -/
theorem start_failure_leaves_session_witness :
    ((startTracking failingEnv sampleService ⟨"alice", 10, 1000⟩).mClients =
        sampleService.mClients ∧
      (startTracking failingEnv sampleService ⟨"alice", 10, 1000⟩).getClient "alice" =
        some { LocHalDaemonClientHandler.create "alice" with
                mTracking := true
                mSubscriptionMask := 7 }) ∧
    ((startBatching failingEnv sampleService
        ⟨"alice", 1000, 10, BatchingMode.BATCHING_MODE_OTHER 1⟩).mClients =
        sampleService.mClients ∧
      (startBatching failingEnv sampleService
        ⟨"alice", 1000, 10, BatchingMode.BATCHING_MODE_OTHER 1⟩).getClient "alice" =
        some { LocHalDaemonClientHandler.create "alice" with
                mTracking := true
                mSubscriptionMask := 7 }) :=
  start_failure_leaves_session failingEnv sampleService ⟨"alice", 10, 1000⟩
    ⟨"alice", 1000, 10, BatchingMode.BATCHING_MODE_OTHER 1⟩ _ _ rfl rfl rfl rfl

/-- C6 (start success): for a registered client whose engine start succeeds,
`startTracking` calls the session's start with exactly the distance and the
interval of the message (which stores them), sets `mTracking`, appends one
start-tracking acknowledgment at the tail of `mPendingMessages`, and changes
no other session. -/
theorem startTracking_success (env : Env) (s : LocationApiService)
    (pMsg : LocAPIStartTrackingReqMsg) (h : LocHalDaemonClientHandler)
    (hreg : s.getClient pMsg.mSocketName = some h)
    (hok : env.startTracking h.mName pMsg.distanceInMeters pMsg.intervalInMs = true) :
    (startTracking env s pMsg).getClient pMsg.mSocketName =
      some { h with
        mTracking := true
        mTrackingOptions := (pMsg.distanceInMeters, pMsg.intervalInMs)
        mPendingMessages := h.mPendingMessages ++ [E_LOCAPI_START_TRACKING_MSG_ID] } ∧
    (startTracking env s pMsg).calls = s.calls ++
      [Call.startTracking pMsg.mSocketName pMsg.distanceInMeters pMsg.intervalInMs] ∧
    (startTracking env s pMsg).names = s.names ∧
    ∀ other, other ≠ pMsg.mSocketName →
      (startTracking env s pMsg).getClient other = s.getClient other := by
  have hrun : startTracking env s pMsg =
      ((s.enter (Entered.startTracking pMsg)).call
        (Call.startTracking pMsg.mSocketName pMsg.distanceInMeters
          pMsg.intervalInMs)).setClient pMsg.mSocketName
        { h with
          mTracking := true
          mTrackingOptions := (pMsg.distanceInMeters, pMsg.intervalInMs)
          mPendingMessages := h.mPendingMessages ++ [E_LOCAPI_START_TRACKING_MSG_ID] } := by
    simp [startTracking, hreg, LocHalDaemonClientHandler.startTracking, hok, pushPending]
  rw [hrun]
  refine ⟨?_, ?_, ?_, ?_⟩
  · exact getClient_setClient_self _ _ _ h (by simpa using hreg)
  · simp
  · rw [names_setClient]
    rfl
  · intro other hne
    rw [getClient_setClient_of_ne _ _ _ _ hne]
    rfl

/-- Witness of C6: "alice" starts tracking with distance 10 and interval 1000. -/
theorem startTracking_success_witness :
    (startTracking sampleEnv sampleService ⟨"alice", 10, 1000⟩).getClient "alice" =
      some { LocHalDaemonClientHandler.create "alice" with
        mSubscriptionMask := 7
        mTracking := true
        mTrackingOptions := (10, 1000)
        mPendingMessages := [E_LOCAPI_START_TRACKING_MSG_ID] } ∧
    (startTracking sampleEnv sampleService ⟨"alice", 10, 1000⟩).calls =
      [Call.startTracking "alice" 10 1000] ∧
    (startTracking sampleEnv sampleService ⟨"alice", 10, 1000⟩).names = ["alice"] ∧
    ∀ other, other ≠ "alice" →
      (startTracking sampleEnv sampleService ⟨"alice", 10, 1000⟩).getClient other =
        sampleService.getClient other :=
  startTracking_success sampleEnv sampleService ⟨"alice", 10, 1000⟩
    { LocHalDaemonClientHandler.create "alice" with
      mTracking := true
      mSubscriptionMask := 7 } rfl rfl

/-- Masking with the 32-bit complement of `m` leaves none of the bits of `m`. -/
theorem land_complement_land (a m : Nat) (hm : m < 2 ^ 32) :
    (a &&& ((2 ^ 32 - 1) ^^^ m)) &&& m = 0 := by
  apply Nat.eq_of_testBit_eq
  intro i
  simp only [Nat.testBit_land, Nat.testBit_xor, Nat.testBit_two_pow_sub_one,
    Nat.zero_testBit]
  by_cases hi : i < 32
  · cases hb : m.testBit i <;> simp [hi]
  · have hlt : m < 2 ^ i :=
      lt_of_lt_of_le hm (Nat.pow_le_pow_right (by decide) (Nat.le_of_not_lt hi))
    simp [Nat.testBit_eq_false_of_lt hlt]

/-- C7 (stop is unconditional): for a registered client, whatever its
`mTracking` flag was, `stopTracking` clears the flag, clears the
location-session bits of the subscription, asks the session to stop, and
appends exactly one stop-tracking acknowledgment to `mPendingMessages`; the
operation has no failure path. -/
theorem stopTracking_registered (D : Decls) (s : LocationApiService)
    (pMsg : LocAPIMsgHeader) (h : LocHalDaemonClientHandler)
    (hreg : s.getClient pMsg.mSocketName = some h) :
    ∃ h', (stopTracking D s pMsg).getClient pMsg.mSocketName = some h' ∧
      h' = { h with
        mTracking := false
        mSubscriptionMask := h.mSubscriptionMask &&&
          ((2 ^ 32 - 1) ^^^ (D.LOCATION_SESSON_ALL_INFO_MASK % 2 ^ 32))
        mPendingMessages := h.mPendingMessages ++ [E_LOCAPI_STOP_TRACKING_MSG_ID] } ∧
      h'.mSubscriptionMask &&& (D.LOCATION_SESSON_ALL_INFO_MASK % 2 ^ 32) = 0 ∧
      (stopTracking D s pMsg).calls = s.calls ++
        [Call.unsubscribeLocationSessionCb pMsg.mSocketName,
         Call.stopTracking pMsg.mSocketName] := by
  have hrun : stopTracking D s pMsg =
      (((s.enter (Entered.stopTracking pMsg)).call
        (Call.unsubscribeLocationSessionCb pMsg.mSocketName)).call
        (Call.stopTracking pMsg.mSocketName)).setClient pMsg.mSocketName
        { h with
          mTracking := false
          mSubscriptionMask := h.mSubscriptionMask &&&
            ((2 ^ 32 - 1) ^^^ (D.LOCATION_SESSON_ALL_INFO_MASK % 2 ^ 32))
          mPendingMessages := h.mPendingMessages ++ [E_LOCAPI_STOP_TRACKING_MSG_ID] } := by
    simp [stopTracking, hreg, LocHalDaemonClientHandler.unsubscribeLocationSessionCb,
      LocHalDaemonClientHandler.stopTracking, pushPending]
  rw [hrun]
  refine ⟨_, getClient_setClient_self _ _ _ h (by simpa using hreg), rfl, ?_, ?_⟩
  · exact land_complement_land _ _ (Nat.mod_lt _ (by decide))
  · simp

/-- Witness of C7: "carol" is registered and not tracking; the stop is
acknowledged all the same. -/
theorem stopTracking_registered_witness :
    ∃ h', (stopTracking sampleDecls
        { emptyService with mClients := [("carol", LocHalDaemonClientHandler.create "carol")] }
        ⟨"carol", E_LOCAPI_STOP_TRACKING_MSG_ID⟩).getClient "carol" = some h' ∧
      h' = { LocHalDaemonClientHandler.create "carol" with
        mTracking := false
        mSubscriptionMask := 0 &&& ((2 ^ 32 - 1) ^^^ (3 % 2 ^ 32))
        mPendingMessages := [] ++ [E_LOCAPI_STOP_TRACKING_MSG_ID] } ∧
      h'.mSubscriptionMask &&& (3 % 2 ^ 32) = 0 ∧
      (stopTracking sampleDecls
        { emptyService with mClients := [("carol", LocHalDaemonClientHandler.create "carol")] }
        ⟨"carol", E_LOCAPI_STOP_TRACKING_MSG_ID⟩).calls = [] ++
        [Call.unsubscribeLocationSessionCb "carol", Call.stopTracking "carol"] :=
  stopTracking_registered sampleDecls
    { emptyService with mClients := [("carol", LocHalDaemonClientHandler.create "carol")] }
    ⟨"carol", E_LOCAPI_STOP_TRACKING_MSG_ID⟩ (LocHalDaemonClientHandler.create "carol") rfl

/-- C8 (unknown client): for a name that is not in the registry, each of
`startTracking`, `stopTracking`, `updateSubscription`, `updateTrackingOptions`,
`startBatching`, `stopBatching`, `updateBatchingOptions` and `pingTest` returns
the state it was given (only its own entry is recorded): no session, flag,
mask or queue changes and no call is made.  `getGnssEnergyConsumed` may
resolve the GNSS interface first, and likewise changes no entry of the client
collection and makes no call. -/
theorem unknown_client_noop (D : Decls) (env : Env) (s : LocationApiService)
    (name : String) (hno : name ∉ s.names) :
    (∀ d i, startTracking env s ⟨name, d, i⟩ = s.enter (Entered.startTracking ⟨name, d, i⟩)) ∧
    (∀ id, stopTracking D s ⟨name, id⟩ = s.enter (Entered.stopTracking ⟨name, id⟩)) ∧
    (∀ mask, updateSubscription s ⟨name, mask⟩ =
      s.enter (Entered.updateSubscription ⟨name, mask⟩)) ∧
    (∀ d i, updateTrackingOptions s ⟨name, d, i⟩ =
      s.enter (Entered.updateTrackingOptions ⟨name, d, i⟩)) ∧
    (∀ i d mode, startBatching env s ⟨name, i, d, mode⟩ =
      s.enter (Entered.startBatching ⟨name, i, d, mode⟩)) ∧
    (∀ id, stopBatching s ⟨name, id⟩ = s.enter (Entered.stopBatching ⟨name, id⟩)) ∧
    (∀ i d mode, updateBatchingOptions s ⟨name, i, d, mode⟩ =
      s.enter (Entered.updateBatchingOptions ⟨name, i, d, mode⟩)) ∧
    (∀ id, pingTest s ⟨name, id⟩ = s.enter (Entered.pingTest ⟨name, id⟩)) ∧
    ((getGnssEnergyConsumed D env s name).mClients = s.mClients ∧
      (getGnssEnergyConsumed D env s name).calls = s.calls) := by
  have hnone : s.getClient name = none := (getClient_eq_none_iff s name).2 hno
  refine ⟨?_, ?_, ?_, ?_, ?_, ?_, ?_, ?_, ?_, ?_⟩
  · intro d i
    simp [startTracking, hnone]
  · intro id
    simp [stopTracking, hnone]
  · intro mask
    simp [updateSubscription, hnone]
  · intro d i
    simp [updateTrackingOptions, hnone]
  · intro i d mode
    simp [startBatching, hnone]
  · intro id
    simp [stopBatching, hnone]
  · intro i d mode
    simp [updateBatchingOptions, hnone]
  · intro id
    simp [pingTest, hnone]
  · have hnone2 : (getGnssInterface env
        (s.enter (Entered.getGnssEnergyConsumed name))).1.getClient name = none := by
      unfold getClient
      rw [mClients_getGnssInterface]
      exact hnone
    unfold getGnssEnergyConsumed
    dsimp only
    split
    · simp
    · rw [hnone2]
      simp
  · have hnone2 : (getGnssInterface env
        (s.enter (Entered.getGnssEnergyConsumed name))).1.getClient name = none := by
      unfold getClient
      rw [mClients_getGnssInterface]
      exact hnone
    unfold getGnssEnergyConsumed
    dsimp only
    split
    · simp
    · rw [hnone2]
      simp

/-- Witness of C8: "bob" is not registered with the sample service. -/
theorem unknown_client_noop_witness :
    startTracking sampleEnv sampleService ⟨"bob", 10, 1000⟩ =
        sampleService.enter (Entered.startTracking ⟨"bob", 10, 1000⟩) ∧
      (getGnssEnergyConsumed sampleDecls sampleEnv sampleService "bob").mClients =
        sampleService.mClients ∧
      (getGnssEnergyConsumed sampleDecls sampleEnv sampleService "bob").calls =
        sampleService.calls :=
  ⟨(unknown_client_noop sampleDecls sampleEnv sampleService "bob" (by decide)).1 10 1000,
   (unknown_client_noop sampleDecls sampleEnv sampleService "bob"
      (by decide)).2.2.2.2.2.2.2.2⟩

/-- The copy loop succeeds when `count` does not exceed the descriptor array. -/
theorem readPayload_isSome (gfPayload : List GeofencePayload) (n i : Nat)
    (h : i + n ≤ gfPayload.length) : (readPayload gfPayload i n).isSome = true := by
  induction n generalizing i with
  | zero => rfl
  | succ k ih =>
    have hi : i < gfPayload.length := by omega
    have hk : (readPayload gfPayload (i + 1) k).isSome = true := ih (i + 1) (by omega)
    simp only [readPayload, List.getElem?_eq_getElem hi]
    cases hr : readPayload gfPayload (i + 1) k with
    | none => simp [hr] at hk
    | some rest => rfl

/-- For a name that is not in the registry, `addGeofences`, `removeGeofences`,
`pauseGeofences` and `resumeGeofences` test the client pointer first and
return the state they were given. -/
theorem geofence_unknown_client_guarded (D : Decls) (env : Env) (s : LocationApiService)
    (name : String) (hno : name ∉ s.names) (count : Nat) (gfPayload : List GeofencePayload)
    (gfIds : List Nat) :
    addGeofences D env s ⟨name, count, gfPayload⟩ =
      Except.ok (s.enter (Entered.addGeofences ⟨name, count, gfPayload⟩)) ∧
    removeGeofences s ⟨name, count, gfIds⟩ =
      s.enter (Entered.removeGeofences ⟨name, count, gfIds⟩) ∧
    pauseGeofences s ⟨name, count, gfIds⟩ =
      s.enter (Entered.pauseGeofences ⟨name, count, gfIds⟩) ∧
    resumeGeofences s ⟨name, count, gfIds⟩ =
      s.enter (Entered.resumeGeofences ⟨name, count, gfIds⟩) := by
  have hnone : s.getClient name = none := (getClient_eq_none_iff s name).2 hno
  refine ⟨?_, ?_, ?_, ?_⟩
  · simp [addGeofences, hnone]
  · simp [removeGeofences, hnone]
  · simp [pauseGeofences, hnone]
  · simp [resumeGeofences, hnone]

/-- For a name that is not in the registry, `modifyGeofences` dereferences the
null client pointer as soon as its two allocations succeed and the descriptors
are copied. -/
theorem modifyGeofences_unknown_client (D : Decls) (env : Env) (s : LocationApiService)
    (pMsg : LocAPIAddGeofencesReqMsg) (hno : pMsg.mSocketName ∉ s.names)
    (hopt : env.malloc 0 (D.sizeofGeofenceOption * pMsg.count) = true)
    (hids : env.malloc 1 (D.sizeofUint32 * pMsg.count) = true)
    (hcount : pMsg.count ≤ pMsg.gfPayload.length) :
    modifyGeofences D env s pMsg = Except.error Fault.nullClientDereference := by
  have hnone : s.getClient pMsg.mSocketName = none :=
    (getClient_eq_none_iff s pMsg.mSocketName).2 hno
  have hread := readPayload_isSome pMsg.gfPayload pMsg.count 0 (by omega)
  cases hr : readPayload pMsg.gfPayload 0 pMsg.count with
  | none => simp [hr] at hread
  | some copied => simp [modifyGeofences, hnone, hopt, hids, hr]

/-- C9 (unknown client, geofence operations): a modify-geofences message of the
exact length, sent under the name "bob" to a service that only knows "alice",
makes `modifyGeofences` dereference the null client pointer instead of
returning silently, while the same request as remove-geofences returns the
state it was given. -/
theorem modifyGeofences_unknown_client_faults :
    processClientMsg sampleDecls sampleEnv sampleService [11, 1, 1, 5, 0, 0, 0, 0, 0] =
      Except.error Fault.nullClientDereference ∧
    modifyGeofences sampleDecls sampleEnv sampleService
        ⟨"bob", 1, [⟨5, 0, 0⟩, ⟨0, 0, 0⟩]⟩ =
      Except.error Fault.nullClientDereference ∧
    processClientMsg sampleDecls sampleEnv sampleService [10, 1, 1, 5, 0, 0, 0, 0, 0] =
      Except.ok (sampleService.enter (Entered.removeGeofences ⟨"bob", 1, [5, 0]⟩)) := by
  refine ⟨?_, ?_, ?_⟩ <;> rfl

/-- C10 (deregistering an absent name): when the name of the message is not in
the registry, `deleteClient` returns the state it was given (only its own
entry is recorded): the names and every session are unchanged and no session
is cleaned up. -/
theorem deleteClient_absent (s : LocationApiService) (pMsg : LocAPIMsgHeader)
    (hno : pMsg.mSocketName ∉ s.names) :
    deleteClient s pMsg = s.enter (Entered.deleteClient pMsg) ∧
    (deleteClient s pMsg).names = s.names ∧
    (deleteClient s pMsg).mClients = s.mClients ∧
    (deleteClient s pMsg).calls = s.calls := by
  have hnone : (s.enter (Entered.deleteClient pMsg)).getClient pMsg.mSocketName = none :=
    (getClient_eq_none_iff s pMsg.mSocketName).2 hno
  have hrun : deleteClient s pMsg = s.enter (Entered.deleteClient pMsg) := by
    simp [deleteClient, deleteClientbyName, hnone]
  rw [hrun]
  exact ⟨rfl, rfl, rfl, rfl⟩

/-- Witness of C10: "bob" deregisters from a service that only knows "alice". -/
theorem deleteClient_absent_witness :
    deleteClient sampleService ⟨"bob", E_LOCAPI_CLIENT_DEREGISTER_MSG_ID⟩ =
        sampleService.enter (Entered.deleteClient ⟨"bob", E_LOCAPI_CLIENT_DEREGISTER_MSG_ID⟩) ∧
    (deleteClient sampleService ⟨"bob", E_LOCAPI_CLIENT_DEREGISTER_MSG_ID⟩).names =
      sampleService.names ∧
    (deleteClient sampleService ⟨"bob", E_LOCAPI_CLIENT_DEREGISTER_MSG_ID⟩).mClients =
      sampleService.mClients ∧
    (deleteClient sampleService ⟨"bob", E_LOCAPI_CLIENT_DEREGISTER_MSG_ID⟩).calls =
      sampleService.calls :=
  deleteClient_absent sampleService ⟨"bob", E_LOCAPI_CLIENT_DEREGISTER_MSG_ID⟩ (by decide)

/-! ### The energy query -/

theorem getGnssInterface_enter (env : Env) (s : LocationApiService) (e : Entered) :
    getGnssInterface env (s.enter e) =
      ((getGnssInterface env s).1.enter e, (getGnssInterface env s).2) := by
  unfold getGnssInterface
  by_cases hc : s.gnssInterface = none ∧ s.getGnssInterfaceFailed = false
  · have hc2 : (s.enter e).gnssInterface = none ∧ (s.enter e).getGnssInterfaceFailed = false := hc
    rw [if_pos hc, if_pos hc2]
    dsimp only
    generalize (if env.dlopen = false then none
      else if env.dlerrorAfterDlopen = true then none
      else if env.dlerrorAfterDlsym = true then none else env.dlsym) = getter
    cases getter <;> rfl
  · have hc2 : ¬ ((s.enter e).gnssInterface = none ∧
        (s.enter e).getGnssInterfaceFailed = false) := hc
    rw [if_neg hc, if_neg hc2]
    rfl

theorem getGnssInterface_of_resolved (env : Env) (s : LocationApiService) (g : Nat)
    (h : s.gnssInterface = some g) : getGnssInterface env s = (s, some g) := by
  unfold getGnssInterface
  simp [h]

theorem gnssInterface_of_available (env : Env) (s : LocationApiService) (g : Nat)
    (h : (getGnssInterface env s).2 = some g) :
    (getGnssInterface env s).1.gnssInterface = some g := by
  unfold getGnssInterface at h ⊢
  by_cases hc : s.gnssInterface = none ∧ s.getGnssInterfaceFailed = false
  · rw [if_pos hc] at h ⊢
    dsimp only at h ⊢
    generalize (if env.dlopen = false then none
      else if env.dlerrorAfterDlopen = true then none
      else if env.dlerrorAfterDlsym = true then none else env.dlsym) = getter at h ⊢
    cases getter with
    | none =>
      dsimp only at h
      rw [hc.1] at h
      exact absurd h (by simp)
    | some produced => exact h
  · rw [if_neg hc] at h ⊢
    exact h

theorem or_land_self (m b : Nat) : (m ||| b) &&& b = b := by
  apply Nat.eq_of_testBit_eq
  intro i
  simp only [Nat.testBit_land, Nat.testBit_lor]
  cases m.testBit i <;> cases b.testBit i <;> rfl

theorem hasPending_addEngineInfoRequst (h : LocHalDaemonClientHandler) (bit : Nat)
    (hbit : bit ≠ 0) : (h.addEngineInfoRequst bit).hasPendingEngineInfoRequest bit = true := by
  simp [LocHalDaemonClientHandler.hasPendingEngineInfoRequest,
    LocHalDaemonClientHandler.addEngineInfoRequst, or_land_self, hbit]

theorem any_store (cs : List (String × LocHalDaemonClientHandler)) (n : String)
    (h h0 : LocHalDaemonClientHandler) (p : LocHalDaemonClientHandler → Bool)
    (hf : find cs n = some h0) (hp : p h = true) :
    (store cs n h).any (fun each => p each.2) = true := by
  induction cs with
  | nil => simp [find] at hf
  | cons e rest ih =>
    by_cases he : e.1 = n
    · simp [store, he, hp]
    · simp only [find, he, if_false] at hf
      simp [store, he, ih hf]

/-- What `getGnssEnergyConsumed` does for a registered client when the GNSS
interface is available. -/
theorem getGnssEnergyConsumed_run (D : Decls) (env : Env) (s : LocationApiService)
    (a : String) (ha : LocHalDaemonClientHandler) (g : Nat)
    (havail : (getGnssInterface env s).2 = some g)
    (hreg : s.getClient a = some ha) :
    getGnssEnergyConsumed D env s a =
      if requestAlreadyPending D s = false then
        ((((getGnssInterface env s).1.enter (Entered.getGnssEnergyConsumed a)).call
          (Call.addEngineInfoRequst a D.E_ENGINE_INFO_CB_GNSS_ENERGY_CONSUMED_BIT)).setClient a
          (ha.addEngineInfoRequst D.E_ENGINE_INFO_CB_GNSS_ENERGY_CONSUMED_BIT)).call
          Call.getGnssEnergyConsumed
      else
        (((getGnssInterface env s).1.enter (Entered.getGnssEnergyConsumed a)).call
          (Call.addEngineInfoRequst a D.E_ENGINE_INFO_CB_GNSS_ENERGY_CONSUMED_BIT)).setClient a
          (ha.addEngineInfoRequst D.E_ENGINE_INFO_CB_GNSS_ENERGY_CONSUMED_BIT) := by
  have hreg1 : ((getGnssInterface env s).1.enter
      (Entered.getGnssEnergyConsumed a)).getClient a = some ha := by
    unfold getClient
    rw [mClients_enter, mClients_getGnssInterface]
    exact hreg
  unfold getGnssEnergyConsumed
  simp only [getGnssInterface_enter, havail, hreg1, requestAlreadyPending, mClients_enter,
    mClients_getGnssInterface]

/-- The state after one energy request of a registered client: the entries, the
cached interface and the calls. -/
theorem getGnssEnergyConsumed_effect (D : Decls) (env : Env) (s : LocationApiService)
    (a : String) (ha : LocHalDaemonClientHandler) (g : Nat)
    (havail : (getGnssInterface env s).2 = some g)
    (hreg : s.getClient a = some ha) :
    (getGnssEnergyConsumed D env s a).mClients =
      store s.mClients a
        (ha.addEngineInfoRequst D.E_ENGINE_INFO_CB_GNSS_ENERGY_CONSUMED_BIT) ∧
    (getGnssEnergyConsumed D env s a).gnssInterface = some g ∧
    (getGnssEnergyConsumed D env s a).calls = s.calls ++
      (Call.addEngineInfoRequst a D.E_ENGINE_INFO_CB_GNSS_ENERGY_CONSUMED_BIT ::
        (if requestAlreadyPending D s = false then [Call.getGnssEnergyConsumed] else [])) := by
  have hg := gnssInterface_of_available env s g havail
  rw [getGnssEnergyConsumed_run D env s a ha g havail hreg]
  by_cases hp : requestAlreadyPending D s = false
  · rw [if_pos hp, if_pos hp]
    refine ⟨?_, hg, ?_⟩
    · simp
    · simp
  · rw [if_neg hp, if_neg hp]
    refine ⟨?_, hg, ?_⟩
    · simp
    · simp

/-- C11 (energy-query coalescing): for a registered client with the GNSS
interface available, `getGnssEnergyConsumed` records the pending bit of that
client and issues one query to the engine exactly when no session had the bit
set before the call, none otherwise; so two registered clients requesting in
succession add one query in total when none was outstanding, and none when
one was. -/
theorem getGnssEnergyConsumed_coalesces (D : Decls) (env env2 : Env)
    (s : LocationApiService) (a b : String) (ha hb : LocHalDaemonClientHandler) (g : Nat)
    (hbit : D.E_ENGINE_INFO_CB_GNSS_ENERGY_CONSUMED_BIT ≠ 0)
    (havail : (getGnssInterface env s).2 = some g)
    (hrega : s.getClient a = some ha) (hregb : s.getClient b = some hb) :
    ((getGnssEnergyConsumed D env s a).getClient a =
        some (ha.addEngineInfoRequst D.E_ENGINE_INFO_CB_GNSS_ENERGY_CONSUMED_BIT) ∧
      (ha.addEngineInfoRequst
        D.E_ENGINE_INFO_CB_GNSS_ENERGY_CONSUMED_BIT).hasPendingEngineInfoRequest
          D.E_ENGINE_INFO_CB_GNSS_ENERGY_CONSUMED_BIT = true ∧
      (getGnssEnergyConsumed D env s a).calls = s.calls ++
        (Call.addEngineInfoRequst a D.E_ENGINE_INFO_CB_GNSS_ENERGY_CONSUMED_BIT ::
          (if requestAlreadyPending D s = false then [Call.getGnssEnergyConsumed] else []))) ∧
    (getGnssEnergyConsumed D env2 (getGnssEnergyConsumed D env s a) b).calls.count
        Call.getGnssEnergyConsumed =
      s.calls.count Call.getGnssEnergyConsumed +
        (if requestAlreadyPending D s = false then 1 else 0) := by
  obtain ⟨hm1, hg1, hc1⟩ := getGnssEnergyConsumed_effect D env s a ha g havail hrega
  have hset := hasPending_addEngineInfoRequst ha _ hbit
  have hfind1 : (getGnssEnergyConsumed D env s a).getClient a =
      some (ha.addEngineInfoRequst D.E_ENGINE_INFO_CB_GNSS_ENERGY_CONSUMED_BIT) := by
    unfold getClient
    rw [hm1]
    exact find_store_self _ _ _ ha hrega
  have havail1 : (getGnssInterface env2 (getGnssEnergyConsumed D env s a)).2 = some g := by
    rw [getGnssInterface_of_resolved env2 _ g hg1]
  have hpend1 : requestAlreadyPending D (getGnssEnergyConsumed D env s a) = true := by
    unfold requestAlreadyPending
    rw [hm1]
    exact any_store s.mClients a _ ha
      (fun h => h.hasPendingEngineInfoRequest D.E_ENGINE_INFO_CB_GNSS_ENERGY_CONSUMED_BIT)
      hrega hset
  have hregb1 : ∃ hb1, (getGnssEnergyConsumed D env s a).getClient b = some hb1 := by
    by_cases hab : b = a
    · refine ⟨ha.addEngineInfoRequst D.E_ENGINE_INFO_CB_GNSS_ENERGY_CONSUMED_BIT, ?_⟩
      rw [hab]
      exact hfind1
    · refine ⟨hb, ?_⟩
      unfold getClient
      rw [hm1, find_store_of_ne _ _ _ _ hab]
      exact hregb
  obtain ⟨hb1, hregb1⟩ := hregb1
  obtain ⟨_, _, hc2⟩ :=
    getGnssEnergyConsumed_effect D env2 _ b hb1 g havail1 hregb1
  refine ⟨⟨hfind1, hset, hc1⟩, ?_⟩
  rw [hc2, hc1, hpend1]
  by_cases hp : requestAlreadyPending D s = false
  · simp [hp, List.count_cons]
  · simp [hp, List.count_cons]

/-- Witness of C11: "alice" and "bob" are registered, no request is pending and
the interface resolves; the two requests make one query. -/
theorem getGnssEnergyConsumed_coalesces_witness :
    (getGnssEnergyConsumed sampleDecls sampleEnv twoClients "alice").calls =
      [Call.addEngineInfoRequst "alice" 1, Call.getGnssEnergyConsumed] ∧
    (getGnssEnergyConsumed sampleDecls sampleEnv
        (getGnssEnergyConsumed sampleDecls sampleEnv twoClients "alice") "bob").calls.count
        Call.getGnssEnergyConsumed = 1 :=
  ⟨(getGnssEnergyConsumed_coalesces sampleDecls sampleEnv sampleEnv twoClients "alice" "bob"
      _ _ 1 (by decide) rfl rfl rfl).1.2.2,
   (getGnssEnergyConsumed_coalesces sampleDecls sampleEnv sampleEnv twoClients "alice" "bob"
      _ _ 1 (by decide) rfl rfl rfl).2.trans rfl⟩

/-! ### Loops over the client collection -/

theorem map_fst_forEachClient
    (body : String → LocHalDaemonClientHandler → LocHalDaemonClientHandler × List Call)
    (cs : List (String × LocHalDaemonClientHandler)) :
    (forEachClient body cs).1.map Prod.fst = cs.map Prod.fst := by
  induction cs with
  | nil => rfl
  | cons e rest ih => simp [forEachClient, ih]

theorem find_forEachClient
    (body : String → LocHalDaemonClientHandler → LocHalDaemonClientHandler × List Call)
    (cs : List (String × LocHalDaemonClientHandler)) (n : String)
    (h : LocHalDaemonClientHandler) (hf : find cs n = some h) :
    find (forEachClient body cs).1 n = some (body n h).1 := by
  induction cs with
  | nil => simp [find] at hf
  | cons e rest ih =>
    by_cases he : e.1 = n
    · simp only [find, he, if_true, Option.some.injEq] at hf
      simp only [forEachClient, find, he, if_true, hf]
    · simp only [find, he, if_false] at hf
      simp only [forEachClient, find, he, if_false, ih hf]

theorem count_filter_map_key (mk : String → Call) (hinj : ∀ a b, mk a = mk b → a = b)
    (p : LocHalDaemonClientHandler → Bool)
    (cs : List (String × LocHalDaemonClientHandler)) (hwf : (cs.map Prod.fst).Nodup)
    (n : String) (h : LocHalDaemonClientHandler) (hf : find cs n = some h) :
    ((cs.filter (fun e => p e.2)).map (fun e => mk e.1)).count (mk n) =
      if p h = true then 1 else 0 := by
  induction cs with
  | nil => simp [find] at hf
  | cons e rest ih =>
    rw [List.map_cons, List.nodup_cons] at hwf
    by_cases he : e.1 = n
    · simp only [find, he, if_true, Option.some.injEq] at hf
      have hrest : ((rest.filter (fun e => p e.2)).map (fun e => mk e.1)).count (mk n) = 0 := by
        rw [List.count_eq_zero]
        intro hmem
        obtain ⟨x, hx, hxn⟩ := List.mem_map.1 hmem
        have hxn2 : x.1 = n := hinj _ _ hxn
        apply hwf.1
        rw [he, ← hxn2]
        exact List.mem_map_of_mem Prod.fst (List.mem_of_mem_filter hx)
      by_cases hp : p h = true
      · have hpe : p e.2 = true := hf ▸ hp
        rw [List.filter_cons_of_pos (by simpa using hpe), List.map_cons, he,
          List.count_cons_self, hrest, if_pos hp]
      · have hpe : ¬ p e.2 = true := hf ▸ hp
        rw [List.filter_cons_of_neg (by simpa using hpe), hrest, if_neg hp]
    · simp only [find, he, if_false] at hf
      have hne : (mk e.1 == mk n) = false := by
        simpa using fun hc => he (hinj _ _ hc)
      by_cases hpe : p e.2 = true
      · rw [List.filter_cons_of_pos (by simpa using hpe), List.map_cons, List.count_cons,
          ih hwf.2 hf, hne]
        simp
      · rw [List.filter_cons_of_neg (by simpa using hpe), ih hwf.2 hf]

theorem calls_forEachClient_deliverEnergy (D : Decls) (msg : LocAPIGnssEnergyConsumedIndMsg)
    (cs : List (String × LocHalDaemonClientHandler)) :
    (forEachClient (deliverEnergy D msg) cs).2 =
      cs.map (fun each => Call.onGnssEnergyConsumedInfoAvailable each.1 msg) := by
  induction cs with
  | nil => rfl
  | cons e rest ih => simp [forEachClient, deliverEnergy, ih]

theorem calls_forEachClient_suspendClient (cs : List (String × LocHalDaemonClientHandler)) :
    (forEachClient suspendClient cs).2 =
      (cs.filter (fun e => e.2.mTracking)).map (fun e => Call.stopTracking e.1) := by
  induction cs with
  | nil => rfl
  | cons e rest ih =>
    by_cases ht : e.2.mTracking = true
    · simp [forEachClient, suspendClient, ht, ih]
    · simp [forEachClient, suspendClient, ht, ih]

/-- C12 (energy report fan-out): `onGnssEnergyConsumedCb total` hands the
indication made of the service name and `total` to the session of every entry
of the registry, in one call per entry, and keeps the registered names; so a
registered client is handed it exactly once, and is delivered it when its
energy request was pending. -/
theorem onGnssEnergyConsumedCb_broadcast (D : Decls) (s : LocationApiService) (total : Nat)
    (n : String) (h : LocHalDaemonClientHandler)
    (hwf : s.names.Nodup) (hreg : s.getClient n = some h) :
    (onGnssEnergyConsumedCb D s total).names = s.names ∧
    (onGnssEnergyConsumedCb D s total).calls = s.calls ++
      s.mClients.map (fun each =>
        Call.onGnssEnergyConsumedInfoAvailable each.1 ⟨D.SERVICE_NAME, total⟩) ∧
    (s.mClients.map (fun each =>
        Call.onGnssEnergyConsumedInfoAvailable each.1 ⟨D.SERVICE_NAME, total⟩)).count
      (Call.onGnssEnergyConsumedInfoAvailable n ⟨D.SERVICE_NAME, total⟩) = 1 ∧
    (onGnssEnergyConsumedCb D s total).getClient n =
      some (h.onGnssEnergyConsumedInfoAvailable D ⟨D.SERVICE_NAME, total⟩) ∧
    (h.onGnssEnergyConsumedInfoAvailable D ⟨D.SERVICE_NAME, total⟩).mEnergyIndications =
      (if h.hasPendingEngineInfoRequest D.E_ENGINE_INFO_CB_GNSS_ENERGY_CONSUMED_BIT then
        h.mEnergyIndications ++ [⟨D.SERVICE_NAME, total⟩]
      else h.mEnergyIndications) := by
  refine ⟨?_, ?_, ?_, ?_, ?_⟩
  · exact map_fst_forEachClient _ s.mClients
  · simp [onGnssEnergyConsumedCb, calls_forEachClient_deliverEnergy]
  · have hc := count_filter_map_key
      (fun name => Call.onGnssEnergyConsumedInfoAvailable name ⟨D.SERVICE_NAME, total⟩)
      (fun a b hab => by simpa using hab) (fun _ => true) s.mClients hwf n h hreg
    simpa using hc
  · exact find_forEachClient _ s.mClients n h hreg
  · unfold LocHalDaemonClientHandler.onGnssEnergyConsumedInfoAvailable
    split <;> rfl

/-- Witness of C12: after the coalesced requests of "alice" and "bob" the report
4200 is delivered to "bob" (and to "alice" alike). -/
theorem onGnssEnergyConsumedCb_broadcast_witness :
    ((onGnssEnergyConsumedCb sampleDecls
        (getGnssEnergyConsumed sampleDecls sampleEnv
          (getGnssEnergyConsumed sampleDecls sampleEnv twoClients "alice") "bob")
        4200).getClient "bob").map LocHalDaemonClientHandler.mEnergyIndications =
      some [⟨"locapiservice", 4200⟩] ∧
    ((onGnssEnergyConsumedCb sampleDecls
        (getGnssEnergyConsumed sampleDecls sampleEnv
          (getGnssEnergyConsumed sampleDecls sampleEnv twoClients "alice") "bob")
        4200).getClient "alice").map LocHalDaemonClientHandler.mEnergyIndications =
      some [⟨"locapiservice", 4200⟩] :=
  ⟨(congrArg (Option.map LocHalDaemonClientHandler.mEnergyIndications)
      (onGnssEnergyConsumedCb_broadcast sampleDecls
        (getGnssEnergyConsumed sampleDecls sampleEnv
          (getGnssEnergyConsumed sampleDecls sampleEnv twoClients "alice") "bob")
        4200 "bob" _ (by decide) rfl).2.2.2.1).trans rfl,
   (congrArg (Option.map LocHalDaemonClientHandler.mEnergyIndications)
      (onGnssEnergyConsumedCb_broadcast sampleDecls
        (getGnssEnergyConsumed sampleDecls sampleEnv
          (getGnssEnergyConsumed sampleDecls sampleEnv twoClients "alice") "bob")
        4200 "alice" _ (by decide) rfl).2.2.2.1).trans rfl⟩

/-- C15 (stop batching): for a registered client, whatever its `mBatching` flag
was, `stopBatching` clears the flag, resets `mBatchingMode` to
`BATCHING_MODE_NO_AUTO_REPORT`, asks the session to stop batching and appends
exactly one stop-batching acknowledgment to `mPendingMessages`; it also sets
the subscription mask to 0. -/
theorem stopBatching_registered (s : LocationApiService) (pMsg : LocAPIMsgHeader)
    (h : LocHalDaemonClientHandler) (hreg : s.getClient pMsg.mSocketName = some h) :
    (stopBatching s pMsg).getClient pMsg.mSocketName =
      some { h with
        mBatching := false
        mBatchingMode := BatchingMode.BATCHING_MODE_NO_AUTO_REPORT
        mSubscriptionMask := 0
        mPendingMessages := h.mPendingMessages ++ [E_LOCAPI_STOP_BATCHING_MSG_ID] } ∧
    (stopBatching s pMsg).calls = s.calls ++
      [Call.updateSubscription pMsg.mSocketName 0, Call.stopBatching pMsg.mSocketName] ∧
    (stopBatching s pMsg).names = s.names := by
  have hrun : stopBatching s pMsg =
      (((s.enter (Entered.stopBatching pMsg)).call
        (Call.updateSubscription pMsg.mSocketName 0)).call
        (Call.stopBatching pMsg.mSocketName)).setClient pMsg.mSocketName
        { h with
          mBatching := false
          mBatchingMode := BatchingMode.BATCHING_MODE_NO_AUTO_REPORT
          mSubscriptionMask := 0
          mPendingMessages := h.mPendingMessages ++ [E_LOCAPI_STOP_BATCHING_MSG_ID] } := by
    simp [stopBatching, hreg, LocHalDaemonClientHandler.updateSubscription,
      LocHalDaemonClientHandler.stopBatching, pushPending]
  rw [hrun]
  refine ⟨getClient_setClient_self _ _ _ h (by simpa using hreg), by simp, ?_⟩
  rw [names_setClient]
  rfl

/-- Witness of C15: "alice" is registered and not batching. -/
theorem stopBatching_registered_witness :
    (stopBatching sampleService ⟨"alice", E_LOCAPI_STOP_BATCHING_MSG_ID⟩).getClient "alice" =
      some { LocHalDaemonClientHandler.create "alice" with
        mTracking := true
        mBatching := false
        mBatchingMode := BatchingMode.BATCHING_MODE_NO_AUTO_REPORT
        mSubscriptionMask := 0
        mPendingMessages := [E_LOCAPI_STOP_BATCHING_MSG_ID] } ∧
    (stopBatching sampleService ⟨"alice", E_LOCAPI_STOP_BATCHING_MSG_ID⟩).calls =
      [Call.updateSubscription "alice" 0, Call.stopBatching "alice"] ∧
    (stopBatching sampleService ⟨"alice", E_LOCAPI_STOP_BATCHING_MSG_ID⟩).names = ["alice"] :=
  stopBatching_registered sampleService ⟨"alice", E_LOCAPI_STOP_BATCHING_MSG_ID⟩ _ rfl

/-- C16 (suspend): `onSuspend` keeps the registered names and calls
`stopTracking` on exactly the sessions whose `mTracking` flag is set, once
each; such a session keeps its flag and gets exactly one stop-tracking
acknowledgment appended, and a session whose flag is not set is left as it
was. -/
theorem onSuspend_sessions (s : LocationApiService) (n : String)
    (h : LocHalDaemonClientHandler)
    (hwf : s.names.Nodup) (hreg : s.getClient n = some h) :
    (onSuspend s).names = s.names ∧
    (onSuspend s).calls = s.calls ++
      (s.mClients.filter (fun e => e.2.mTracking)).map (fun e => Call.stopTracking e.1) ∧
    ((s.mClients.filter (fun e => e.2.mTracking)).map
        (fun e => Call.stopTracking e.1)).count (Call.stopTracking n) =
      (if h.mTracking = true then 1 else 0) ∧
    (onSuspend s).getClient n =
      some (if h.mTracking = true then
          { h with mPendingMessages := h.mPendingMessages ++ [E_LOCAPI_STOP_TRACKING_MSG_ID] }
        else h) ∧
    ((onSuspend s).getClient n).map LocHalDaemonClientHandler.mTracking =
      some h.mTracking := by
  have hget : (onSuspend s).getClient n = some (suspendClient n h).1 :=
    find_forEachClient _ s.mClients n h hreg
  have hbody : (suspendClient n h).1 =
      (if h.mTracking = true then
          { h with mPendingMessages := h.mPendingMessages ++ [E_LOCAPI_STOP_TRACKING_MSG_ID] }
        else h) := by
    unfold suspendClient
    split <;> rfl
  refine ⟨?_, ?_, ?_, ?_, ?_⟩
  · exact map_fst_forEachClient _ s.mClients
  · simp [onSuspend, calls_forEachClient_suspendClient]
  · exact count_filter_map_key (fun name => Call.stopTracking name)
      (fun a b hab => by simpa using hab) (fun c => c.mTracking) s.mClients hwf n h hreg
  · rw [hget, hbody]
  · rw [hget, hbody]
    split <;> rfl

/-- Witness of C16: "alice" is tracking in the sample service. -/
theorem onSuspend_sessions_witness :
    (onSuspend sampleService).calls = [Call.stopTracking "alice"] ∧
    (onSuspend sampleService).getClient "alice" =
      some { LocHalDaemonClientHandler.create "alice" with
        mTracking := true
        mSubscriptionMask := 7
        mPendingMessages := [E_LOCAPI_STOP_TRACKING_MSG_ID] } :=
  ⟨(onSuspend_sessions sampleService "alice" _ (by decide) rfl).2.1,
   (onSuspend_sessions sampleService "alice" _ (by decide) rfl).2.2.2.1⟩

/-! ### Geofence batches -/

theorem readPayload_eq_take (gfPayload : List GeofencePayload) (n i : Nat)
    (h : i + n ≤ gfPayload.length) :
    readPayload gfPayload i n = some ((gfPayload.drop i).take n) := by
  induction n generalizing i with
  | zero => simp [readPayload]
  | succ k ih =>
    have hi : i < gfPayload.length := by omega
    rw [readPayload, List.getElem?_eq_getElem hi]
    simp only [ih (i + 1) (by omega), Option.map_some']
    rw [List.drop_eq_getElem_cons hi, List.take_succ_cons]

theorem find_setGeofenceId_self (ids : List (Nat × Nat)) (c sid : Nat) :
    ((LocHalDaemonClientHandler.setGeofenceId ids c sid).find? (fun e => e.1 = c)).map
      Prod.snd = some sid := by
  induction ids with
  | nil => simp [LocHalDaemonClientHandler.setGeofenceId]
  | cons e rest ih =>
    by_cases he : e.1 = c
    · simp [LocHalDaemonClientHandler.setGeofenceId, he]
    · simp [LocHalDaemonClientHandler.setGeofenceId, he, List.find?_cons, ih]

theorem find_setGeofenceId_of_ne (ids : List (Nat × Nat)) (c c' sid : Nat) (hne : c' ≠ c) :
    (LocHalDaemonClientHandler.setGeofenceId ids c sid).find? (fun e => e.1 = c') =
      ids.find? (fun e => e.1 = c') := by
  induction ids with
  | nil => simp [LocHalDaemonClientHandler.setGeofenceId, hne.symm]
  | cons e rest ih =>
    by_cases he : e.1 = c
    · have hec : ¬ e.1 = c' := fun h => hne (h.symm.trans he)
      simp [LocHalDaemonClientHandler.setGeofenceId, he, List.find?_cons, hec, hne.symm]
    · rw [LocHalDaemonClientHandler.setGeofenceId, if_neg he]
      by_cases hec : e.1 = c'
      · simp [List.find?_cons, hec]
      · simp [List.find?_cons, hec, ih]

theorem find_foldl_setGeofenceId_of_not_mem (ps : List (Nat × Nat)) (ids : List (Nat × Nat))
    (c : Nat) (hc : c ∉ ps.map Prod.fst) :
    (ps.foldl (fun ids p => LocHalDaemonClientHandler.setGeofenceId ids p.1 p.2) ids).find?
        (fun e => e.1 = c) = ids.find? (fun e => e.1 = c) := by
  induction ps generalizing ids with
  | nil => rfl
  | cons p rest ih =>
    rw [List.map_cons, List.mem_cons, not_or] at hc
    rw [List.foldl_cons, ih _ hc.2, find_setGeofenceId_of_ne _ _ _ _ hc.1]

theorem find_foldl_setGeofenceId_of_last (ps : List (Nat × Nat)) (ids : List (Nat × Nat))
    (i c sid : Nat) (hi : ps[i]? = some (c, sid))
    (hlast : ∀ j p, i < j → ps[j]? = some p → p.1 ≠ c) :
    ((ps.foldl (fun ids p => LocHalDaemonClientHandler.setGeofenceId ids p.1 p.2) ids).find?
        (fun e => e.1 = c)).map Prod.snd = some sid := by
  induction ps generalizing ids i with
  | nil => simp at hi
  | cons p rest ih =>
    rw [List.foldl_cons]
    cases i with
    | zero =>
      have hp : p = (c, sid) := by simpa using hi
      subst hp
      have hnot : c ∉ rest.map Prod.fst := by
        intro hmem
        obtain ⟨q, hq, hqc⟩ := List.mem_map.1 hmem
        obtain ⟨j, hj⟩ := List.mem_iff_getElem?.1 hq
        exact hlast (j + 1) q (Nat.succ_pos j) (by simpa using hj) hqc
      rw [find_foldl_setGeofenceId_of_not_mem rest _ c hnot]
      exact find_setGeofenceId_self ids c sid
    | succ k =>
      refine ih _ k (by simpa using hi) ?_
      intro j q hj hq
      exact hlast (j + 1) q (by omega) (by simpa using hq)

/-- After `setGeofenceIds`, a client id of the batch maps to the session id of
the last index it has in the batch: a pair overwrites an earlier mapping of the
same client id. -/
theorem getSessionId_setGeofenceIds_of_last (h : LocHalDaemonClientHandler) (count : Nat)
    (clientIds sessions : List Nat) (i : Nat) (hi : i < count) (c sid : Nat)
    (hc : clientIds[i]? = some c) (hs : sessions[i]? = some sid)
    (hlast : ∀ j, i < j → j < count → clientIds[j]? ≠ some c) :
    (h.setGeofenceIds count clientIds sessions).getSessionId c = some sid := by
  unfold LocHalDaemonClientHandler.getSessionId LocHalDaemonClientHandler.setGeofenceIds
  dsimp only
  apply find_foldl_setGeofenceId_of_last _ _ i
  · rw [List.getElem?_take, if_pos hi, List.getElem?_zip_eq_some]
    exact ⟨hc, hs⟩
  · intro j p hij hp hpc
    rw [List.getElem?_take] at hp
    by_cases hj : j < count
    · rw [if_pos hj, List.getElem?_zip_eq_some] at hp
      exact hlast j hij hj (hpc ▸ hp.1)
    · rw [if_neg hj] at hp
      exact absurd hp (by simp)

/-- In a list without repetition no later index holds the element of an
index. -/
theorem getElem?_ne_of_nodup_of_lt (l : List Nat) (hnd : l.Nodup) (i j c : Nat)
    (hij : i < j) (hc : l[i]? = some c) : l[j]? ≠ some c := by
  intro hj
  obtain ⟨hi1, hi2⟩ := List.getElem?_eq_some.1 hc
  obtain ⟨hj1, hj2⟩ := List.getElem?_eq_some.1 hj
  have := (List.Nodup.getElem_inj_iff hnd).1 (hi2.trans hj2.symm)
  omega

/-- What `addGeofences` does for a registered client when one of its three
allocations fails: it returns before the copy loop. -/
theorem addGeofences_of_alloc_failure (D : Decls) (env : Env) (s : LocationApiService)
    (pMsg : LocAPIAddGeofencesReqMsg) (h : LocHalDaemonClientHandler)
    (hreg : s.getClient pMsg.mSocketName = some h)
    (hfail : env.malloc 0 (pMsg.count * D.sizeofGeofenceOption) = false ∨
      env.malloc 1 (pMsg.count * D.sizeofGeofenceInfo) = false ∨
      env.malloc 2 (pMsg.count * D.sizeofUint32) = false) :
    addGeofences D env s pMsg = Except.ok (s.enter (Entered.addGeofences pMsg)) := by
  have hreg1 : (s.enter (Entered.addGeofences pMsg)).getClient pMsg.mSocketName = some h :=
    hreg
  unfold addGeofences
  simp only [hreg1]
  rw [if_pos hfail]

/-- What `addGeofences` does for a registered client once its three allocations
succeeded and `count` descriptors are in the message. -/
theorem addGeofences_run (D : Decls) (env : Env) (s : LocationApiService)
    (pMsg : LocAPIAddGeofencesReqMsg) (h : LocHalDaemonClientHandler)
    (hreg : s.getClient pMsg.mSocketName = some h)
    (hm0 : env.malloc 0 (pMsg.count * D.sizeofGeofenceOption) = true)
    (hm1 : env.malloc 1 (pMsg.count * D.sizeofGeofenceInfo) = true)
    (hm2 : env.malloc 2 (pMsg.count * D.sizeofUint32) = true)
    (hcount : pMsg.count ≤ pMsg.gfPayload.length) :
    addGeofences D env s pMsg =
      Except.ok
        (match env.addGeofences h.mName pMsg.count
            ((pMsg.gfPayload.take pMsg.count).map GeofencePayload.gfOption)
            ((pMsg.gfPayload.take pMsg.count).map GeofencePayload.gfInfo) with
        | none =>
          (s.enter (Entered.addGeofences pMsg)).call
            (Call.addGeofences pMsg.mSocketName pMsg.count
              ((pMsg.gfPayload.take pMsg.count).map GeofencePayload.gfOption)
              ((pMsg.gfPayload.take pMsg.count).map GeofencePayload.gfInfo))
        | some sessions =>
          (((s.enter (Entered.addGeofences pMsg)).call
            (Call.addGeofences pMsg.mSocketName pMsg.count
              ((pMsg.gfPayload.take pMsg.count).map GeofencePayload.gfOption)
              ((pMsg.gfPayload.take pMsg.count).map GeofencePayload.gfInfo))).call
            (Call.setGeofenceIds pMsg.mSocketName pMsg.count
              ((pMsg.gfPayload.take pMsg.count).map GeofencePayload.gfClientId)
              sessions)).setClient pMsg.mSocketName
            (pushGfPending
              (h.setGeofenceIds pMsg.count
                ((pMsg.gfPayload.take pMsg.count).map GeofencePayload.gfClientId) sessions)
              E_LOCAPI_ADD_GEOFENCES_MSG_ID)) := by
  have hread := readPayload_eq_take pMsg.gfPayload pMsg.count 0 (by omega)
  rw [List.drop_zero] at hread
  have hreg1 : (s.enter (Entered.addGeofences pMsg)).getClient pMsg.mSocketName = some h :=
    hreg
  unfold addGeofences
  simp only [hreg1, hm0, hm1, hm2, hread, LocHalDaemonClientHandler.addGeofences]
  split
  · simp_all
  · split <;> rfl

/-- C13, where the claim fails: "alice" adds two geofences that both carry the
client id 5 and the engine returns the session ids 0 and 1; the geofence map
then holds the one pair (5, 1), and the pair (5, 0) of index 0 is not recorded.
And when the staging buffers cannot be allocated, the same registered client
and a message with its two descriptors forward nothing to the engine. -/
theorem addGeofences_repeated_client_id :
    (∃ s', addGeofences sampleDecls sampleEnv sampleService
          ⟨"alice", 2, [⟨5, 50, 500⟩, ⟨5, 51, 501⟩]⟩ = Except.ok s' ∧
        s'.calls = [Call.addGeofences "alice" 2 [50, 51] [500, 501],
          Call.setGeofenceIds "alice" 2 [5, 5] [0, 1]] ∧
        (s'.getClient "alice").map LocHalDaemonClientHandler.mGfIds = some [(5, 1)] ∧
        ¬ ((s'.getClient "alice").bind (fun h' => h'.getSessionId 5) = some 0)) ∧
    (∃ s', addGeofences sampleDecls noMemoryEnv sampleService
          ⟨"alice", 2, [⟨5, 50, 500⟩, ⟨9, 90, 900⟩]⟩ = Except.ok s' ∧
        s'.calls = [] ∧
        (s'.getClient "alice").map LocHalDaemonClientHandler.mGfPendingMessages = some []) :=
  ⟨⟨_, rfl, rfl, rfl, by decide⟩, ⟨_, rfl, rfl, rfl⟩⟩

/-- C13 (adding geofences), as the code has it: for a registered client whose
message holds `count` descriptors, `addGeofences` returns without a call and
without a change of the sessions when one of its three staging allocations
fails.  When they succeed it forwards the options and infos of descriptors
0..count-1 in input order; when the engine returns session ids it hands the
client ids of the same descriptors with those session ids to `setGeofenceIds`
and appends exactly one add-geofences acknowledgment to `mGfPendingMessages`.
The pairs are recorded in input order, a pair overwriting an earlier mapping of
the same client id: the client id of an index that does not recur at a later
index of the batch maps to the session id of that index, and with distinct
client ids every index does.  When the engine returns nothing, the session is
unchanged and nothing is enqueued. -/
theorem addGeofences_registered (D : Decls) (env : Env) (s : LocationApiService)
    (pMsg : LocAPIAddGeofencesReqMsg) (h : LocHalDaemonClientHandler)
    (hreg : s.getClient pMsg.mSocketName = some h)
    (hcount : pMsg.count ≤ pMsg.gfPayload.length) :
    ∃ s', addGeofences D env s pMsg = Except.ok s' ∧
      ((env.malloc 0 (pMsg.count * D.sizeofGeofenceOption) = false ∨
          env.malloc 1 (pMsg.count * D.sizeofGeofenceInfo) = false ∨
          env.malloc 2 (pMsg.count * D.sizeofUint32) = false) →
        s'.calls = s.calls ∧ s'.mClients = s.mClients) ∧
      (env.malloc 0 (pMsg.count * D.sizeofGeofenceOption) = true →
        env.malloc 1 (pMsg.count * D.sizeofGeofenceInfo) = true →
        env.malloc 2 (pMsg.count * D.sizeofUint32) = true →
        s'.calls = s.calls ++
          (Call.addGeofences pMsg.mSocketName pMsg.count
              ((pMsg.gfPayload.take pMsg.count).map GeofencePayload.gfOption)
              ((pMsg.gfPayload.take pMsg.count).map GeofencePayload.gfInfo) ::
            (match env.addGeofences h.mName pMsg.count
                ((pMsg.gfPayload.take pMsg.count).map GeofencePayload.gfOption)
                ((pMsg.gfPayload.take pMsg.count).map GeofencePayload.gfInfo) with
            | none => []
            | some sessions =>
              [Call.setGeofenceIds pMsg.mSocketName pMsg.count
                ((pMsg.gfPayload.take pMsg.count).map GeofencePayload.gfClientId)
                sessions])) ∧
        s'.getClient pMsg.mSocketName =
          some (match env.addGeofences h.mName pMsg.count
              ((pMsg.gfPayload.take pMsg.count).map GeofencePayload.gfOption)
              ((pMsg.gfPayload.take pMsg.count).map GeofencePayload.gfInfo) with
            | none => h
            | some sessions =>
              { h.setGeofenceIds pMsg.count
                  ((pMsg.gfPayload.take pMsg.count).map GeofencePayload.gfClientId)
                  sessions with
                mGfPendingMessages :=
                  h.mGfPendingMessages ++ [E_LOCAPI_ADD_GEOFENCES_MSG_ID] }) ∧
        ∀ sessions, env.addGeofences h.mName pMsg.count
              ((pMsg.gfPayload.take pMsg.count).map GeofencePayload.gfOption)
              ((pMsg.gfPayload.take pMsg.count).map GeofencePayload.gfInfo) = some sessions →
          (∀ i c sid, i < pMsg.count →
            ((pMsg.gfPayload.take pMsg.count).map GeofencePayload.gfClientId)[i]? = some c →
            sessions[i]? = some sid →
            (∀ j, i < j → j < pMsg.count →
              ((pMsg.gfPayload.take pMsg.count).map GeofencePayload.gfClientId)[j]? ≠
                some c) →
            (s'.getClient pMsg.mSocketName).bind (fun h' => h'.getSessionId c) = some sid) ∧
          (((pMsg.gfPayload.take pMsg.count).map GeofencePayload.gfClientId).Nodup →
            ∀ i c sid, i < pMsg.count →
              ((pMsg.gfPayload.take pMsg.count).map GeofencePayload.gfClientId)[i]? = some c →
              sessions[i]? = some sid →
              (s'.getClient pMsg.mSocketName).bind (fun h' => h'.getSessionId c) =
                some sid)) := by
  have hreg1 : (s.enter (Entered.addGeofences pMsg)).getClient pMsg.mSocketName = some h :=
    hreg
  by_cases hfail : env.malloc 0 (pMsg.count * D.sizeofGeofenceOption) = false ∨
      env.malloc 1 (pMsg.count * D.sizeofGeofenceInfo) = false ∨
      env.malloc 2 (pMsg.count * D.sizeofUint32) = false
  · refine ⟨_, addGeofences_of_alloc_failure D env s pMsg h hreg hfail,
      fun _ => ⟨rfl, rfl⟩, ?_⟩
    intro hm0 hm1 hm2
    rw [hm0, hm1, hm2] at hfail
    exact absurd hfail (by simp)
  · have hm : env.malloc 0 (pMsg.count * D.sizeofGeofenceOption) = true ∧
        env.malloc 1 (pMsg.count * D.sizeofGeofenceInfo) = true ∧
        env.malloc 2 (pMsg.count * D.sizeofUint32) = true := by
      simpa only [not_or, Bool.not_eq_false] using hfail
    refine ⟨_, addGeofences_run D env s pMsg h hreg hm.1 hm.2.1 hm.2.2 hcount,
      fun hf => absurd hf hfail, ?_⟩
    intro _ _ _
    cases hres : env.addGeofences h.mName pMsg.count
        ((pMsg.gfPayload.take pMsg.count).map GeofencePayload.gfOption)
        ((pMsg.gfPayload.take pMsg.count).map GeofencePayload.gfInfo) with
    | none =>
      refine ⟨by simp, ?_, ?_⟩
      · exact hreg1
      · intro sessions hs
        exact absurd hs (by simp)
    | some sessions =>
      have hget := getClient_setClient_self
        (((s.enter (Entered.addGeofences pMsg)).call
          (Call.addGeofences pMsg.mSocketName pMsg.count
            ((pMsg.gfPayload.take pMsg.count).map GeofencePayload.gfOption)
            ((pMsg.gfPayload.take pMsg.count).map GeofencePayload.gfInfo))).call
          (Call.setGeofenceIds pMsg.mSocketName pMsg.count
            ((pMsg.gfPayload.take pMsg.count).map GeofencePayload.gfClientId) sessions))
        pMsg.mSocketName
        (pushGfPending
          (h.setGeofenceIds pMsg.count
            ((pMsg.gfPayload.take pMsg.count).map GeofencePayload.gfClientId) sessions)
          E_LOCAPI_ADD_GEOFENCES_MSG_ID) h hreg1
      refine ⟨by simp, ?_, ?_⟩
      · exact hget
      · intro sessions2 hs
        have hs2 : sessions = sessions2 := by simpa using hs
        subst hs2
        have hlast : ∀ i c sid, i < pMsg.count →
            ((pMsg.gfPayload.take pMsg.count).map GeofencePayload.gfClientId)[i]? = some c →
            sessions[i]? = some sid →
            (∀ j, i < j → j < pMsg.count →
              ((pMsg.gfPayload.take pMsg.count).map GeofencePayload.gfClientId)[j]? ≠
                some c) →
            Option.bind (some (pushGfPending
                (h.setGeofenceIds pMsg.count
                  ((pMsg.gfPayload.take pMsg.count).map GeofencePayload.gfClientId) sessions)
                E_LOCAPI_ADD_GEOFENCES_MSG_ID)) (fun h' => h'.getSessionId c) = some sid := by
          intro i c sid hi hc hsid hl
          exact getSessionId_setGeofenceIds_of_last h pMsg.count _ sessions i hi c sid hc hsid hl
        dsimp only
        rw [hget]
        refine ⟨hlast, ?_⟩
        intro hnd i c sid hi hc hsid
        exact hlast i c sid hi hc hsid
          (fun j hij _ => getElem?_ne_of_nodup_of_lt _ hnd i j c hij hc)

/-- Witness of C13: "alice" adds the geofences 5 and 9, and the engine returns
the session ids 0 and 1; then "alice" adds two geofences that both carry the
client id 5, and the id maps to the session id 1 of the later index. -/
theorem addGeofences_registered_witness :
    (∃ s', addGeofences sampleDecls sampleEnv sampleService
        ⟨"alice", 2, [⟨5, 50, 500⟩, ⟨9, 90, 900⟩]⟩ = Except.ok s' ∧
      s'.calls = [Call.addGeofences "alice" 2 [50, 90] [500, 900],
        Call.setGeofenceIds "alice" 2 [5, 9] [0, 1]] ∧
      (s'.getClient "alice").map LocHalDaemonClientHandler.mGfPendingMessages =
        some [E_LOCAPI_ADD_GEOFENCES_MSG_ID] ∧
      (s'.getClient "alice").bind (fun h' => h'.getSessionId 5) = some 0 ∧
      (s'.getClient "alice").bind (fun h' => h'.getSessionId 9) = some 1) ∧
    (∃ s', addGeofences sampleDecls sampleEnv sampleService
        ⟨"alice", 2, [⟨5, 50, 500⟩, ⟨5, 51, 501⟩]⟩ = Except.ok s' ∧
      (s'.getClient "alice").map LocHalDaemonClientHandler.mGfPendingMessages =
        some [E_LOCAPI_ADD_GEOFENCES_MSG_ID] ∧
      (s'.getClient "alice").bind (fun h' => h'.getSessionId 5) = some 1) :=
  ⟨match addGeofences_registered sampleDecls sampleEnv sampleService
        ⟨"alice", 2, [⟨5, 50, 500⟩, ⟨9, 90, 900⟩]⟩
        { LocHalDaemonClientHandler.create "alice" with
          mTracking := true
          mSubscriptionMask := 7 } rfl (by decide) with
    | ⟨s', hrun, _, hok⟩ =>
      ⟨s', hrun, (hok rfl rfl rfl).1,
        (congrArg (Option.map LocHalDaemonClientHandler.mGfPendingMessages)
          (hok rfl rfl rfl).2.1).trans rfl,
        ((hok rfl rfl rfl).2.2 [0, 1] rfl).2 (by decide) 0 5 0 (by decide) rfl rfl,
        ((hok rfl rfl rfl).2.2 [0, 1] rfl).2 (by decide) 1 9 1 (by decide) rfl rfl⟩,
   match addGeofences_registered sampleDecls sampleEnv sampleService
        ⟨"alice", 2, [⟨5, 50, 500⟩, ⟨5, 51, 501⟩]⟩
        { LocHalDaemonClientHandler.create "alice" with
          mTracking := true
          mSubscriptionMask := 7 } rfl (by decide) with
    | ⟨s', hrun, _, hok⟩ =>
      ⟨s', hrun,
        (congrArg (Option.map LocHalDaemonClientHandler.mGfPendingMessages)
          (hok rfl rfl rfl).2.1).trans rfl,
        ((hok rfl rfl rfl).2.2 [0, 1] rfl).1 1 5 1 (by decide) rfl rfl
          (fun j h1 (h2 : j < 2) => absurd h1 (by omega))⟩⟩

/-- C17 (resume stops at the first failure): with "alice" and "bob" both flagged
tracking-active with the stored interval 1000, `onResume` asks the engine to
restart "alice" only once that restart fails: "bob" is never asked and gets no
acknowledgment, whether the engine would have restarted "bob" or not; when
every restart succeeds both are restarted with the stored options. -/
theorem onResume_stops_at_first_failure :
    ((onResume aliceFailsEnv twoClients).calls = [Call.startTracking "alice" 0 1000] ∧
      (onResume aliceFailsEnv twoClients).getClient "bob" = twoClients.getClient "bob" ∧
      aliceFailsEnv.startTracking "bob" 0 1000 = true) ∧
    ((onResume failingEnv twoClients).calls = [Call.startTracking "alice" 0 1000] ∧
      (onResume failingEnv twoClients).mClients = twoClients.mClients) ∧
    ((onResume sampleEnv twoClients).calls =
        [Call.startTracking "alice" 0 1000, Call.startTracking "bob" 0 1000] ∧
      ((onResume sampleEnv twoClients).getClient "bob").map
          LocHalDaemonClientHandler.mPendingMessages =
        some [E_LOCAPI_START_TRACKING_MSG_ID]) := by
  refine ⟨⟨?_, ?_, ?_⟩, ⟨?_, ?_⟩, ?_, ?_⟩ <;> rfl

/-! ### The readiness broadcast -/

theorem sentTo_append (xs ys : List ReadyAction) :
    sentTo (xs ++ ys) = sentTo xs ++ sentTo ys := by
  induction xs with
  | nil => rfl
  | cons x rest ih => cases x <;> simp [sentTo, ih]

theorem removed_append (xs ys : List ReadyAction) :
    removed (xs ++ ys) = removed xs ++ removed ys := by
  induction xs with
  | nil => rfl
  | cons x rest ih => cases x <;> simp [removed, ih]

theorem sentTo_readyEntry_local (D : Decls) (send : String → Bool) (dp : Dirent) :
    sentTo (readyEntry D send false dp) =
      if (dp.lstat && !isHidden dp &&
          startsWith (D.SOCKET_DIR_TO_CLIENT ++ dp.d_name) D.SOCKET_TO_LOCATION_CLIENT_BASE) = true
      then [D.SOCKET_DIR_TO_CLIENT ++ dp.d_name] else [] := by
  unfold readyEntry
  cases h1 : dp.lstat <;> cases h2 : isHidden dp <;>
    cases h3 : startsWith (D.SOCKET_DIR_TO_CLIENT ++ dp.d_name)
      D.SOCKET_TO_LOCATION_CLIENT_BASE <;>
    simp [sentTo, h3]

theorem sentTo_readyEntry_remote (D : Decls) (send : String → Bool) (dp : Dirent) :
    sentTo (readyEntry D send true dp) =
      if (dp.lstat && !isHidden dp &&
          startsWith (D.SOCKET_DIR_TO_CLIENT ++ dp.d_name)
            D.SOCKET_TO_EXTERANL_AP_LOCATION_CLIENT_BASE) = true
      then [skipBase (D.SOCKET_DIR_TO_CLIENT ++ dp.d_name)
        D.SOCKET_TO_EXTERANL_AP_LOCATION_CLIENT_BASE] else [] := by
  unfold readyEntry
  cases h1 : dp.lstat <;> cases h2 : isHidden dp <;>
    cases h3 : startsWith (D.SOCKET_DIR_TO_CLIENT ++ dp.d_name)
      D.SOCKET_TO_EXTERANL_AP_LOCATION_CLIENT_BASE <;>
    cases h4 : send (skipBase (D.SOCKET_DIR_TO_CLIENT ++ dp.d_name)
      D.SOCKET_TO_EXTERANL_AP_LOCATION_CLIENT_BASE) <;>
    simp [sentTo, h3, h4]

theorem removed_readyEntry_local (D : Decls) (send : String → Bool) (dp : Dirent) :
    removed (readyEntry D send false dp) = [] := by
  unfold readyEntry
  cases h1 : dp.lstat <;> cases h2 : isHidden dp <;>
    cases h3 : startsWith (D.SOCKET_DIR_TO_CLIENT ++ dp.d_name)
      D.SOCKET_TO_LOCATION_CLIENT_BASE <;>
    simp [removed, h3]

theorem removed_readyEntry_remote (D : Decls) (send : String → Bool) (dp : Dirent) :
    removed (readyEntry D send true dp) =
      if (dp.lstat && !isHidden dp &&
          startsWith (D.SOCKET_DIR_TO_CLIENT ++ dp.d_name)
            D.SOCKET_TO_EXTERANL_AP_LOCATION_CLIENT_BASE &&
          !send (skipBase (D.SOCKET_DIR_TO_CLIENT ++ dp.d_name)
            D.SOCKET_TO_EXTERANL_AP_LOCATION_CLIENT_BASE)) = true
      then [D.SOCKET_DIR_TO_CLIENT ++ dp.d_name] else [] := by
  unfold readyEntry
  cases h1 : dp.lstat <;> cases h2 : isHidden dp <;>
    cases h3 : startsWith (D.SOCKET_DIR_TO_CLIENT ++ dp.d_name)
      D.SOCKET_TO_EXTERANL_AP_LOCATION_CLIENT_BASE <;>
    cases h4 : send (skipBase (D.SOCKET_DIR_TO_CLIENT ++ dp.d_name)
      D.SOCKET_TO_EXTERANL_AP_LOCATION_CLIENT_BASE) <;>
    simp [removed, h3, h4]

theorem filter_map_of_entries {α : Type} (f : Dirent → List α) (p : Dirent → Bool)
    (g : Dirent → α) (hf : ∀ dp, f dp = if p dp = true then [g dp] else [])
    (entries : List Dirent) (collect : List Dirent → List α)
    (hnil : collect [] = [])
    (hcons : ∀ dp rest, collect (dp :: rest) = f dp ++ collect rest) :
    collect entries = (entries.filter p).map g := by
  induction entries with
  | nil => simpa using hnil
  | cons dp rest ih =>
    rw [hcons, ih, hf]
    by_cases hp : p dp = true
    · rw [if_pos hp, List.filter_cons_of_pos hp]
      rfl
    · rw [if_neg hp, List.filter_cons_of_neg hp]
      rfl

/-- The ready indications sent in co-located mode, for every listing. -/
theorem sentTo_onListenerReady_local (D : Decls) (send : String → Bool)
    (entries : List Dirent) :
    sentTo (onListenerReady D (some entries) send false) =
      (entries.filter (fun dp => dp.lstat && !isHidden dp &&
        startsWith (D.SOCKET_DIR_TO_CLIENT ++ dp.d_name)
          D.SOCKET_TO_LOCATION_CLIENT_BASE)).map
        (fun dp => D.SOCKET_DIR_TO_CLIENT ++ dp.d_name) :=
  filter_map_of_entries (fun dp => sentTo (readyEntry D send false dp)) _ _
    (sentTo_readyEntry_local D send) entries
    (fun es => sentTo (onListenerReady D (some es) send false)) rfl
    (fun _ _ => sentTo_append _ _)

/-- The ready indications sent in remote-processor mode, for every listing. -/
theorem sentTo_onListenerReady_remote (D : Decls) (send : String → Bool)
    (entries : List Dirent) :
    sentTo (onListenerReady D (some entries) send true) =
      (entries.filter (fun dp => dp.lstat && !isHidden dp &&
        startsWith (D.SOCKET_DIR_TO_CLIENT ++ dp.d_name)
          D.SOCKET_TO_EXTERANL_AP_LOCATION_CLIENT_BASE)).map
        (fun dp => skipBase (D.SOCKET_DIR_TO_CLIENT ++ dp.d_name)
          D.SOCKET_TO_EXTERANL_AP_LOCATION_CLIENT_BASE) :=
  filter_map_of_entries (fun dp => sentTo (readyEntry D send true dp)) _ _
    (sentTo_readyEntry_remote D send) entries
    (fun es => sentTo (onListenerReady D (some es) send true)) rfl
    (fun _ _ => sentTo_append _ _)

/-- C18 (readiness broadcast classification): for every directory listing,
`onListenerReady` sends a ready indication in co-located mode for exactly the
entries that `lstat` accepts, whose name does not begin with '.', and whose
full path begins with the local-client base, and in remote-processor mode for
exactly those whose full path begins with the remote-client base; so for a
listing of one co-located file `a` and one remote-processor file `b`, each
carrying its own base only, co-located mode sends exactly one indication, to
the path of `a`, and remote mode exactly one, to the name of `b` behind the
remote base. -/
theorem onListenerReady_classification (D : Decls) (send : String → Bool)
    (entries : List Dirent) (a b : Dirent)
    (ha : a.lstat = true) (hah : isHidden a = false)
    (hal : startsWith (D.SOCKET_DIR_TO_CLIENT ++ a.d_name)
      D.SOCKET_TO_LOCATION_CLIENT_BASE = true)
    (har : startsWith (D.SOCKET_DIR_TO_CLIENT ++ a.d_name)
      D.SOCKET_TO_EXTERANL_AP_LOCATION_CLIENT_BASE = false)
    (hb : b.lstat = true) (hbh : isHidden b = false)
    (hbl : startsWith (D.SOCKET_DIR_TO_CLIENT ++ b.d_name)
      D.SOCKET_TO_LOCATION_CLIENT_BASE = false)
    (hbr : startsWith (D.SOCKET_DIR_TO_CLIENT ++ b.d_name)
      D.SOCKET_TO_EXTERANL_AP_LOCATION_CLIENT_BASE = true) :
    (sentTo (onListenerReady D (some entries) send false) =
        (entries.filter (fun dp => dp.lstat && !isHidden dp &&
          startsWith (D.SOCKET_DIR_TO_CLIENT ++ dp.d_name)
            D.SOCKET_TO_LOCATION_CLIENT_BASE)).map
          (fun dp => D.SOCKET_DIR_TO_CLIENT ++ dp.d_name) ∧
      sentTo (onListenerReady D (some entries) send true) =
        (entries.filter (fun dp => dp.lstat && !isHidden dp &&
          startsWith (D.SOCKET_DIR_TO_CLIENT ++ dp.d_name)
            D.SOCKET_TO_EXTERANL_AP_LOCATION_CLIENT_BASE)).map
          (fun dp => skipBase (D.SOCKET_DIR_TO_CLIENT ++ dp.d_name)
            D.SOCKET_TO_EXTERANL_AP_LOCATION_CLIENT_BASE)) ∧
    (sentTo (onListenerReady D (some [a, b]) send false) =
        [D.SOCKET_DIR_TO_CLIENT ++ a.d_name] ∧
      sentTo (onListenerReady D (some [a, b]) send true) =
        [skipBase (D.SOCKET_DIR_TO_CLIENT ++ b.d_name)
          D.SOCKET_TO_EXTERANL_AP_LOCATION_CLIENT_BASE]) := by
  refine ⟨⟨sentTo_onListenerReady_local D send entries,
    sentTo_onListenerReady_remote D send entries⟩, ?_, ?_⟩
  · rw [sentTo_onListenerReady_local]
    simp [ha, hah, hal, hb, hbh, hbl]
  · rw [sentTo_onListenerReady_remote]
    simp [ha, hah, har, hb, hbh, hbr]

/-- Witness of C18: the sample directory holds the co-located "toclient17" and
the remote-processor "extap5". -/
theorem onListenerReady_classification_witness :
    (sentTo (onListenerReady sampleDecls (some sampleDir) (fun _ => true) false) =
        ["/sock/toclient17"] ∧
      sentTo (onListenerReady sampleDecls (some sampleDir) (fun _ => true) true) = ["5"]) ∧
    (sentTo (onListenerReady sampleDecls (some [⟨"toclient17", true⟩, ⟨"extap5", true⟩])
        (fun _ => true) false) = ["/sock/toclient17"] ∧
      sentTo (onListenerReady sampleDecls (some [⟨"toclient17", true⟩, ⟨"extap5", true⟩])
        (fun _ => true) true) = ["5"]) :=
  onListenerReady_classification sampleDecls (fun _ => true) sampleDir
    ⟨"toclient17", true⟩ ⟨"extap5", true⟩ rfl rfl rfl rfl rfl rfl rfl rfl

/-- C19 (stale socket files): `onListenerReady` removes no file in co-located
mode, and in remote-processor mode removes exactly the files of the entries it
classified as remote clients and whose send failed; without a directory
nothing is removed. -/
theorem onListenerReady_removes (D : Decls) (send : String → Bool)
    (dirp : Option (List Dirent)) (entries : List Dirent) (externalApIpc : Bool) :
    removed (onListenerReady D dirp send false) = [] ∧
    removed (onListenerReady D (some entries) send true) =
      (entries.filter (fun dp => dp.lstat && !isHidden dp &&
        startsWith (D.SOCKET_DIR_TO_CLIENT ++ dp.d_name)
          D.SOCKET_TO_EXTERANL_AP_LOCATION_CLIENT_BASE &&
        !send (skipBase (D.SOCKET_DIR_TO_CLIENT ++ dp.d_name)
          D.SOCKET_TO_EXTERANL_AP_LOCATION_CLIENT_BASE))).map
        (fun dp => D.SOCKET_DIR_TO_CLIENT ++ dp.d_name) ∧
    removed (onListenerReady D none send externalApIpc) = [] := by
  refine ⟨?_, ?_, rfl⟩
  · cases dirp with
    | none => rfl
    | some es =>
      have h := filter_map_of_entries (fun dp => removed (readyEntry D send false dp))
        (fun _ => false) (fun dp => D.SOCKET_DIR_TO_CLIENT ++ dp.d_name)
        (fun dp => by simpa using removed_readyEntry_local D send dp) es
        (fun es => removed (onListenerReady D (some es) send false)) rfl
        (fun _ _ => removed_append _ _)
      simpa using h
  · exact filter_map_of_entries (fun dp => removed (readyEntry D send true dp)) _ _
      (removed_readyEntry_remote D send) entries
      (fun es => removed (onListenerReady D (some es) send true)) rfl
      (fun _ _ => removed_append _ _)

/-! ### Deregistration -/

theorem find_erase_self (cs : List (String × LocHalDaemonClientHandler)) (n : String) :
    find (erase cs n) n = none := by
  rw [find_eq_none_iff]
  intro hmem
  obtain ⟨e, he, hen⟩ := List.mem_map.1 hmem
  have := (List.mem_filter.1 he).2
  simp [hen] at this

theorem find_erase_of_ne (cs : List (String × LocHalDaemonClientHandler)) (n m : String)
    (hne : m ≠ n) : find (erase cs n) m = find cs m := by
  induction cs with
  | nil => rfl
  | cons e rest ih =>
    unfold erase at ih ⊢
    by_cases he : e.1 = n
    · have hem : ¬ e.1 = m := fun h => hne (h.symm.trans he)
      rw [List.filter_cons_of_neg (by simpa using he), ih, find, if_neg hem]
    · rw [List.filter_cons_of_pos (by simpa using he)]
      by_cases hem : e.1 = m
      · rw [find, if_pos hem, find, if_pos hem]
      · rw [find, if_neg hem, find, if_neg hem, ih]

/-- C20, the order the code has: for the registered "alice", `deleteClient`
removes the entry from the collection first and calls `cleanup` on the session
afterwards, not the other way round. -/
theorem deleteClient_erases_before_cleanup :
    (deleteClient sampleService ⟨"alice", E_LOCAPI_CLIENT_DEREGISTER_MSG_ID⟩).calls =
      [Call.erase "alice", Call.cleanup "alice"] ∧
    ¬ (List.indexOf (Call.cleanup "alice")
          (deleteClient sampleService ⟨"alice", E_LOCAPI_CLIENT_DEREGISTER_MSG_ID⟩).calls <
        List.indexOf (Call.erase "alice")
          (deleteClient sampleService ⟨"alice", E_LOCAPI_CLIENT_DEREGISTER_MSG_ID⟩).calls) := by
  decide

/-- C20 (deregistering a registered name), as the code has it: `deleteClient`
removes the entry of the name from the collection and then releases the engine
resources of that session by its `cleanup`, called once; afterwards the name
is absent and the entry of every other name is unchanged. -/
theorem deleteClient_registered (s : LocationApiService) (pMsg : LocAPIMsgHeader)
    (h : LocHalDaemonClientHandler) (hreg : s.getClient pMsg.mSocketName = some h) :
    (deleteClient s pMsg).calls = s.calls ++
      [Call.erase pMsg.mSocketName, Call.cleanup pMsg.mSocketName] ∧
    (deleteClient s pMsg).mClients = s.mClients.filter (fun e => e.1 ≠ pMsg.mSocketName) ∧
    pMsg.mSocketName ∉ (deleteClient s pMsg).names ∧
    (deleteClient s pMsg).getClient pMsg.mSocketName = none ∧
    ∀ other, other ≠ pMsg.mSocketName →
      (deleteClient s pMsg).getClient other = s.getClient other := by
  have hreg1 : (s.enter (Entered.deleteClient pMsg)).getClient pMsg.mSocketName = some h :=
    hreg
  have hrun : deleteClient s pMsg =
      ({ (s.enter (Entered.deleteClient pMsg)).call (Call.erase pMsg.mSocketName) with
          mClients := erase s.mClients pMsg.mSocketName }).call
        (Call.cleanup pMsg.mSocketName) := by
    simp [deleteClient, deleteClientbyName, hreg1]
  have hnone : (deleteClient s pMsg).getClient pMsg.mSocketName = none := by
    rw [hrun]
    exact find_erase_self s.mClients pMsg.mSocketName
  refine ⟨?_, ?_, ?_, hnone, ?_⟩
  · rw [hrun]
    simp [call, enter]
  · rw [hrun]
    rfl
  · exact (getClient_eq_none_iff _ _).1 hnone
  · intro other hne
    rw [hrun]
    exact find_erase_of_ne s.mClients pMsg.mSocketName other hne

/-- Witness of C20: "alice" deregisters from the two-client service; "bob"
stays as it was. -/
theorem deleteClient_registered_witness :
    (deleteClient twoClients ⟨"alice", E_LOCAPI_CLIENT_DEREGISTER_MSG_ID⟩).calls =
      [Call.erase "alice", Call.cleanup "alice"] ∧
    (deleteClient twoClients ⟨"alice", E_LOCAPI_CLIENT_DEREGISTER_MSG_ID⟩).names = ["bob"] ∧
    (deleteClient twoClients ⟨"alice", E_LOCAPI_CLIENT_DEREGISTER_MSG_ID⟩).getClient "bob" =
      twoClients.getClient "bob" :=
  ⟨(deleteClient_registered twoClients ⟨"alice", E_LOCAPI_CLIENT_DEREGISTER_MSG_ID⟩ _ rfl).1,
   rfl,
   (deleteClient_registered twoClients ⟨"alice", E_LOCAPI_CLIENT_DEREGISTER_MSG_ID⟩ _
      rfl).2.2.2.2 "bob" (by decide)⟩

/-! ### Resolution of the GNSS interface -/

theorem getGnssInterface_of_failed (env : Env) (s : LocationApiService)
    (h : s.getGnssInterfaceFailed = true) : getGnssInterface env s = (s, s.gnssInterface) := by
  unfold getGnssInterface
  simp [h]

theorem getGnssInterfaceRepeatedly_of_fixed (s : LocationApiService) (r : Option Nat)
    (hfix : ∀ env, getGnssInterface env s = (s, r)) (later : List Env) :
    getGnssInterfaceRepeatedly s later = (s, List.replicate later.length r) := by
  induction later with
  | nil => rfl
  | cons env rest ih =>
    simp only [getGnssInterfaceRepeatedly, hfix env, ih, List.length_cons,
      List.replicate_succ]

/-- The first call of `getGnssInterface` when the module or the factory symbol
cannot be resolved: nothing is returned and the failure is remembered. -/
theorem getGnssInterface_failure (env : Env) (s : LocationApiService)
    (hnull : s.gnssInterface = none) (hnf : s.getGnssInterfaceFailed = false)
    (hfail : env.dlopen = false ∨ env.dlerrorAfterDlopen = true ∨
      env.dlerrorAfterDlsym = true ∨ env.dlsym = none) :
    getGnssInterface env s =
      ({ s with loads := s.loads + 1, getGnssInterfaceFailed := true }, none) := by
  have hgetter : (if env.dlopen = false then none
      else if env.dlerrorAfterDlopen = true then none
      else if env.dlerrorAfterDlsym = true then none else env.dlsym) =
      (none : Option (Option Nat)) := by
    rcases hfail with h | h | h | h <;> simp [h]
  unfold getGnssInterface
  rw [if_pos ⟨hnull, hnf⟩]
  dsimp only
  rw [hgetter]
  simp [hnull]

/-- C22 (single-flight, cached resolution): once a call of `getGnssInterface`
attempted the resolution and the module load or the lookup of the factory
symbol failed, every later call returns no handle and leaves the state, with
the count of load attempts, as it is; once a call returned a handle, every
later call returns that handle and leaves the state as it is. -/
theorem getGnssInterface_single_flight (env env' : Env) (s s' : LocationApiService)
    (g : Nat) (later : List Env)
    (hnull : s.gnssInterface = none) (hnf : s.getGnssInterfaceFailed = false)
    (hfail : env.dlopen = false ∨ env.dlerrorAfterDlopen = true ∨
      env.dlerrorAfterDlsym = true ∨ env.dlsym = none)
    (hok : (getGnssInterface env' s').2 = some g) :
    ((getGnssInterface env s).2 = none ∧
      (getGnssInterface env s).1.loads = s.loads + 1 ∧
      getGnssInterfaceRepeatedly (getGnssInterface env s).1 later =
        ((getGnssInterface env s).1, List.replicate later.length none)) ∧
    getGnssInterfaceRepeatedly (getGnssInterface env' s').1 later =
      ((getGnssInterface env' s').1, List.replicate later.length (some g)) := by
  refine ⟨?_, ?_⟩
  · rw [getGnssInterface_failure env s hnull hnf hfail]
    refine ⟨rfl, rfl, ?_⟩
    apply getGnssInterfaceRepeatedly_of_fixed
    intro env2
    rw [getGnssInterface_of_failed env2 _ rfl]
    simp [hnull]
  · apply getGnssInterfaceRepeatedly_of_fixed
    intro env2
    exact getGnssInterface_of_resolved env2 _ g (gnssInterface_of_available env' s' g hok)

/-- Witness of C22: a failed `dlopen` is not tried again by three later calls
that would succeed; a resolved handle 1 is returned again by three later calls
that would fail. -/
theorem getGnssInterface_single_flight_witness :
    ((getGnssInterface { sampleEnv with dlopen := false } initial).2 = none ∧
      (getGnssInterface { sampleEnv with dlopen := false } initial).1.loads =
        initial.loads + 1 ∧
      getGnssInterfaceRepeatedly (getGnssInterface { sampleEnv with dlopen := false } initial).1
          [sampleEnv, sampleEnv, sampleEnv] =
        ((getGnssInterface { sampleEnv with dlopen := false } initial).1,
          List.replicate 3 none)) ∧
    getGnssInterfaceRepeatedly (getGnssInterface sampleEnv initial).1
        [{ sampleEnv with dlopen := false }, { sampleEnv with dlopen := false },
          { sampleEnv with dlopen := false }] =
      ((getGnssInterface sampleEnv initial).1, List.replicate 3 (some 1)) :=
  getGnssInterface_single_flight { sampleEnv with dlopen := false } sampleEnv initial initial 1
    [sampleEnv, sampleEnv, sampleEnv] rfl rfl (Or.inl rfl) rfl

/-! ### Resume -/

theorem map_fst_resumeClients (env : Env) (cs : List (String × LocHalDaemonClientHandler)) :
    (resumeClients env cs).1.map Prod.fst = cs.map Prod.fst := by
  induction cs with
  | nil => rfl
  | cons client rest ih =>
    unfold resumeClients
    by_cases ht : client.2.mTracking = true
    · rw [if_pos ht]
      dsimp only
      by_cases hr : (client.2.restartTracking env).2 = false
      · rw [if_pos hr]
        rfl
      · rw [if_neg hr]
        simp [ih]
    · rw [if_neg ht]
      simp [ih]

theorem mTracking_restartTracking (env : Env) (h : LocHalDaemonClientHandler) :
    (h.restartTracking env).1.mTracking = h.mTracking := by
  unfold LocHalDaemonClientHandler.restartTracking LocHalDaemonClientHandler.startTracking
  split <;> rfl

theorem find_resumeClients (env : Env) (cs : List (String × LocHalDaemonClientHandler))
    (n : String) (h : LocHalDaemonClientHandler) (hf : find cs n = some h) :
    ∃ h', find (resumeClients env cs).1 n = some h' ∧ h'.mTracking = h.mTracking ∧
      (h.mTracking = true ∨ h' = h) := by
  induction cs with
  | nil => simp [find] at hf
  | cons client rest ih =>
    unfold resumeClients
    by_cases hn : client.1 = n
    · simp only [find, hn, if_true, Option.some.injEq] at hf
      subst hf
      by_cases ht : client.2.mTracking = true
      · rw [if_pos ht]
        dsimp only
        by_cases hr : (client.2.restartTracking env).2 = false
        · rw [if_pos hr]
          exact ⟨_, by simp [find, hn], mTracking_restartTracking env client.2, Or.inl ht⟩
        · rw [if_neg hr]
          exact ⟨pushPending (client.2.restartTracking env).1 E_LOCAPI_START_TRACKING_MSG_ID,
            by simp [find, hn], mTracking_restartTracking env client.2, Or.inl ht⟩
      · rw [if_neg ht]
        exact ⟨_, by simp [find, hn], rfl, Or.inr rfl⟩
    · simp only [find, hn, if_false] at hf
      by_cases ht : client.2.mTracking = true
      · rw [if_pos ht]
        dsimp only
        by_cases hr : (client.2.restartTracking env).2 = false
        · rw [if_pos hr]
          exact ⟨h, by simp [find, hn, hf], rfl, Or.inr rfl⟩
        · rw [if_neg hr]
          obtain ⟨h', hf', hrest⟩ := ih hf
          exact ⟨h', by simp [find, hn, hf'], hrest⟩
      · rw [if_neg ht]
        obtain ⟨h', hf', hrest⟩ := ih hf
        exact ⟨h', by simp [find, hn, hf'], hrest⟩

/-- C25 (resume keeps flags and names): whatever the outcome of each restart,
`onResume` keeps the registered names and the `mTracking` flag of every
session, and a session whose flag is not set is left exactly as it was. -/
theorem onResume_keeps_flags (env : Env) (s : LocationApiService) (n : String)
    (h : LocHalDaemonClientHandler) (hreg : s.getClient n = some h) :
    (onResume env s).names = s.names ∧
    ∃ h', (onResume env s).getClient n = some h' ∧ h'.mTracking = h.mTracking ∧
      (h.mTracking = true ∨ h' = h) :=
  ⟨map_fst_resumeClients env s.mClients, find_resumeClients env s.mClients n h hreg⟩

/-- Witness of C25: the restart of "alice" fails and her flag stays set. -/
theorem onResume_keeps_flags_witness :
    (onResume failingEnv twoClients).names = twoClients.names ∧
    ∃ h', (onResume failingEnv twoClients).getClient "alice" = some h' ∧
      h'.mTracking = true ∧
      ((true : Bool) = true ∨ h' = { LocHalDaemonClientHandler.create "alice" with
        mTracking := true
        mTrackingOptions := (0, 1000) }) :=
  onResume_keeps_flags failingEnv twoClients "alice" _ rfl

/-! ### Descriptor indices -/

theorem readPayload_eq_none (gfPayload : List GeofencePayload) (n i : Nat)
    (hi : i ≤ gfPayload.length) (h : gfPayload.length < i + n) :
    readPayload gfPayload i n = none := by
  induction n generalizing i with
  | zero =>
    exfalso
    omega
  | succ k ih =>
    rw [readPayload]
    by_cases hlt : i < gfPayload.length
    · rw [List.getElem?_eq_getElem hlt]
      simp only [ih (i + 1) (by omega) (by omega), Option.map_none']
    · rw [List.getElem?_eq_none (by omega)]

/-- With a count above the capacity of the descriptor array, a message of the
exact length makes the copy loops of `addGeofences` (registered client) and of
`modifyGeofences` read beyond the array. -/
theorem geofence_count_unchecked (D : Decls) (env : Env) (s : LocationApiService)
    (pMsg : LocAPIAddGeofencesReqMsg) (h : LocHalDaemonClientHandler)
    (hreg : s.getClient pMsg.mSocketName = some h)
    (hm0 : env.malloc 0 (pMsg.count * D.sizeofGeofenceOption) = true)
    (hm1 : env.malloc 1 (pMsg.count * D.sizeofGeofenceInfo) = true)
    (hm2 : env.malloc 2 (pMsg.count * D.sizeofUint32) = true)
    (hn0 : env.malloc 0 (D.sizeofGeofenceOption * pMsg.count) = true)
    (hn1 : env.malloc 1 (D.sizeofUint32 * pMsg.count) = true)
    (hcount : pMsg.gfPayload.length < pMsg.count) :
    addGeofences D env s pMsg = Except.error Fault.payloadIndexOutOfRange ∧
    modifyGeofences D env s pMsg = Except.error Fault.payloadIndexOutOfRange := by
  have hread := readPayload_eq_none pMsg.gfPayload pMsg.count 0 (by omega) (by omega)
  have hreg1 : (s.enter (Entered.addGeofences pMsg)).getClient pMsg.mSocketName = some h :=
    hreg
  refine ⟨?_, ?_⟩
  · unfold addGeofences
    simp [hreg1, hm0, hm1, hm2, hread]
  · unfold modifyGeofences
    simp [hn0, hn1, hread]

/-- C26 (descriptor indices): an add-geofences and a modify-geofences message of
the exact length (9 bytes in the sample layout, which has two descriptor
slots) whose count field is 3 pass the length check and make the copy loop
read the descriptor of index 2, beyond the array. -/
theorem geofence_count_beyond_capacity :
    [9, 0, 3, 5, 0, 0, 9, 0, 0].length =
        sampleDecls.sizeofReq E_LOCAPI_ADD_GEOFENCES_MSG_ID ∧
      (sampleDecls.addGeofencesReq [9, 0, 3, 5, 0, 0, 9, 0, 0]).gfPayload.length = 2 ∧
      processClientMsg sampleDecls sampleEnv sampleService [9, 0, 3, 5, 0, 0, 9, 0, 0] =
        Except.error Fault.payloadIndexOutOfRange ∧
      processClientMsg sampleDecls sampleEnv sampleService [11, 0, 3, 5, 0, 0, 9, 0, 0] =
        Except.error Fault.payloadIndexOutOfRange ∧
      (∃ s', processClientMsg sampleDecls sampleEnv sampleService
        [9, 0, 2, 5, 0, 0, 9, 0, 0] = Except.ok s') :=
  ⟨rfl, rfl, rfl, rfl, _, rfl⟩

/-! ### Construction -/

/-- C27, the guard before the auto-start block: in a build with
`POWERMANAGER_ENABLED`, when no power event handler is obtained the
constructor returns before the auto-start block, so with auto-start enabled
the registry is empty and no session "default" exists. -/
theorem construct_without_power_handler :
    sampleDecls.POWERMANAGER_ENABLED = true ∧
    (construct sampleDecls { sampleEnv with getPwrEvtHandler := false } 1 1000).mClients = [] ∧
    (construct sampleDecls { sampleEnv with getPwrEvtHandler := false } 1 1000).getClient
      "default" = none := by
  refine ⟨rfl, rfl, rfl⟩

/-- C27 (auto-start), as the code has it: when the constructor reaches the
auto-start block (the build has no power manager, or the power event handler
was obtained), auto-start enabled yields a registry with exactly the session
"default", subscribed to exactly the location-info and satellite-vehicle bits,
with `mTracking` set and one start-tracking acknowledgment queued, whether the
start call (distance 0, interval `sessiontbfms`) succeeded or not; the options
are stored only when it succeeded.  With auto-start disabled the registry is
empty. -/
theorem construct_autostart (D : Decls) (env : Env) (autostart sessiontbfms : Nat)
    (hreach : D.POWERMANAGER_ENABLED = false ∨ env.getPwrEvtHandler = true) :
    (construct D env autostart sessiontbfms).mClients =
      (if autostart ≠ 0 then
        [("default", { LocHalDaemonClientHandler.create "default" with
          mSubscriptionMask := D.E_LOC_CB_GNSS_LOCATION_INFO_BIT ||| D.E_LOC_CB_GNSS_SV_BIT
          mTracking := true
          mTrackingOptions :=
            (if env.startTracking "default" 0 sessiontbfms = true then (0, sessiontbfms)
              else (0, 0))
          mPendingMessages := [E_LOCAPI_START_TRACKING_MSG_ID] })]
      else []) ∧
    (if autostart ≠ 0 then
        Call.startTracking "default" 0 sessiontbfms ∈
          (construct D env autostart sessiontbfms).calls
      else (construct D env autostart sessiontbfms).calls = []) := by
  have hguard : ¬ (D.POWERMANAGER_ENABLED = true ∧ env.getPwrEvtHandler = false) := by
    rcases hreach with h | h <;> simp [h]
  unfold construct
  rw [if_neg hguard]
  by_cases ha : autostart ≠ 0
  · rw [if_pos ha, if_pos ha, if_pos ha]
    have hm : (checkEnableGnss env initial).mClients = [] := mClients_checkEnableGnss env initial
    refine ⟨?_, ?_⟩
    · by_cases hs : env.startTracking "default" 0 sessiontbfms = true
      · simp [hm, emplace, find, store, LocHalDaemonClientHandler.startTracking,
          LocHalDaemonClientHandler.updateSubscription, LocHalDaemonClientHandler.create,
          pushPending, hs]
      · simp [hm, emplace, find, store, LocHalDaemonClientHandler.startTracking,
          LocHalDaemonClientHandler.updateSubscription, LocHalDaemonClientHandler.create,
          pushPending, hs]
    · simp
  · rw [if_neg ha, if_neg ha, if_neg ha]
    exact ⟨rfl, rfl⟩

/-- Witness of C27: auto-start with interval 1000 while the engine refuses the
start; and no auto-start. -/
theorem construct_autostart_witness :
    (construct sampleDecls failingEnv 1 1000).mClients =
      [("default", { LocHalDaemonClientHandler.create "default" with
        mSubscriptionMask := 12
        mTracking := true
        mPendingMessages := [E_LOCAPI_START_TRACKING_MSG_ID] })] ∧
    (construct sampleDecls failingEnv 0 1000).mClients = [] :=
  ⟨(construct_autostart sampleDecls failingEnv 1 1000 (Or.inr rfl)).1,
   (construct_autostart sampleDecls failingEnv 0 1000 (Or.inr rfl)).1⟩

/-! ### Registration sequences -/

/-- The state after deregistering a registered name. -/
theorem deleteClient_of_registered (s : LocationApiService) (pMsg : LocAPIMsgHeader)
    (h : LocHalDaemonClientHandler) (hreg : s.getClient pMsg.mSocketName = some h) :
    deleteClient s pMsg =
      ({ (s.enter (Entered.deleteClient pMsg)).call (Call.erase pMsg.mSocketName) with
          mClients := erase s.mClients pMsg.mSocketName }).call
        (Call.cleanup pMsg.mSocketName) := by
  have hreg1 : (s.enter (Entered.deleteClient pMsg)).getClient pMsg.mSocketName = some h :=
    hreg
  simp [deleteClient, deleteClientbyName, hreg1]

/-- The calls of deregistering a registered name. -/
theorem calls_deleteClient_of_registered (s : LocationApiService) (pMsg : LocAPIMsgHeader)
    (h : LocHalDaemonClientHandler) (hreg : s.getClient pMsg.mSocketName = some h) :
    (deleteClient s pMsg).calls = s.calls ++
      [Call.erase pMsg.mSocketName, Call.cleanup pMsg.mSocketName] := by
  rw [deleteClient_of_registered s pMsg h hreg]
  simp [call, enter]

/-- Deregistering an absent name only records the entry. -/
theorem deleteClient_of_absent (s : LocationApiService) (pMsg : LocAPIMsgHeader)
    (hno : pMsg.mSocketName ∉ s.names) :
    deleteClient s pMsg = s.enter (Entered.deleteClient pMsg) := by
  have hnone : (s.enter (Entered.deleteClient pMsg)).getClient pMsg.mSocketName = none :=
    (getClient_eq_none_iff s pMsg.mSocketName).2 hno
  simp [deleteClient, deleteClientbyName, hnone]

theorem checkEnableGnss_enter (env : Env) (s : LocationApiService) (e : Entered) :
    checkEnableGnss env (s.enter e) = (checkEnableGnss env s).enter e := by
  unfold checkEnableGnss
  by_cases ha : s.mLocationControlApi = false
  · have ha2 : (s.enter e).mLocationControlApi = false := ha
    rw [if_pos ha, if_pos ha2]
    dsimp only
    by_cases hc : env.createInstance = false
    · rw [if_pos hc, if_pos hc]
      rfl
    · rw [if_neg hc, if_neg hc]
      rfl
  · have ha2 : ¬ (s.enter e).mLocationControlApi = false := ha
    rw [if_neg ha, if_neg ha2]

theorem checkEnableGnss_of_created (env : Env) (s : LocationApiService)
    (h : s.mLocationControlApi = true) : checkEnableGnss env s = s := by
  unfold checkEnableGnss
  simp [h]

/-- What `checkEnableGnss` does, by cases. -/
theorem checkEnableGnss_cases (env : Env) (s : LocationApiService) :
    checkEnableGnss env s = s ∨
    (s.mLocationControlApi = false ∧
      (checkEnableGnss env s).mLocationControlApi = false ∧
      (checkEnableGnss env s).calls = s.calls ++ [Call.createInstance]) ∨
    (s.mLocationControlApi = false ∧
      (checkEnableGnss env s).mLocationControlApi = true ∧
      (checkEnableGnss env s).calls = s.calls ++ [Call.createInstance, Call.enable]) := by
  unfold checkEnableGnss
  by_cases ha : s.mLocationControlApi = false
  · rw [if_pos ha]
    dsimp only
    by_cases hc : env.createInstance = false
    · rw [if_pos hc]
      exact Or.inr (Or.inl ⟨ha, ha, rfl⟩)
    · rw [if_neg hc]
      refine Or.inr (Or.inr ⟨ha, rfl, ?_⟩)
      simp [call]
  · rw [if_neg ha]
    exact Or.inl rfl

theorem calls_newClient (env : Env) (s : LocationApiService) (pMsg : LocAPIMsgHeader) :
    (newClient env s pMsg).calls = (checkEnableGnss env s).calls ++
      (if pMsg.mSocketName ∈ s.names then [] else [Call.create pMsg.mSocketName]) := by
  unfold newClient
  simp only [checkEnableGnss_enter, mClients_enter, mClients_checkEnableGnss]
  by_cases hmem : pMsg.mSocketName ∈ s.names
  · have hsome : (find s.mClients pMsg.mSocketName).isSome = true :=
      (find_isSome_iff s.mClients pMsg.mSocketName).2 hmem
    rw [if_pos hsome, if_pos hmem]
    simp
  · have hnone : ¬ (find s.mClients pMsg.mSocketName).isSome = true := fun h =>
      hmem ((find_isSome_iff s.mClients pMsg.mSocketName).1 h)
    rw [if_neg hnone, if_neg hmem]
    rfl

theorem mLocationControlApi_newClient (env : Env) (s : LocationApiService)
    (pMsg : LocAPIMsgHeader) :
    (newClient env s pMsg).mLocationControlApi =
      (checkEnableGnss env s).mLocationControlApi := by
  unfold newClient
  simp only [checkEnableGnss_enter]
  split <;> rfl

theorem calls_deleteClient (s : LocationApiService) (pMsg : LocAPIMsgHeader) :
    (deleteClient s pMsg).calls = s.calls ++
      (if pMsg.mSocketName ∈ s.names then
        [Call.erase pMsg.mSocketName, Call.cleanup pMsg.mSocketName] else []) := by
  by_cases hmem : pMsg.mSocketName ∈ s.names
  · rw [if_pos hmem]
    cases hg : s.getClient pMsg.mSocketName with
    | none => exact absurd hmem ((getClient_eq_none_iff s _).1 hg)
    | some h => exact (calls_deleteClient_of_registered s pMsg h hg)
  · rw [if_neg hmem, (deleteClient_of_absent s pMsg hmem)]
    simp

theorem mLocationControlApi_deleteClient (s : LocationApiService) (pMsg : LocAPIMsgHeader) :
    (deleteClient s pMsg).mLocationControlApi = s.mLocationControlApi := by
  cases hg : s.getClient pMsg.mSocketName with
  | none => rw [deleteClient_of_absent s pMsg ((getClient_eq_none_iff s _).1 hg)]; rfl
  | some h => rw [deleteClient_of_registered s pMsg h hg]; rfl

theorem mClients_deleteClient (s : LocationApiService) (pMsg : LocAPIMsgHeader) :
    (deleteClient s pMsg).mClients = erase s.mClients pMsg.mSocketName := by
  cases hg : s.getClient pMsg.mSocketName with
  | none =>
    rw [deleteClient_of_absent s pMsg ((getClient_eq_none_iff s _).1 hg)]
    exact (erase_of_not_mem s.mClients _ ((getClient_eq_none_iff s _).1 hg)).symm
  | some h => rw [deleteClient_of_registered s pMsg h hg]; rfl

theorem enabledAtMostOnce_checkEnableGnss (env : Env) (s : LocationApiService)
    (h : enabledAtMostOnce s) : enabledAtMostOnce (checkEnableGnss env s) := by
  rcases checkEnableGnss_cases env s with hs | ⟨ha, ha', hc⟩ | ⟨ha, ha', hc⟩
  · rw [hs]
    exact h
  · have h0 := h.1 ha
    refine ⟨fun _ => ?_, ?_⟩ <;> rw [hc] <;> simp [List.count_append, h0]
  · have h0 := h.1 ha
    refine ⟨fun hf => ?_, ?_⟩
    · rw [ha'] at hf
      exact absurd hf (by simp)
    · rw [hc]
      simp [List.count_append, h0, List.count_cons]

theorem enabledAtMostOnce_handleRegistration (s : LocationApiService) (msg : RegistrationMsg)
    (h : enabledAtMostOnce s) : enabledAtMostOnce (handleRegistration s msg) := by
  cases msg with
  | register env pMsg =>
    have hc := enabledAtMostOnce_checkEnableGnss env s h
    have hcount : (newClient env s pMsg).calls.count Call.enable =
        (checkEnableGnss env s).calls.count Call.enable := by
      rw [calls_newClient]
      split <;> simp [List.count_append, List.count_cons]
    unfold handleRegistration enabledAtMostOnce
    rw [hcount, mLocationControlApi_newClient]
    exact hc
  | deregister pMsg =>
    have hcount : (deleteClient s pMsg).calls.count Call.enable =
        s.calls.count Call.enable := by
      rw [calls_deleteClient]
      split <;> simp [List.count_append, List.count_cons]
    unfold handleRegistration enabledAtMostOnce
    rw [hcount, mLocationControlApi_deleteClient]
    exact h

theorem enabledAtMostOnce_handleRegistrations (msgs : List RegistrationMsg)
    (s : LocationApiService) (h : enabledAtMostOnce s) :
    enabledAtMostOnce (handleRegistrations s msgs) := by
  induction msgs generalizing s with
  | nil => exact h
  | cons msg rest ih =>
    exact ih (handleRegistration s msg) (enabledAtMostOnce_handleRegistration s msg h)

theorem enabledAtMostOnce_initial : enabledAtMostOnce initial :=
  ⟨fun _ => rfl, Nat.zero_le 1⟩

theorem enabledAtMostOnce_construct (D : Decls) (env : Env) (autostart sessiontbfms : Nat) :
    enabledAtMostOnce (construct D env autostart sessiontbfms) := by
  have hc := enabledAtMostOnce_checkEnableGnss env initial enabledAtMostOnce_initial
  unfold construct
  split
  · exact enabledAtMostOnce_initial
  · split
    · unfold enabledAtMostOnce at hc ⊢
      simpa [List.count_append, List.count_cons, call, setClient] using hc
    · exact enabledAtMostOnce_initial

/-- C23 (enable is idempotent): once a call of `checkEnableGnss` left the service
with a control handle, a further call returns the same state (no second
`createInstance`, no second `enable`, the same control id); and over every
sequence of register and deregister messages after construction `enable` is
called at most once. -/
theorem checkEnableGnss_idempotent (D : Decls) (env0 env env2 : Env)
    (s : LocationApiService) (autostart sessiontbfms : Nat) (msgs : List RegistrationMsg)
    (hcreated : (checkEnableGnss env s).mLocationControlApi = true) :
    checkEnableGnss env2 (checkEnableGnss env s) = checkEnableGnss env s ∧
    (handleRegistrations (construct D env0 autostart sessiontbfms) msgs).calls.count
      Call.enable ≤ 1 :=
  ⟨checkEnableGnss_of_created env2 _ hcreated,
    (enabledAtMostOnce_handleRegistrations msgs _
      (enabledAtMostOnce_construct D env0 autostart sessiontbfms)).2⟩

/-- Witness of C23: three registrations after a construction without auto-start
enable the engine once. -/
theorem checkEnableGnss_idempotent_witness :
    checkEnableGnss failingEnv (checkEnableGnss sampleEnv initial) =
        checkEnableGnss sampleEnv initial ∧
    (handleRegistrations (construct sampleDecls sampleEnv 0 1000)
      [RegistrationMsg.register sampleEnv ⟨"alice", E_LOCAPI_CLIENT_REGISTER_MSG_ID⟩,
       RegistrationMsg.register sampleEnv ⟨"bob", E_LOCAPI_CLIENT_REGISTER_MSG_ID⟩,
       RegistrationMsg.register sampleEnv ⟨"alice", E_LOCAPI_CLIENT_REGISTER_MSG_ID⟩]).calls.count
      Call.enable ≤ 1 :=
  checkEnableGnss_idempotent sampleDecls sampleEnv sampleEnv failingEnv initial 0 1000 _ rfl

/-! ### Release of sessions -/

theorem names_newClient (env : Env) (s : LocationApiService) (pMsg : LocAPIMsgHeader) :
    (newClient env s pMsg).names =
      (if pMsg.mSocketName ∈ s.names then s.names else s.names ++ [pMsg.mSocketName]) := by
  by_cases hmem : pMsg.mSocketName ∈ s.names
  · rw [if_pos hmem]
    unfold names
    rw [mClients_newClient_of_mem env s pMsg hmem]
  · rw [if_neg hmem]
    unfold names
    rw [mClients_newClient_of_not_mem env s pMsg hmem]
    simp

theorem map_fst_erase (cs : List (String × LocHalDaemonClientHandler)) (n : String) :
    (erase cs n).map Prod.fst = (cs.map Prod.fst).filter (fun m => m ≠ n) := by
  induction cs with
  | nil => rfl
  | cons e rest ih =>
    unfold erase at ih ⊢
    by_cases he : e.1 = n
    · rw [List.filter_cons_of_neg (by simpa using he), ih, List.map_cons,
        List.filter_cons_of_neg (by simpa using he)]
    · rw [List.filter_cons_of_pos (by simpa using he), List.map_cons, ih, List.map_cons,
        List.filter_cons_of_pos (by simpa using he)]

theorem names_deleteClient (s : LocationApiService) (pMsg : LocAPIMsgHeader) :
    (deleteClient s pMsg).names = s.names.filter (fun m => m ≠ pMsg.mSocketName) := by
  unfold names
  rw [mClients_deleteClient, map_fst_erase]

theorem count_checkEnableGnss (env : Env) (s : LocationApiService) (c : Call)
    (h1 : c ≠ Call.createInstance) (h2 : c ≠ Call.enable) :
    (checkEnableGnss env s).calls.count c = s.calls.count c := by
  have e1 : (Call.createInstance == c) = false := by simpa using fun h => h1 h.symm
  have e2 : (Call.enable == c) = false := by simpa using fun h => h2 h.symm
  rcases checkEnableGnss_cases env s with hs | ⟨_, _, hc⟩ | ⟨_, _, hc⟩
  · rw [hs]
  · rw [hc]
    simp [List.count_append, List.count_cons, e1]
  · rw [hc]
    simp [List.count_append, List.count_cons, e1, e2]

theorem releaseBalanced_newClient (env : Env) (s : LocationApiService)
    (pMsg : LocAPIMsgHeader) (h : releaseBalanced s) :
    releaseBalanced (newClient env s pMsg) := by
  unfold releaseBalanced
  rw [names_newClient, calls_newClient]
  by_cases hmem : pMsg.mSocketName ∈ s.names
  · rw [if_pos hmem, if_pos hmem]
    refine ⟨h.1, fun name => ?_⟩
    rw [List.append_nil, count_checkEnableGnss env s _ (by simp) (by simp),
      count_checkEnableGnss env s _ (by simp) (by simp)]
    exact h.2 name
  · rw [if_neg hmem, if_neg hmem]
    refine ⟨List.Nodup.append h.1 (List.nodup_singleton _) (by simpa using hmem),
      fun name => ?_⟩
    rw [List.count_append, List.count_append,
      count_checkEnableGnss env s _ (by simp) (by simp),
      count_checkEnableGnss env s _ (by simp) (by simp)]
    have hb := h.2 name
    by_cases hn : name = pMsg.mSocketName
    · subst hn
      rw [if_neg hmem] at hb
      simp [hb]
    · have hn2 : ¬ pMsg.mSocketName = name := fun hc => hn hc.symm
      by_cases hin : name ∈ s.names
      · rw [if_pos hin] at hb
        simp [hin, hn, hn2, List.count_cons, hb]
      · rw [if_neg hin] at hb
        simp [hin, hn, hn2, List.count_cons, hb]

theorem releaseBalanced_deleteClient (s : LocationApiService) (pMsg : LocAPIMsgHeader)
    (h : releaseBalanced s) : releaseBalanced (deleteClient s pMsg) := by
  unfold releaseBalanced
  rw [names_deleteClient, calls_deleteClient]
  refine ⟨h.1.filter _, fun name => ?_⟩
  have hb := h.2 name
  by_cases hmem : pMsg.mSocketName ∈ s.names
  · rw [if_pos hmem]
    by_cases hn : name = pMsg.mSocketName
    · subst hn
      rw [if_pos hmem] at hb
      simp [List.count_append, List.count_cons, ← hb]
    · have hn2 : ¬ pMsg.mSocketName = name := fun hc => hn hc.symm
      by_cases hin : name ∈ s.names
      · rw [if_pos hin] at hb
        simp [List.count_append, List.count_cons, hin, hn, hn2, hb]
      · rw [if_neg hin] at hb
        simp [List.count_append, List.count_cons, hin, hn, hn2, hb]
  · rw [if_neg hmem, List.append_nil]
    by_cases hin : name ∈ s.names
    · have hn : name ≠ pMsg.mSocketName := fun hc => hmem (hc ▸ hin)
      rw [if_pos hin] at hb
      simp [hin, hn, hb]
    · rw [if_neg hin] at hb
      simp [hin, hb]

theorem releaseBalanced_handleRegistrations (msgs : List RegistrationMsg)
    (s : LocationApiService) (h : releaseBalanced s) :
    releaseBalanced (handleRegistrations s msgs) := by
  induction msgs generalizing s with
  | nil => exact h
  | cons msg rest ih =>
    apply ih
    cases msg with
    | register env pMsg => exact releaseBalanced_newClient env s pMsg h
    | deregister pMsg => exact releaseBalanced_deleteClient s pMsg h

theorem releaseBalanced_initial : releaseBalanced initial :=
  ⟨List.nodup_nil, fun _ => rfl⟩

theorem releaseBalanced_construct (D : Decls) (env : Env) (autostart sessiontbfms : Nat) :
    releaseBalanced (construct D env autostart sessiontbfms) := by
  unfold construct
  split
  · exact releaseBalanced_initial
  · split
    · have hm : (checkEnableGnss env initial).mClients = [] :=
        mClients_checkEnableGnss env initial
      unfold releaseBalanced
      refine ⟨?_, fun name => ?_⟩
      · simp [names, hm, emplace, find, store]
      · have h1 := count_checkEnableGnss env initial (Call.cleanup name) (by simp) (by simp)
        have h2 := count_checkEnableGnss env initial (Call.create name) (by simp) (by simp)
        have h1' : List.count (Call.cleanup name) (checkEnableGnss env initial).calls = 0 := h1
        have h2' : List.count (Call.create name) (checkEnableGnss env initial).calls = 0 := h2
        by_cases hn : name = "default"
        · subst hn
          simp [names, hm, emplace, find, store, call, setClient, List.count_append,
            List.count_cons, h1', h2']
        · have hn2 : ¬ "default" = name := fun hc => hn hc.symm
          simp [names, hm, emplace, find, store, call, setClient, List.count_append,
            List.count_cons, h1', h2', hn, hn2]
    · exact releaseBalanced_initial

theorem calls_forEachClient_cleanupClient (cs : List (String × LocHalDaemonClientHandler)) :
    (forEachClient cleanupClient cs).2 = (cs.map Prod.fst).map Call.cleanup := by
  induction cs with
  | nil => rfl
  | cons e rest ih => simp [forEachClient, cleanupClient, ih]

theorem count_map_cleanup (ns : List String) (hnd : ns.Nodup) (name : String) :
    (ns.map Call.cleanup).count (Call.cleanup name) = if name ∈ ns then 1 else 0 := by
  induction ns with
  | nil => rfl
  | cons n rest ih =>
    rw [List.nodup_cons] at hnd
    rw [List.map_cons, List.count_cons, ih hnd.2]
    by_cases hn : n = name
    · subst hn
      simp [hnd.1]
    · have hn2 : ¬ name = n := fun hc => hn hc.symm
      simp [hn, hn2]

theorem count_map_cleanup_create (ns : List String) (name : String) :
    (ns.map Call.cleanup).count (Call.create name) = 0 := by
  rw [List.count_eq_zero]
  intro hmem
  obtain ⟨n, _, hn⟩ := List.mem_map.1 hmem
  exact absurd hn (by simp)

/-- After the loop of the destructor, a service whose releases were balanced has
as many cleanups as sessions created, under every name. -/
theorem count_cleanup_releaseClients (s : LocationApiService) (h : releaseBalanced s)
    (name : String) :
    (releaseClients s).calls.count (Call.cleanup name) =
      (releaseClients s).calls.count (Call.create name) := by
  have hcalls : (releaseClients s).calls = s.calls ++ s.names.map Call.cleanup := by
    simp [releaseClients, calls_forEachClient_cleanupClient, names]
  rw [hcalls, List.count_append, List.count_append, count_map_cleanup s.names h.1,
    count_map_cleanup_create, Nat.add_zero]
  exact h.2 name

/-- C21 (release exactly once): after construction (with or without the
auto-start client) and any sequence of register and deregister messages, the
loop of the destructor leaves, under every name, exactly as many `cleanup`
calls as sessions were created under it: each session was released once, by
its deregistration or by teardown.  The same holds in the state the
destructor ends in; without a control handle the destructor ends in the
dereference of the null handle, after that loop. -/
theorem cleanup_exactly_once (D : Decls) (env : Env) (autostart sessiontbfms : Nat)
    (msgs : List RegistrationMsg) (name : String) :
    (releaseClients (handleRegistrations (construct D env autostart sessiontbfms)
        msgs)).calls.count (Call.cleanup name) =
      (releaseClients (handleRegistrations (construct D env autostart sessiontbfms)
        msgs)).calls.count (Call.create name) ∧
    (match destructor (handleRegistrations (construct D env autostart sessiontbfms) msgs) with
      | Except.ok s' =>
        s'.calls.count (Call.cleanup name) = s'.calls.count (Call.create name)
      | Except.error _ =>
        (handleRegistrations (construct D env autostart sessiontbfms)
          msgs).mLocationControlApi = false) := by
  have hbal := releaseBalanced_handleRegistrations msgs _
    (releaseBalanced_construct D env autostart sessiontbfms)
  have hcount := count_cleanup_releaseClients _ hbal name
  refine ⟨hcount, ?_⟩
  unfold destructor
  dsimp only
  by_cases ha : (releaseClients (handleRegistrations
      (construct D env autostart sessiontbfms) msgs)).mLocationControlApi = false
  · rw [if_pos ha]
    exact ha
  · rw [if_neg ha]
    simp only [calls_call, List.count_append]
    rw [hcount]
    simp [List.count_cons]

/-! ### The two pending queues -/

theorem gfQueueOnly_refl (h : LocHalDaemonClientHandler) : gfQueueOnly h h :=
  ⟨rfl, List.prefix_refl _⟩

theorem pendingQueueOnly_refl (h : LocHalDaemonClientHandler) : pendingQueueOnly h h :=
  ⟨rfl, List.prefix_refl _⟩

theorem sessionsRelated_of_mClients_eq
    (P : LocHalDaemonClientHandler → LocHalDaemonClientHandler → Prop)
    (hrefl : ∀ h, P h h) (s s' : LocationApiService) (hm : s'.mClients = s.mClients) :
    sessionsRelated P s s' := by
  intro name h0 hreg
  refine ⟨h0, ?_, hrefl h0⟩
  unfold getClient at hreg ⊢
  rw [hm]
  exact hreg

theorem sessionsRelated_setClient
    (P : LocHalDaemonClientHandler → LocHalDaemonClientHandler → Prop)
    (hrefl : ∀ h, P h h) (s s' : LocationApiService) (hm : s'.mClients = s.mClients)
    (n : String) (h h' : LocHalDaemonClientHandler) (hreg : s.getClient n = some h)
    (hP : P h h') : sessionsRelated P s (s'.setClient n h') := by
  intro name h0 hreg0
  by_cases hn : name = n
  · subst hn
    rw [hreg] at hreg0
    have h0eq : h = h0 := by simpa using hreg0
    subst h0eq
    refine ⟨h', ?_, hP⟩
    unfold getClient
    rw [mClients_setClient, hm]
    exact find_store_self _ _ _ h hreg
  · refine ⟨h0, ?_, hrefl h0⟩
    unfold getClient
    rw [mClients_setClient, hm, find_store_of_ne _ _ _ _ hn]
    exact hreg0

theorem sessionsRelated_startTracking (env : Env) (s : LocationApiService)
    (pMsg : LocAPIStartTrackingReqMsg) :
    sessionsRelated pendingQueueOnly s (startTracking env s pMsg) := by
  unfold startTracking
  simp only [getClient_enter]
  cases hg : s.getClient pMsg.mSocketName with
  | none => exact sessionsRelated_of_mClients_eq _ pendingQueueOnly_refl _ _ rfl
  | some h =>
    dsimp only
    split
    · apply sessionsRelated_setClient _ pendingQueueOnly_refl _ _ rfl _ h _ hg
      unfold LocHalDaemonClientHandler.startTracking
      split <;> exact ⟨rfl, List.prefix_refl _⟩
    · apply sessionsRelated_setClient _ pendingQueueOnly_refl _ _ rfl _ h _ hg
      unfold LocHalDaemonClientHandler.startTracking
      split <;> exact ⟨rfl, List.prefix_append _ _⟩

theorem sessionsRelated_stopTracking (D : Decls) (s : LocationApiService) (pMsg : LocAPIMsgHeader) :
    sessionsRelated pendingQueueOnly s (stopTracking D s pMsg) := by
  unfold stopTracking
  simp only [getClient_enter]
  cases hg : s.getClient pMsg.mSocketName with
  | none => exact sessionsRelated_of_mClients_eq _ pendingQueueOnly_refl _ _ rfl
  | some h =>
    dsimp only
    apply sessionsRelated_setClient _ pendingQueueOnly_refl _ _ rfl _ h _ hg
    exact ⟨rfl, List.prefix_append _ _⟩

theorem sessionsRelated_updateTrackingOptions (s : LocationApiService) (pMsg : LocAPIStartTrackingReqMsg) :
    sessionsRelated pendingQueueOnly s (updateTrackingOptions s pMsg) := by
  unfold updateTrackingOptions
  simp only [getClient_enter]
  cases hg : s.getClient pMsg.mSocketName with
  | none => exact sessionsRelated_of_mClients_eq _ pendingQueueOnly_refl _ _ rfl
  | some h =>
    dsimp only
    apply sessionsRelated_setClient _ pendingQueueOnly_refl _ _ rfl _ h _ hg
    exact ⟨rfl, List.prefix_append _ _⟩

theorem sessionsRelated_stopBatching (s : LocationApiService) (pMsg : LocAPIMsgHeader) :
    sessionsRelated pendingQueueOnly s (stopBatching s pMsg) := by
  unfold stopBatching
  simp only [getClient_enter]
  cases hg : s.getClient pMsg.mSocketName with
  | none => exact sessionsRelated_of_mClients_eq _ pendingQueueOnly_refl _ _ rfl
  | some h =>
    dsimp only
    apply sessionsRelated_setClient _ pendingQueueOnly_refl _ _ rfl _ h _ hg
    exact ⟨rfl, List.prefix_append _ _⟩

theorem sessionsRelated_updateBatchingOptions (s : LocationApiService) (pMsg : LocAPIStartBatchingReqMsg) :
    sessionsRelated pendingQueueOnly s (updateBatchingOptions s pMsg) := by
  unfold updateBatchingOptions
  simp only [getClient_enter]
  cases hg : s.getClient pMsg.mSocketName with
  | none => exact sessionsRelated_of_mClients_eq _ pendingQueueOnly_refl _ _ rfl
  | some h =>
    dsimp only
    apply sessionsRelated_setClient _ pendingQueueOnly_refl _ _ rfl _ h _ hg
    exact ⟨rfl, List.prefix_append _ _⟩

theorem sessionsRelated_startBatching (env : Env) (s : LocationApiService)
    (pMsg : LocAPIStartBatchingReqMsg) :
    sessionsRelated pendingQueueOnly s (startBatching env s pMsg) := by
  unfold startBatching
  simp only [getClient_enter]
  cases hg : s.getClient pMsg.mSocketName with
  | none => exact sessionsRelated_of_mClients_eq _ pendingQueueOnly_refl _ _ rfl
  | some h =>
    dsimp only
    split
    · apply sessionsRelated_setClient _ pendingQueueOnly_refl _ _ rfl _ h _ hg
      unfold LocHalDaemonClientHandler.startBatching
      split <;> exact ⟨rfl, List.prefix_refl _⟩
    · apply sessionsRelated_setClient _ pendingQueueOnly_refl _ _ rfl _ h _ hg
      unfold LocHalDaemonClientHandler.startBatching
      split <;> exact ⟨rfl, List.prefix_append _ _⟩

theorem sessionsRelated_removeGeofences (s : LocationApiService) (pMsg : LocAPIRemoveGeofencesReqMsg) :
    sessionsRelated gfQueueOnly s (removeGeofences s pMsg) := by
  unfold removeGeofences
  simp only [getClient_enter]
  cases hg : s.getClient pMsg.mSocketName with
  | none => exact sessionsRelated_of_mClients_eq _ gfQueueOnly_refl _ _ rfl
  | some h =>
    dsimp only
    cases h.getSessionIds pMsg.count pMsg.gfIds with
    | none => exact sessionsRelated_of_mClients_eq _ gfQueueOnly_refl _ _ rfl
    | some sessions =>
      dsimp only
      apply sessionsRelated_setClient _ gfQueueOnly_refl _ _ rfl _ h _ hg
      exact ⟨rfl, List.prefix_append _ _⟩

theorem sessionsRelated_pauseGeofences (s : LocationApiService) (pMsg : LocAPIRemoveGeofencesReqMsg) :
    sessionsRelated gfQueueOnly s (pauseGeofences s pMsg) := by
  unfold pauseGeofences
  simp only [getClient_enter]
  cases hg : s.getClient pMsg.mSocketName with
  | none => exact sessionsRelated_of_mClients_eq _ gfQueueOnly_refl _ _ rfl
  | some h =>
    dsimp only
    cases h.getSessionIds pMsg.count pMsg.gfIds with
    | none => exact sessionsRelated_of_mClients_eq _ gfQueueOnly_refl _ _ rfl
    | some sessions =>
      dsimp only
      apply sessionsRelated_setClient _ gfQueueOnly_refl _ _ rfl _ h _ hg
      exact ⟨rfl, List.prefix_append _ _⟩

theorem sessionsRelated_resumeGeofences (s : LocationApiService) (pMsg : LocAPIRemoveGeofencesReqMsg) :
    sessionsRelated gfQueueOnly s (resumeGeofences s pMsg) := by
  unfold resumeGeofences
  simp only [getClient_enter]
  cases hg : s.getClient pMsg.mSocketName with
  | none => exact sessionsRelated_of_mClients_eq _ gfQueueOnly_refl _ _ rfl
  | some h =>
    dsimp only
    cases h.getSessionIds pMsg.count pMsg.gfIds with
    | none => exact sessionsRelated_of_mClients_eq _ gfQueueOnly_refl _ _ rfl
    | some sessions =>
      dsimp only
      apply sessionsRelated_setClient _ gfQueueOnly_refl _ _ rfl _ h _ hg
      exact ⟨rfl, List.prefix_append _ _⟩

theorem sessionsRelated_addGeofences (D : Decls) (env : Env) (s s' : LocationApiService)
    (pMsg : LocAPIAddGeofencesReqMsg) (hres : addGeofences D env s pMsg = Except.ok s') :
    sessionsRelated gfQueueOnly s s' := by
  unfold addGeofences at hres
  simp only [getClient_enter] at hres
  cases hg : s.getClient pMsg.mSocketName with
  | none =>
    rw [hg] at hres
    injection hres with hres
    subst hres
    exact sessionsRelated_of_mClients_eq _ gfQueueOnly_refl _ _ rfl
  | some h =>
    rw [hg] at hres
    dsimp only at hres
    split at hres
    · injection hres with hres
      subst hres
      exact sessionsRelated_of_mClients_eq _ gfQueueOnly_refl _ _ rfl
    · split at hres
      · exact absurd hres (by simp)
      · split at hres
        · injection hres with hres
          subst hres
          exact sessionsRelated_of_mClients_eq _ gfQueueOnly_refl _ _ rfl
        · injection hres with hres
          subst hres
          apply sessionsRelated_setClient _ gfQueueOnly_refl _ _ rfl _ h _ hg
          exact ⟨rfl, List.prefix_append _ _⟩

theorem sessionsRelated_modifyGeofences (D : Decls) (env : Env) (s s' : LocationApiService)
    (pMsg : LocAPIAddGeofencesReqMsg) (hres : modifyGeofences D env s pMsg = Except.ok s') :
    sessionsRelated gfQueueOnly s s' := by
  unfold modifyGeofences at hres
  simp only [getClient_enter] at hres
  split at hres
  · injection hres with hres
    subst hres
    exact sessionsRelated_of_mClients_eq _ gfQueueOnly_refl _ _ rfl
  · split at hres
    · exact absurd hres (by simp)
    · split at hres
      · exact absurd hres (by simp)
      · rename_i h hg
        split at hres
        · injection hres with hres
          subst hres
          apply sessionsRelated_setClient _ gfQueueOnly_refl _ _ rfl _ h _ hg
          exact ⟨rfl, List.prefix_append _ _⟩
        · injection hres with hres
          subst hres
          exact sessionsRelated_of_mClients_eq _ gfQueueOnly_refl _ _ rfl

/-- C24 (separate queues): every geofence operation (add, remove, modify,
pause, resume) leaves `mPendingMessages` of every session as it was and at most
appends to `mGfPendingMessages`; every tracking or batching operation (start,
stop, update options) leaves `mGfPendingMessages` of every session as it was
and at most appends to `mPendingMessages`.  Every session stays registered. -/
theorem pending_queues_separate (D : Decls) (env : Env) (s : LocationApiService)
    (aMsg : LocAPIAddGeofencesReqMsg) (rMsg : LocAPIRemoveGeofencesReqMsg)
    (tMsg : LocAPIStartTrackingReqMsg) (bMsg : LocAPIStartBatchingReqMsg)
    (hMsg : LocAPIMsgHeader) :
    ((match addGeofences D env s aMsg with
        | Except.ok s' => sessionsRelated gfQueueOnly s s'
        | Except.error _ => True) ∧
      sessionsRelated gfQueueOnly s (removeGeofences s rMsg) ∧
      (match modifyGeofences D env s aMsg with
        | Except.ok s' => sessionsRelated gfQueueOnly s s'
        | Except.error _ => True) ∧
      sessionsRelated gfQueueOnly s (pauseGeofences s rMsg) ∧
      sessionsRelated gfQueueOnly s (resumeGeofences s rMsg)) ∧
    (sessionsRelated pendingQueueOnly s (startTracking env s tMsg) ∧
      sessionsRelated pendingQueueOnly s (stopTracking D s hMsg) ∧
      sessionsRelated pendingQueueOnly s (updateTrackingOptions s tMsg) ∧
      sessionsRelated pendingQueueOnly s (startBatching env s bMsg) ∧
      sessionsRelated pendingQueueOnly s (stopBatching s hMsg) ∧
      sessionsRelated pendingQueueOnly s (updateBatchingOptions s bMsg)) := by
  refine ⟨⟨?_, sessionsRelated_removeGeofences s rMsg, ?_,
      sessionsRelated_pauseGeofences s rMsg, sessionsRelated_resumeGeofences s rMsg⟩,
    sessionsRelated_startTracking env s tMsg, sessionsRelated_stopTracking D s hMsg,
    sessionsRelated_updateTrackingOptions s tMsg, sessionsRelated_startBatching env s bMsg,
    sessionsRelated_stopBatching s hMsg, sessionsRelated_updateBatchingOptions s bMsg⟩
  · cases hres : addGeofences D env s aMsg with
    | ok s' => exact sessionsRelated_addGeofences D env s s' aMsg hres
    | error _ => trivial
  · cases hres : modifyGeofences D env s aMsg with
    | ok s' => exact sessionsRelated_modifyGeofences D env s s' aMsg hres
    | error _ => trivial

end LocationApiService

end LocationHalDaemon
